import Mathlib

/-!
# The SYS state machine of the primary MCU (`engine/sys/sys.c`)

A shallow embedding of `sys.c`: the file-static `sys_state` becomes an explicit
value of `SYS_STATE_s` that every function takes and returns, the calls into
other modules become a list of `SYS_CALL`s in program order, and the values the
polled modules return during one call of `SYS_Trigger` are the fields of a
`SYS_PROXY_s` record.  The header `sys.h` and the build configuration are not
part of the sources at hand, so the enumerations list the enumerators `sys.c`
names and the macros are the fields of `SYS_CONFIG_s`.
-/

namespace FoxBMS

/-! ## Types declared in headers -/

/-- States of the SYS state machine: the enumerators of `SYS_STATEMACH_e` that
`sys.c` uses. -/
inductive SYS_STATEMACH_e
  | SYS_STATEMACH_UNINITIALIZED
  | SYS_STATEMACH_INITIALIZATION
  | SYS_STATEMACH_INITIALIZED
  | SYS_STATEMACH_INITIALIZE_INTERLOCK
  | SYS_STATEMACH_INITIALIZE_CONTACTORS
  | SYS_STATEMACH_INITIALIZE_BALANCING
  | SYS_STATEMACH_INITIALIZE_ISOGUARD
  | SYS_STATEMACH_FIRST_MEASUREMENT_CYCLE
  | SYS_STATEMACH_CHECK_CURRENT_SENSOR_PRESENCE
  | SYS_STATEMACH_INITIALIZE_MISC
  | SYS_STATEMACH_INITIALIZE_BMS
  | SYS_STATEMACH_RUNNING
  | SYS_STATEMACH_ERROR
  deriving DecidableEq, Repr

/-- Substates of the SYS state machine: the enumerators of the substate type
that `sys.c` uses. -/
inductive SYS_STATEMACH_SUB_e
  | SYS_ENTRY
  | SYS_WAIT_INITIALIZATION_INTERLOCK
  | SYS_WAIT_INITIALIZATION_CONT
  | SYS_WAIT_INITIALIZATION_BAL
  | SYS_WAIT_FIRST_MEASUREMENT_CYCLE
  | SYS_WAIT_CURRENT_SENSOR_PRESENCE
  | SYS_WAIT_INITIALIZATION_BMS
  | SYS_ILCK_INIT_ERROR
  | SYS_CONT_INIT_ERROR
  | SYS_BAL_INIT_ERROR
  | SYS_MEAS_INIT_ERROR
  | SYS_CURRENT_SENSOR_PRESENCE_ERROR
  | SYS_BMS_INIT_ERROR
  deriving DecidableEq, Repr

/-- State requests.  `sys.c` names three enumerators; a C caller can pass any
other value of the underlying integer type, which is
`SYS_STATE_OTHER_REQUEST code`. -/
inductive SYS_STATE_REQUEST_e
  | SYS_STATE_INIT_REQUEST
  | SYS_STATE_ERROR_REQUEST
  | SYS_STATE_NO_REQUEST
  | SYS_STATE_OTHER_REQUEST (code : Nat)
  deriving DecidableEq, Repr

/-- Return values of `SYS_SetStateRequest`. -/
inductive SYS_RETURN_TYPE_e
  | SYS_OK
  | SYS_REQUEST_PENDING
  | SYS_ILLEGAL_REQUEST
  | SYS_ALREADY_INITIALIZED
  deriving DecidableEq, Repr

/-- The standard return type of the polled initialisation getters. -/
inductive STD_RETURN_TYPE_e
  | E_OK
  | E_NOT_OK
  deriving DecidableEq, Repr

/-- States of the interlock state machine as far as `sys.c` looks at them:
the two enumerators it names, and any other value. -/
inductive ILCK_STATEMACH_e
  | ILCK_STATEMACH_UNDEFINED
  | ILCK_STATEMACH_WAIT_FIRST_REQUEST
  | ILCK_STATEMACH_OTHER (code : Nat)
  deriving DecidableEq, Repr

/-- Requests `sys.c` sends to the interlock module. -/
inductive ILCK_STATE_REQUEST_e
  | ILCK_STATE_INIT_REQUEST
  | ILCK_STATE_OPEN_REQUEST
  deriving DecidableEq, Repr

/-- Requests `sys.c` sends to the balancing module. -/
inductive BAL_STATE_REQUEST_e
  | BAL_STATE_INIT_REQUEST
  | BAL_STATE_GLOBAL_DISABLE_REQUEST
  | BAL_STATE_GLOBAL_ENABLE_REQUEST
  deriving DecidableEq, Repr

/-- Events reported to the diagnosis module. -/
inductive DIAG_EVENT_e
  | DIAG_EVENT_OK
  | DIAG_EVENT_NOK
  deriving DecidableEq, Repr

/-- The calls `sys.c` makes into other modules, with their arguments.
`DIAG_SysMonNotify` stands for `DIAG_SysMonNotify(DIAG_SYSMON_SYS_ID, 0)` and
`DIAG_Handler e` for `DIAG_Handler(DIAG_CH_DEEP_DISCHARGE_DETECTED, e, 0)`;
`CONT_SetStateRequest` and `BMS_SetStateRequest` are only ever called with the
init request of their module. -/
inductive SYS_CALL
  | DIAG_SysMonNotify
  | SYS_SendBootMessage (directTransmission : Nat)
  | DIAG_Handler (event : DIAG_EVENT_e)
  | ILCK_SetStateRequest (statereq : ILCK_STATE_REQUEST_e)
  | ILCK_GetState
  | CONT_SetStateRequest
  | CONT_GetInitializationState
  | BAL_SetStateRequest (statereq : BAL_STATE_REQUEST_e)
  | BAL_GetInitializationState
  | ISO_Init
  | MEAS_StartMeasurement
  | MEAS_IsFirstMeasurementCycleFinished
  | MEAS_Request_OpenWireCheck
  | CANS_Enable_Periodic (command : Bool)
  | CANS_IsCurrentSensorPresent
  | CANS_IsCurrentSensorCCPresent
  | SOF_Init
  | SOC_Init (cc_present : Bool)
  | BMS_SetStateRequest
  | BMS_GetInitializationState
  deriving DecidableEq, Repr

/-- The macros `sys.c` takes from headers that are not at hand.  A Boolean field
is true when the `#if` or `==` test the source makes on the macro succeeds.
`ErrRequestCounter_bits` is the width of the unsigned field
`ErrRequestCounter`, declared in `sys.h`. -/
structure SYS_CONFIG_s where
  BUILD_MODULE_ENABLE_ILCK : Bool
  BUILD_MODULE_ENABLE_CONTACTOR : Bool
  BUILD_MODULE_ENABLE_ISOGUARD : Bool
  CURRENT_SENSOR_PRESENT : Bool
  CURRENT_SENSOR_ISABELLENHUETTE_TRIGGERED : Bool
  BALANCING_DEFAULT_INACTIVE : Bool
  SYS_TASK_CYCLE_CONTEXT_MS : Nat
  SYS_STATEMACH_SHORTTIME_MS : Nat
  SYS_STATEMACH_MEDIUMTIME_MS : Nat
  SYS_STATEMACH_LONGTIME_MS : Nat
  ErrRequestCounter_bits : Nat
  deriving DecidableEq, Repr

/-- What the polled modules answer during one call of `SYS_Trigger`; every
getter is called at most once per call. -/
structure SYS_PROXY_s where
  RTC_DEEP_DISCHARGE_DETECTED : Nat
  ILCK_GetState : ILCK_STATEMACH_e
  CONT_GetInitializationState : STD_RETURN_TYPE_e
  BAL_GetInitializationState : STD_RETURN_TYPE_e
  MEAS_IsFirstMeasurementCycleFinished : Bool
  CANS_IsCurrentSensorPresent : Bool
  CANS_IsCurrentSensorCCPresent : Bool
  BMS_GetInitializationState : STD_RETURN_TYPE_e
  deriving DecidableEq, Repr

/-- The state variable of the SYS state machine.  The counters are unsigned
machine integers: `timer` and `triggerentry` are only decremented when they are
not zero, `InitCounter` is only incremented while it is at most
`100 / SYS_TASK_CYCLE_CONTEXT_MS`, and `ErrRequestCounter` wraps around at
`2 ^ ErrRequestCounter_bits`. -/
structure SYS_STATE_s where
  timer : Nat
  statereq : SYS_STATE_REQUEST_e
  state : SYS_STATEMACH_e
  substate : SYS_STATEMACH_SUB_e
  laststate : SYS_STATEMACH_e
  lastsubstate : SYS_STATEMACH_SUB_e
  triggerentry : Nat
  ErrRequestCounter : Nat
  InitCounter : Nat
  deriving DecidableEq, Repr

/-- What one call of `SYS_Trigger` does: the state it leaves, the calls it made
in program order, and whether it ran into `configASSERT(0)`, which does not
return. -/
structure SYS_TRIGGER_s where
  st : SYS_STATE_s
  calls : List SYS_CALL
  trapped : Bool
  deriving DecidableEq, Repr

open SYS_STATEMACH_e SYS_STATEMACH_SUB_e SYS_STATE_REQUEST_e SYS_RETURN_TYPE_e
open STD_RETURN_TYPE_e ILCK_STATEMACH_e ILCK_STATE_REQUEST_e BAL_STATE_REQUEST_e DIAG_EVENT_e

/-! ## The state variable and the request interface -/

/-- The initial value of the static `sys_state`; `.lastsubstate = 0` is the
first enumerator, `SYS_ENTRY`, and the field without initialiser is zero. -/
def sys_state : SYS_STATE_s :=
  { timer := 0
    statereq := SYS_STATE_NO_REQUEST
    state := SYS_STATEMACH_UNINITIALIZED
    substate := SYS_ENTRY
    laststate := SYS_STATEMACH_UNINITIALIZED
    lastsubstate := SYS_ENTRY
    triggerentry := 0
    ErrRequestCounter := 0
    InitCounter := 0 }

/-- The macro `SYS_SAVELASTSTATES()`. -/
def SYS_SAVELASTSTATES (s : SYS_STATE_s) : SYS_STATE_s :=
  { s with laststate := s.state, lastsubstate := s.substate }

/-- Re-entrance check: `0` and the flag raised when no instance is active,
`0xFF` and no change otherwise. -/
def SYS_CheckReEntrance (s : SYS_STATE_s) : SYS_STATE_s × Nat :=
  if s.triggerentry = 0 then
    ({ s with triggerentry := s.triggerentry + 1 }, 0)
  else
    (s, 0xFF)

/-- Reads the current state request. -/
def SYS_GetStateRequest (s : SYS_STATE_s) : SYS_STATE_REQUEST_e :=
  s.statereq

/-- Reads the current state. -/
def SYS_GetState (s : SYS_STATE_s) : SYS_STATEMACH_e :=
  s.state

/-- Hands the current state request to the state machine and resets the slot
to `SYS_STATE_NO_REQUEST`. -/
def SYS_TransferStateRequest (s : SYS_STATE_s) : SYS_STATE_s × SYS_STATE_REQUEST_e :=
  ({ s with statereq := SYS_STATE_NO_REQUEST }, s.statereq)

/-- Checks the validity of a state request. -/
def SYS_CheckStateRequest (s : SYS_STATE_s) (statereq : SYS_STATE_REQUEST_e) :
    SYS_RETURN_TYPE_e :=
  if statereq = SYS_STATE_ERROR_REQUEST then
    SYS_OK
  else
    if s.statereq = SYS_STATE_NO_REQUEST then
      if statereq = SYS_STATE_INIT_REQUEST then
        if s.state = SYS_STATEMACH_UNINITIALIZED then
          SYS_OK
        else
          SYS_ALREADY_INITIALIZED
      else
        SYS_ILLEGAL_REQUEST
    else
      SYS_REQUEST_PENDING

/-- Sets the state request when the check allows it; returns the new state
variable and the result of the check. -/
def SYS_SetStateRequest (s : SYS_STATE_s) (statereq : SYS_STATE_REQUEST_e) :
    SYS_STATE_s × SYS_RETURN_TYPE_e :=
  let retVal := SYS_CheckStateRequest s statereq
  if retVal = SYS_OK then
    ({ s with statereq := statereq }, retVal)
  else
    (s, retVal)

/-! ## The trigger function -/

/-- The retry budget `100 / SYS_TASK_CYCLE_CONTEXT_MS` that `InitCounter` is
compared with (integer division of two integer constants). -/
def SYS_InitBudget (cfg : SYS_CONFIG_s) : Nat :=
  100 / cfg.SYS_TASK_CYCLE_CONTEXT_MS

/-- A branch of the switch that ends in `break`. -/
def SYS_Break (s : SYS_STATE_s) (calls : List SYS_CALL) : SYS_TRIGGER_s :=
  { st := s, calls := calls, trapped := false }

/-- The default case of the switch: `configASSERT(0)`. -/
def SYS_Trap (s : SYS_STATE_s) : SYS_TRIGGER_s :=
  { st := s, calls := [], trapped := true }

/-- The `switch (sys_state.state)` of `SYS_Trigger`.  A case that the build
configuration compiles out falls into the default case. -/
def SYS_StateSwitch (cfg : SYS_CONFIG_s) (env : SYS_PROXY_s) (s : SYS_STATE_s) :
    SYS_TRIGGER_s :=
  match s.state with
  | SYS_STATEMACH_UNINITIALIZED =>
    let t := SYS_TransferStateRequest s
    let s := t.1
    let statereq := t.2
    if statereq = SYS_STATE_INIT_REQUEST then
      let s := SYS_SAVELASTSTATES s
      SYS_Break { s with timer := cfg.SYS_STATEMACH_SHORTTIME_MS
                         state := SYS_STATEMACH_INITIALIZATION
                         substate := SYS_ENTRY } []
    else if statereq = SYS_STATE_NO_REQUEST then
      SYS_Break s []
    else
      SYS_Break { s with ErrRequestCounter :=
                    (s.ErrRequestCounter + 1) % 2 ^ cfg.ErrRequestCounter_bits } []
  | SYS_STATEMACH_INITIALIZATION =>
    let s := SYS_SAVELASTSTATES s
    let diag :=
      if env.RTC_DEEP_DISCHARGE_DETECTED = 1 then SYS_CALL.DIAG_Handler DIAG_EVENT_NOK
      else SYS_CALL.DIAG_Handler DIAG_EVENT_OK
    SYS_Break { s with timer := cfg.SYS_STATEMACH_SHORTTIME_MS
                       state := SYS_STATEMACH_INITIALIZED
                       substate := SYS_ENTRY }
      [SYS_CALL.SYS_SendBootMessage 1, diag]
  | SYS_STATEMACH_INITIALIZED =>
    let s := SYS_SAVELASTSTATES s
    SYS_Break { s with timer := cfg.SYS_STATEMACH_SHORTTIME_MS
                       state :=
                         if cfg.BUILD_MODULE_ENABLE_ILCK then SYS_STATEMACH_INITIALIZE_INTERLOCK
                         else if cfg.BUILD_MODULE_ENABLE_CONTACTOR then
                           SYS_STATEMACH_INITIALIZE_CONTACTORS
                         else SYS_STATEMACH_INITIALIZE_BALANCING
                       substate := SYS_ENTRY } []
  | SYS_STATEMACH_INITIALIZE_INTERLOCK =>
    if cfg.BUILD_MODULE_ENABLE_ILCK then
      let s := SYS_SAVELASTSTATES s
      if s.substate = SYS_ENTRY then
        SYS_Break { s with timer := cfg.SYS_STATEMACH_SHORTTIME_MS
                           substate := SYS_WAIT_INITIALIZATION_INTERLOCK
                           InitCounter := 0 }
          [SYS_CALL.ILCK_SetStateRequest ILCK_STATE_INIT_REQUEST]
      else if s.substate = SYS_WAIT_INITIALIZATION_INTERLOCK then
        let ilckstate := env.ILCK_GetState
        if ilckstate = ILCK_STATEMACH_WAIT_FIRST_REQUEST then
          SYS_Break { s with timer := cfg.SYS_STATEMACH_SHORTTIME_MS
                             state :=
                               if cfg.BUILD_MODULE_ENABLE_CONTACTOR then
                                 SYS_STATEMACH_INITIALIZE_CONTACTORS
                               else SYS_STATEMACH_INITIALIZE_BALANCING
                             substate := SYS_ENTRY }
            [SYS_CALL.ILCK_GetState, SYS_CALL.ILCK_SetStateRequest ILCK_STATE_OPEN_REQUEST]
        else
          if s.InitCounter > SYS_InitBudget cfg then
            SYS_Break { s with timer := cfg.SYS_STATEMACH_SHORTTIME_MS
                               state := SYS_STATEMACH_ERROR
                               substate := SYS_ILCK_INIT_ERROR }
              [SYS_CALL.ILCK_GetState]
          else
            SYS_Break { s with timer := cfg.SYS_STATEMACH_SHORTTIME_MS
                               InitCounter := s.InitCounter + 1 }
              [SYS_CALL.ILCK_GetState]
      else
        SYS_Break s []
    else
      SYS_Trap s
  | SYS_STATEMACH_INITIALIZE_CONTACTORS =>
    if cfg.BUILD_MODULE_ENABLE_CONTACTOR then
      let s := SYS_SAVELASTSTATES s
      if s.substate = SYS_ENTRY then
        SYS_Break { s with timer := cfg.SYS_STATEMACH_SHORTTIME_MS
                           substate := SYS_WAIT_INITIALIZATION_CONT
                           InitCounter := 0 }
          [SYS_CALL.CONT_SetStateRequest]
      else if s.substate = SYS_WAIT_INITIALIZATION_CONT then
        let contstate := env.CONT_GetInitializationState
        if contstate = E_OK then
          SYS_Break { s with timer := cfg.SYS_STATEMACH_SHORTTIME_MS
                             state := SYS_STATEMACH_INITIALIZE_BALANCING
                             substate := SYS_ENTRY }
            [SYS_CALL.CONT_GetInitializationState]
        else
          if s.InitCounter > SYS_InitBudget cfg then
            SYS_Break { s with timer := cfg.SYS_STATEMACH_SHORTTIME_MS
                               state := SYS_STATEMACH_ERROR
                               substate := SYS_CONT_INIT_ERROR }
              [SYS_CALL.CONT_GetInitializationState]
          else
            SYS_Break { s with timer := cfg.SYS_STATEMACH_SHORTTIME_MS
                               InitCounter := s.InitCounter + 1 }
              [SYS_CALL.CONT_GetInitializationState]
      else
        SYS_Break s []
    else
      SYS_Trap s
  | SYS_STATEMACH_INITIALIZE_BALANCING =>
    let s := SYS_SAVELASTSTATES s
    if s.substate = SYS_ENTRY then
      SYS_Break { s with timer := cfg.SYS_STATEMACH_SHORTTIME_MS
                         substate := SYS_WAIT_INITIALIZATION_BAL
                         InitCounter := 0 }
        [SYS_CALL.BAL_SetStateRequest BAL_STATE_INIT_REQUEST]
    else if s.substate = SYS_WAIT_INITIALIZATION_BAL then
      let balInitState := env.BAL_GetInitializationState
      let calls :=
        [SYS_CALL.BAL_GetInitializationState,
         if cfg.BALANCING_DEFAULT_INACTIVE then
           SYS_CALL.BAL_SetStateRequest BAL_STATE_GLOBAL_DISABLE_REQUEST
         else
           SYS_CALL.BAL_SetStateRequest BAL_STATE_GLOBAL_ENABLE_REQUEST]
      if balInitState = E_OK then
        SYS_Break { s with timer := cfg.SYS_STATEMACH_SHORTTIME_MS
                           state := SYS_STATEMACH_INITIALIZE_ISOGUARD
                           substate := SYS_ENTRY } calls
      else
        if s.InitCounter > SYS_InitBudget cfg then
          SYS_Break { s with timer := cfg.SYS_STATEMACH_SHORTTIME_MS
                             state := SYS_STATEMACH_ERROR
                             substate := SYS_BAL_INIT_ERROR } calls
        else
          SYS_Break { s with timer := cfg.SYS_STATEMACH_SHORTTIME_MS
                             InitCounter := s.InitCounter + 1 } calls
    else
      SYS_Break s []
  | SYS_STATEMACH_INITIALIZE_ISOGUARD =>
    SYS_Break { s with timer := cfg.SYS_STATEMACH_SHORTTIME_MS
                       state := SYS_STATEMACH_FIRST_MEASUREMENT_CYCLE
                       substate := SYS_ENTRY }
      (if cfg.BUILD_MODULE_ENABLE_ISOGUARD then [SYS_CALL.ISO_Init] else [])
  | SYS_STATEMACH_FIRST_MEASUREMENT_CYCLE =>
    let s := SYS_SAVELASTSTATES s
    if s.substate = SYS_ENTRY then
      SYS_Break { s with InitCounter := 0
                         substate := SYS_WAIT_FIRST_MEASUREMENT_CYCLE }
        [SYS_CALL.MEAS_StartMeasurement]
    else if s.substate = SYS_WAIT_FIRST_MEASUREMENT_CYCLE then
      if env.MEAS_IsFirstMeasurementCycleFinished = true then
        SYS_Break { s with timer := cfg.SYS_STATEMACH_SHORTTIME_MS
                           state :=
                             if cfg.CURRENT_SENSOR_PRESENT then
                               SYS_STATEMACH_CHECK_CURRENT_SENSOR_PRESENCE
                             else SYS_STATEMACH_INITIALIZE_MISC
                           substate := SYS_ENTRY }
          [SYS_CALL.MEAS_IsFirstMeasurementCycleFinished, SYS_CALL.MEAS_Request_OpenWireCheck]
      else
        if s.InitCounter > SYS_InitBudget cfg then
          SYS_Break { s with timer := cfg.SYS_STATEMACH_SHORTTIME_MS
                             state := SYS_STATEMACH_ERROR
                             substate := SYS_MEAS_INIT_ERROR }
            [SYS_CALL.MEAS_IsFirstMeasurementCycleFinished]
        else
          SYS_Break { s with timer := cfg.SYS_STATEMACH_MEDIUMTIME_MS
                             InitCounter := s.InitCounter + 1 }
            [SYS_CALL.MEAS_IsFirstMeasurementCycleFinished]
    else
      SYS_Break s []
  | SYS_STATEMACH_CHECK_CURRENT_SENSOR_PRESENCE =>
    let s := SYS_SAVELASTSTATES s
    if s.substate = SYS_ENTRY then
      SYS_Break { s with InitCounter := 0
                         timer :=
                           if cfg.CURRENT_SENSOR_ISABELLENHUETTE_TRIGGERED then
                             cfg.SYS_STATEMACH_LONGTIME_MS
                           else cfg.SYS_STATEMACH_SHORTTIME_MS
                         substate := SYS_WAIT_CURRENT_SENSOR_PRESENCE }
        [SYS_CALL.CANS_Enable_Periodic false]
    else if s.substate = SYS_WAIT_CURRENT_SENSOR_PRESENCE then
      if env.CANS_IsCurrentSensorPresent = true then
        SYS_Break { s with timer := cfg.SYS_STATEMACH_SHORTTIME_MS
                           state := SYS_STATEMACH_INITIALIZE_MISC
                           substate := SYS_ENTRY }
          [SYS_CALL.CANS_IsCurrentSensorPresent, SYS_CALL.SOF_Init,
           SYS_CALL.CANS_IsCurrentSensorCCPresent,
           if env.CANS_IsCurrentSensorCCPresent = true then SYS_CALL.SOC_Init true
           else SYS_CALL.SOC_Init false]
      else
        if s.InitCounter > SYS_InitBudget cfg then
          SYS_Break { s with timer := cfg.SYS_STATEMACH_SHORTTIME_MS
                             state := SYS_STATEMACH_ERROR
                             substate := SYS_CURRENT_SENSOR_PRESENCE_ERROR }
            [SYS_CALL.CANS_IsCurrentSensorPresent]
        else
          SYS_Break { s with timer := cfg.SYS_STATEMACH_MEDIUMTIME_MS
                             InitCounter := s.InitCounter + 1 }
            [SYS_CALL.CANS_IsCurrentSensorPresent]
    else
      SYS_Break s []
  | SYS_STATEMACH_INITIALIZE_MISC =>
    let s := SYS_SAVELASTSTATES s
    SYS_Break { s with timer := cfg.SYS_STATEMACH_MEDIUMTIME_MS
                       state := SYS_STATEMACH_INITIALIZE_BMS
                       substate := SYS_ENTRY }
      (if cfg.CURRENT_SENSOR_PRESENT = false then
         [SYS_CALL.CANS_Enable_Periodic false, SYS_CALL.SOC_Init false]
       else [])
  | SYS_STATEMACH_INITIALIZE_BMS =>
    let s := SYS_SAVELASTSTATES s
    if s.substate = SYS_ENTRY then
      SYS_Break { s with timer := cfg.SYS_STATEMACH_SHORTTIME_MS
                         substate := SYS_WAIT_INITIALIZATION_BMS
                         InitCounter := 0 }
        [SYS_CALL.BMS_SetStateRequest]
    else if s.substate = SYS_WAIT_INITIALIZATION_BMS then
      let bmsstate := env.BMS_GetInitializationState
      if bmsstate = E_OK then
        SYS_Break { s with timer := cfg.SYS_STATEMACH_SHORTTIME_MS
                           state := SYS_STATEMACH_RUNNING
                           substate := SYS_ENTRY }
          [SYS_CALL.BMS_GetInitializationState]
      else
        if s.InitCounter > SYS_InitBudget cfg then
          SYS_Break { s with timer := cfg.SYS_STATEMACH_SHORTTIME_MS
                             state := SYS_STATEMACH_ERROR
                             substate := SYS_BMS_INIT_ERROR }
            [SYS_CALL.BMS_GetInitializationState]
        else
          SYS_Break { s with timer := cfg.SYS_STATEMACH_SHORTTIME_MS
                             InitCounter := s.InitCounter + 1 }
            [SYS_CALL.BMS_GetInitializationState]
    else
      SYS_Break s []
  | SYS_STATEMACH_RUNNING =>
    let s := SYS_SAVELASTSTATES s
    SYS_Break { s with timer := cfg.SYS_STATEMACH_LONGTIME_MS } []
  | SYS_STATEMACH_ERROR =>
    let s := SYS_SAVELASTSTATES s
    SYS_Break { s with timer := cfg.SYS_STATEMACH_LONGTIME_MS }
      [SYS_CALL.CANS_Enable_Periodic false]

/-- The part of `SYS_Trigger` behind the timer gate: the switch, and after it
`sys_state.triggerentry--` unless the switch trapped.  The calls are those of
the whole call of `SYS_Trigger` on this path, so they start with the alive
notification made on entry. -/
def SYS_Dispatch (cfg : SYS_CONFIG_s) (env : SYS_PROXY_s) (s : SYS_STATE_s) :
    SYS_TRIGGER_s :=
  let r := SYS_StateSwitch cfg env s
  if r.trapped then
    { st := r.st, calls := SYS_CALL.DIAG_SysMonNotify :: r.calls, trapped := true }
  else
    { st := { r.st with triggerentry := r.st.triggerentry - 1 }
      calls := SYS_CALL.DIAG_SysMonNotify :: r.calls
      trapped := false }

/-- The trigger function of the SYS state machine: the alive notification, the
re-entrance check, the timer gate, and the state switch. -/
def SYS_Trigger (cfg : SYS_CONFIG_s) (env : SYS_PROXY_s) (s : SYS_STATE_s) :
    SYS_TRIGGER_s :=
  let c := SYS_CheckReEntrance s
  if c.2 ≠ 0 then
    { st := c.1, calls := [SYS_CALL.DIAG_SysMonNotify], trapped := false }
  else
    let s := c.1
    if s.timer ≠ 0 then
      let s := { s with timer := s.timer - 1 }
      if s.timer ≠ 0 then
        { st := { s with triggerentry := s.triggerentry - 1 }
          calls := [SYS_CALL.DIAG_SysMonNotify]
          trapped := false }
      else
        SYS_Dispatch cfg env s
    else
      SYS_Dispatch cfg env s

/-- Successive calls of `SYS_Trigger`, one per element of `envs`; a call that
traps is the last one. -/
def SYS_TriggerSeq (cfg : SYS_CONFIG_s) : List SYS_PROXY_s → SYS_STATE_s → SYS_TRIGGER_s
  | [], s => { st := s, calls := [], trapped := false }
  | env :: envs, s =>
    let r := SYS_Trigger cfg env s
    if r.trapped then r
    else
      let r2 := SYS_TriggerSeq cfg envs r.st
      { st := r2.st, calls := r.calls ++ r2.calls, trapped := r2.trapped }

/-- Successive runs of the state switch, one per element of `envs`: the state
variable as seen from one poll to the next. -/
def SYS_SwitchSeq (cfg : SYS_CONFIG_s) : List SYS_PROXY_s → SYS_STATE_s → SYS_STATE_s
  | [], s => s
  | env :: envs, s => SYS_SwitchSeq cfg envs (SYS_StateSwitch cfg env s).st

/-! ## Vocabulary for the stages and example inputs -/

/-- The substate in which a stage polls its module, for the six stages that
have one. -/
def SYS_WaitSubstate : SYS_STATEMACH_e → Option SYS_STATEMACH_SUB_e
  | SYS_STATEMACH_INITIALIZE_INTERLOCK => some SYS_WAIT_INITIALIZATION_INTERLOCK
  | SYS_STATEMACH_INITIALIZE_CONTACTORS => some SYS_WAIT_INITIALIZATION_CONT
  | SYS_STATEMACH_INITIALIZE_BALANCING => some SYS_WAIT_INITIALIZATION_BAL
  | SYS_STATEMACH_FIRST_MEASUREMENT_CYCLE => some SYS_WAIT_FIRST_MEASUREMENT_CYCLE
  | SYS_STATEMACH_CHECK_CURRENT_SENSOR_PRESENCE => some SYS_WAIT_CURRENT_SENSOR_PRESENCE
  | SYS_STATEMACH_INITIALIZE_BMS => some SYS_WAIT_INITIALIZATION_BMS
  | _ => none

/-- The error substate a stage leaves behind when it gives up, for the six
stages that poll a module. -/
def SYS_ErrorSubstate : SYS_STATEMACH_e → Option SYS_STATEMACH_SUB_e
  | SYS_STATEMACH_INITIALIZE_INTERLOCK => some SYS_ILCK_INIT_ERROR
  | SYS_STATEMACH_INITIALIZE_CONTACTORS => some SYS_CONT_INIT_ERROR
  | SYS_STATEMACH_INITIALIZE_BALANCING => some SYS_BAL_INIT_ERROR
  | SYS_STATEMACH_FIRST_MEASUREMENT_CYCLE => some SYS_MEAS_INIT_ERROR
  | SYS_STATEMACH_CHECK_CURRENT_SENSOR_PRESENCE => some SYS_CURRENT_SENSOR_PRESENCE_ERROR
  | SYS_STATEMACH_INITIALIZE_BMS => some SYS_BMS_INIT_ERROR
  | _ => none

/-- Whether the module a stage polls fails the test the stage makes on its
answer. -/
def SYS_NotReady (env : SYS_PROXY_s) : SYS_STATEMACH_e → Bool
  | SYS_STATEMACH_INITIALIZE_INTERLOCK =>
    decide (env.ILCK_GetState ≠ ILCK_STATEMACH_WAIT_FIRST_REQUEST)
  | SYS_STATEMACH_INITIALIZE_CONTACTORS => decide (env.CONT_GetInitializationState ≠ E_OK)
  | SYS_STATEMACH_INITIALIZE_BALANCING => decide (env.BAL_GetInitializationState ≠ E_OK)
  | SYS_STATEMACH_FIRST_MEASUREMENT_CYCLE =>
    decide (env.MEAS_IsFirstMeasurementCycleFinished ≠ true)
  | SYS_STATEMACH_CHECK_CURRENT_SENSOR_PRESENCE =>
    decide (env.CANS_IsCurrentSensorPresent ≠ true)
  | SYS_STATEMACH_INITIALIZE_BMS => decide (env.BMS_GetInitializationState ≠ E_OK)
  | _ => false

/-- The getter with which a stage polls its module, for the six stages that
poll one; each run of the wait substate calls it once. -/
def SYS_PollCall : SYS_STATEMACH_e → Option SYS_CALL
  | SYS_STATEMACH_INITIALIZE_INTERLOCK => some SYS_CALL.ILCK_GetState
  | SYS_STATEMACH_INITIALIZE_CONTACTORS => some SYS_CALL.CONT_GetInitializationState
  | SYS_STATEMACH_INITIALIZE_BALANCING => some SYS_CALL.BAL_GetInitializationState
  | SYS_STATEMACH_FIRST_MEASUREMENT_CYCLE => some SYS_CALL.MEAS_IsFirstMeasurementCycleFinished
  | SYS_STATEMACH_CHECK_CURRENT_SENSOR_PRESENCE => some SYS_CALL.CANS_IsCurrentSensorPresent
  | SYS_STATEMACH_INITIALIZE_BMS => some SYS_CALL.BMS_GetInitializationState
  | _ => none

/-- Whether the switch of this build configuration has a case for the state. -/
def SYS_Compiled (cfg : SYS_CONFIG_s) : SYS_STATEMACH_e → Bool
  | SYS_STATEMACH_INITIALIZE_INTERLOCK => cfg.BUILD_MODULE_ENABLE_ILCK
  | SYS_STATEMACH_INITIALIZE_CONTACTORS => cfg.BUILD_MODULE_ENABLE_CONTACTOR
  | _ => true

/-- A build with every module enabled, a 10 ms task cycle (retry budget 10),
32-bit request counter, and timer constants 1, 5 and 10, so that a short delay
lets the switch run on every call. -/
def SYS_config_10ms : SYS_CONFIG_s :=
  { BUILD_MODULE_ENABLE_ILCK := true
    BUILD_MODULE_ENABLE_CONTACTOR := true
    BUILD_MODULE_ENABLE_ISOGUARD := true
    CURRENT_SENSOR_PRESENT := true
    CURRENT_SENSOR_ISABELLENHUETTE_TRIGGERED := false
    BALANCING_DEFAULT_INACTIVE := true
    SYS_TASK_CYCLE_CONTEXT_MS := 10
    SYS_STATEMACH_SHORTTIME_MS := 1
    SYS_STATEMACH_MEDIUMTIME_MS := 5
    SYS_STATEMACH_LONGTIME_MS := 10
    ErrRequestCounter_bits := 32 }

/-- Answers of modules none of which is ready. -/
def SYS_proxy_not_ready : SYS_PROXY_s :=
  { RTC_DEEP_DISCHARGE_DETECTED := 0
    ILCK_GetState := ILCK_STATEMACH_UNDEFINED
    CONT_GetInitializationState := E_NOT_OK
    BAL_GetInitializationState := E_NOT_OK
    MEAS_IsFirstMeasurementCycleFinished := false
    CANS_IsCurrentSensorPresent := false
    CANS_IsCurrentSensorCCPresent := false
    BMS_GetInitializationState := E_NOT_OK }

/-- Answers of modules all of which are ready. -/
def SYS_proxy_ready : SYS_PROXY_s :=
  { RTC_DEEP_DISCHARGE_DETECTED := 0
    ILCK_GetState := ILCK_STATEMACH_WAIT_FIRST_REQUEST
    CONT_GetInitializationState := E_OK
    BAL_GetInitializationState := E_OK
    MEAS_IsFirstMeasurementCycleFinished := true
    CANS_IsCurrentSensorPresent := true
    CANS_IsCurrentSensorCCPresent := true
    BMS_GetInitializationState := E_OK }

/-- The state variable in a given state and substate, everything else as in
the initial value. -/
def SYS_stateAt (state : SYS_STATEMACH_e) (substate : SYS_STATEMACH_SUB_e) : SYS_STATE_s :=
  { sys_state with state := state, substate := substate }

/-! ## Sequences of calls, and the vocabulary of the traversal -/

/-- A call into the SYS module from outside: `SYS_SetStateRequest(statereq)`,
or `SYS_Trigger()` during which the polled modules answer `env`. -/
inductive SYS_EVENT
  | request (statereq : SYS_STATE_REQUEST_e)
  | trigger (env : SYS_PROXY_s)
  deriving DecidableEq, Repr

/-- A sequence of calls of `SYS_SetStateRequest` and `SYS_Trigger`, one after
the other; a call of `SYS_Trigger` that traps is the last one. -/
def SYS_Run (cfg : SYS_CONFIG_s) : List SYS_EVENT → SYS_STATE_s → SYS_TRIGGER_s
  | [], s => { st := s, calls := [], trapped := false }
  | SYS_EVENT.request statereq :: evs, s => SYS_Run cfg evs (SYS_SetStateRequest s statereq).1
  | SYS_EVENT.trigger env :: evs, s =>
    let r := SYS_Trigger cfg env s
    if r.trapped then r
    else
      let r2 := SYS_Run cfg evs r.st
      { st := r2.st, calls := r.calls ++ r2.calls, trapped := r2.trapped }

/-- The pairing of state and substate: entry or the stage's own wait substate
in the six polling stages, one of the six error substates in the error state,
entry in every other state. -/
def SYS_Paired (s : SYS_STATE_s) : Bool :=
  if s.state = SYS_STATEMACH_ERROR then
    decide (s.substate ∈ [SYS_ILCK_INIT_ERROR, SYS_CONT_INIT_ERROR, SYS_BAL_INIT_ERROR,
      SYS_MEAS_INIT_ERROR, SYS_CURRENT_SENSOR_PRESENCE_ERROR, SYS_BMS_INIT_ERROR])
  else
    match SYS_WaitSubstate s.state with
    | some wait => decide (s.substate = SYS_ENTRY ∨ s.substate = wait)
    | none => decide (s.substate = SYS_ENTRY)

/-- The traversal order of the stages, optional ones included. -/
def SYS_StageOrder : List SYS_STATEMACH_e :=
  [SYS_STATEMACH_UNINITIALIZED, SYS_STATEMACH_INITIALIZATION, SYS_STATEMACH_INITIALIZED,
   SYS_STATEMACH_INITIALIZE_INTERLOCK, SYS_STATEMACH_INITIALIZE_CONTACTORS,
   SYS_STATEMACH_INITIALIZE_BALANCING, SYS_STATEMACH_INITIALIZE_ISOGUARD,
   SYS_STATEMACH_FIRST_MEASUREMENT_CYCLE, SYS_STATEMACH_CHECK_CURRENT_SENSOR_PRESENCE,
   SYS_STATEMACH_INITIALIZE_MISC, SYS_STATEMACH_INITIALIZE_BMS, SYS_STATEMACH_RUNNING]

/-- Whether a stage of the traversal order is configured: the interlock, the
contactor and the current sensor stage are optional. -/
def SYS_Configured (cfg : SYS_CONFIG_s) : SYS_STATEMACH_e → Bool
  | SYS_STATEMACH_INITIALIZE_INTERLOCK => cfg.BUILD_MODULE_ENABLE_ILCK
  | SYS_STATEMACH_INITIALIZE_CONTACTORS => cfg.BUILD_MODULE_ENABLE_CONTACTOR
  | SYS_STATEMACH_CHECK_CURRENT_SENSOR_PRESENCE => cfg.CURRENT_SENSOR_PRESENT
  | _ => true

/-- The traversal order of a build: the configured stages, in order. -/
def SYS_TraversalOrder (cfg : SYS_CONFIG_s) : List SYS_STATEMACH_e :=
  SYS_StageOrder.filter (SYS_Configured cfg)

/-- The stages behind a given one in the traversal order, optional ones
included. -/
def SYS_StagesAfter (state : SYS_STATEMACH_e) : List SYS_STATEMACH_e :=
  (SYS_StageOrder.dropWhile (fun x => decide (x ≠ state))).tail

/-- The immediately next configured stage behind a given one; none behind the
running state, and none for the error state, which is no stage of the
order. -/
def SYS_NextStage (cfg : SYS_CONFIG_s) (state : SYS_STATEMACH_e) : Option SYS_STATEMACH_e :=
  (SYS_StagesAfter state).find? (SYS_Configured cfg)

/-- What holds of the state variable between calls once the state machine is
started from its initial value: the re-entrance flag is clear, the state is a
configured one (or the error state), and state and substate are paired. -/
def SYS_Invariant (cfg : SYS_CONFIG_s) (s : SYS_STATE_s) : Prop :=
  s.triggerentry = 0 ∧ SYS_Configured cfg s.state = true ∧ SYS_Paired s = true

/-- A build without interlock, contactors, isoguard and current sensor, with
the timing of `SYS_config_10ms`. -/
def SYS_config_bare : SYS_CONFIG_s :=
  { SYS_config_10ms with
    BUILD_MODULE_ENABLE_ILCK := false
    BUILD_MODULE_ENABLE_CONTACTOR := false
    BUILD_MODULE_ENABLE_ISOGUARD := false
    CURRENT_SENSOR_PRESENT := false }

/-- Whether every polled module passes the test its stage makes on its
answer. -/
def SYS_AllReady (env : SYS_PROXY_s) : Bool :=
  decide (env.ILCK_GetState = ILCK_STATEMACH_WAIT_FIRST_REQUEST ∧
    env.CONT_GetInitializationState = E_OK ∧
    env.BAL_GetInitializationState = E_OK ∧
    env.MEAS_IsFirstMeasurementCycleFinished = true ∧
    env.CANS_IsCurrentSensorPresent = true ∧
    env.BMS_GetInitializationState = E_OK)

/-- The states a sequence of calls of `SYS_Trigger` goes through, in the order
in which they are entered: the state at the start, and then every state a call
changes to. -/
def SYS_Visited (cfg : SYS_CONFIG_s) : List SYS_PROXY_s → SYS_STATE_s → List SYS_STATEMACH_e
  | [], s => [s.state]
  | env :: envs, s =>
    let r := SYS_Trigger cfg env s
    if r.trapped then [s.state]
    else if r.st.state = s.state then SYS_Visited cfg envs r.st
    else s.state :: SYS_Visited cfg envs r.st

/-- The longest delay the state machine puts into its timer, at least one. -/
def SYS_MaxDelay (cfg : SYS_CONFIG_s) : Nat :=
  max 1 (max cfg.SYS_STATEMACH_SHORTTIME_MS
    (max cfg.SYS_STATEMACH_MEDIUMTIME_MS cfg.SYS_STATEMACH_LONGTIME_MS))

/-- A number of calls of `SYS_Trigger` that is enough for the bring-up when
every module is ready at its first poll: sixteen runs of the switch behind the
first, each after at most the longest delay. -/
def SYS_BringUpTicks (cfg : SYS_CONFIG_s) : Nat :=
  1 + 16 * SYS_MaxDelay cfg

/-- The steps of the bring-up, numbered: one per state, two per polling stage
(entry and wait). -/
def SYS_Progress (state : SYS_STATEMACH_e) (substate : SYS_STATEMACH_SUB_e) : Nat :=
  match state with
  | SYS_STATEMACH_UNINITIALIZED => 0
  | SYS_STATEMACH_INITIALIZATION => 1
  | SYS_STATEMACH_INITIALIZED => 2
  | SYS_STATEMACH_INITIALIZE_INTERLOCK => if substate = SYS_ENTRY then 3 else 4
  | SYS_STATEMACH_INITIALIZE_CONTACTORS => if substate = SYS_ENTRY then 5 else 6
  | SYS_STATEMACH_INITIALIZE_BALANCING => if substate = SYS_ENTRY then 7 else 8
  | SYS_STATEMACH_INITIALIZE_ISOGUARD => 9
  | SYS_STATEMACH_FIRST_MEASUREMENT_CYCLE => if substate = SYS_ENTRY then 10 else 11
  | SYS_STATEMACH_CHECK_CURRENT_SENSOR_PRESENCE => if substate = SYS_ENTRY then 12 else 13
  | SYS_STATEMACH_INITIALIZE_MISC => 14
  | SYS_STATEMACH_INITIALIZE_BMS => if substate = SYS_ENTRY then 15 else 16
  | SYS_STATEMACH_RUNNING => 17
  | SYS_STATEMACH_ERROR => 17

/-- An upper bound of the number of calls of `SYS_Trigger` still needed to
reach the running state when every module is ready at its first poll. -/
def SYS_Potential (cfg : SYS_CONFIG_s) (s : SYS_STATE_s) : Nat :=
  if s.state = SYS_STATEMACH_RUNNING then 0
  else max s.timer 1 + (16 - SYS_Progress s.state s.substate) * SYS_MaxDelay cfg

/-! # Theorems -/

/-! ## The request interface -/

section Requests

open SYS_STATEMACH_e SYS_STATEMACH_SUB_e SYS_STATE_REQUEST_e SYS_RETURN_TYPE_e

/-- C1: while a request is pending, every request other than the error request
is answered `SYS_REQUEST_PENDING` and the state variable, the pending slot
included, stays as it is. -/
theorem SYS_SetStateRequest_pending (s : SYS_STATE_s) (statereq : SYS_STATE_REQUEST_e)
    (hpending : s.statereq ≠ SYS_STATE_NO_REQUEST)
    (hreq : statereq ≠ SYS_STATE_ERROR_REQUEST) :
    (SYS_SetStateRequest s statereq).2 = SYS_REQUEST_PENDING ∧
      (SYS_SetStateRequest s statereq).1 = s := by
  simp [SYS_SetStateRequest, SYS_CheckStateRequest, hpending, hreq]

/-- C1, the scenario: on the initial state an init request is accepted and
stored, and a second init request right after it, with no trigger in between,
finds the slot taken, is answered `SYS_REQUEST_PENDING` and changes nothing. -/
theorem SYS_SetStateRequest_pending_witness :
    (SYS_SetStateRequest sys_state SYS_STATE_INIT_REQUEST).2 = SYS_OK ∧
      (SYS_SetStateRequest sys_state SYS_STATE_INIT_REQUEST).1.statereq
        ≠ SYS_STATE_NO_REQUEST ∧
      SYS_STATE_INIT_REQUEST ≠ SYS_STATE_ERROR_REQUEST ∧
      (SYS_SetStateRequest (SYS_SetStateRequest sys_state SYS_STATE_INIT_REQUEST).1
          SYS_STATE_INIT_REQUEST).2 = SYS_REQUEST_PENDING ∧
      (SYS_SetStateRequest (SYS_SetStateRequest sys_state SYS_STATE_INIT_REQUEST).1
          SYS_STATE_INIT_REQUEST).1
        = (SYS_SetStateRequest sys_state SYS_STATE_INIT_REQUEST).1 :=
  ⟨by decide, by decide, by decide,
    SYS_SetStateRequest_pending (SYS_SetStateRequest sys_state SYS_STATE_INIT_REQUEST).1
      SYS_STATE_INIT_REQUEST (by decide) (by decide)⟩

/-- C2: in every state an error request is answered `SYS_OK` and written into
the pending slot, whatever the slot held; no other field changes. -/
theorem SYS_SetStateRequest_error (s : SYS_STATE_s) :
    (SYS_SetStateRequest s SYS_STATE_ERROR_REQUEST).2 = SYS_OK ∧
      (SYS_SetStateRequest s SYS_STATE_ERROR_REQUEST).1.statereq = SYS_STATE_ERROR_REQUEST ∧
      (SYS_SetStateRequest s SYS_STATE_ERROR_REQUEST).1
        = { s with statereq := SYS_STATE_ERROR_REQUEST } := by
  simp [SYS_SetStateRequest, SYS_CheckStateRequest]

/-- C3: an init request is answered `SYS_OK` exactly when the state machine is
uninitialized and no request is pending; with a request pending the answer is
`SYS_REQUEST_PENDING` in every state, and with none pending outside the
uninitialized state it is `SYS_ALREADY_INITIALIZED`. -/
theorem SYS_SetStateRequest_init (s : SYS_STATE_s) :
    ((SYS_SetStateRequest s SYS_STATE_INIT_REQUEST).2 = SYS_OK ↔
        (s.state = SYS_STATEMACH_UNINITIALIZED ∧ s.statereq = SYS_STATE_NO_REQUEST)) ∧
      (s.statereq ≠ SYS_STATE_NO_REQUEST →
        (SYS_SetStateRequest s SYS_STATE_INIT_REQUEST).2 = SYS_REQUEST_PENDING) ∧
      (s.statereq = SYS_STATE_NO_REQUEST → s.state ≠ SYS_STATEMACH_UNINITIALIZED →
        (SYS_SetStateRequest s SYS_STATE_INIT_REQUEST).2 = SYS_ALREADY_INITIALIZED) := by
  by_cases hp : s.statereq = SYS_STATE_NO_REQUEST <;>
    by_cases hu : s.state = SYS_STATEMACH_UNINITIALIZED <;>
    simp [SYS_SetStateRequest, SYS_CheckStateRequest, hp, hu]

/-- C4: the request is written into the pending slot, and nothing else
changes, when the answer is `SYS_OK`; with any of the three other answers the
state variable is unchanged; `state`, `substate` and `timer` are unchanged in
all cases; and `SYS_STATE_NO_REQUEST` is never accepted: it is answered
`SYS_ILLEGAL_REQUEST` when the slot is empty and `SYS_REQUEST_PENDING`
otherwise. -/
theorem SYS_SetStateRequest_stores_iff_ok (s : SYS_STATE_s) (statereq : SYS_STATE_REQUEST_e) :
    ((SYS_SetStateRequest s statereq).2 = SYS_OK →
        (SYS_SetStateRequest s statereq).1 = { s with statereq := statereq }) ∧
      ((SYS_SetStateRequest s statereq).2 = SYS_ILLEGAL_REQUEST ∨
          (SYS_SetStateRequest s statereq).2 = SYS_REQUEST_PENDING ∨
          (SYS_SetStateRequest s statereq).2 = SYS_ALREADY_INITIALIZED →
        (SYS_SetStateRequest s statereq).1 = s) ∧
      ((SYS_SetStateRequest s statereq).2 = SYS_OK ∨
        (SYS_SetStateRequest s statereq).2 = SYS_ILLEGAL_REQUEST ∨
        (SYS_SetStateRequest s statereq).2 = SYS_REQUEST_PENDING ∨
        (SYS_SetStateRequest s statereq).2 = SYS_ALREADY_INITIALIZED) ∧
      (SYS_SetStateRequest s statereq).1.state = s.state ∧
      (SYS_SetStateRequest s statereq).1.substate = s.substate ∧
      (SYS_SetStateRequest s statereq).1.timer = s.timer ∧
      (SYS_SetStateRequest s SYS_STATE_NO_REQUEST).2
        = (if s.statereq = SYS_STATE_NO_REQUEST then SYS_ILLEGAL_REQUEST
           else SYS_REQUEST_PENDING) ∧
      (SYS_SetStateRequest s SYS_STATE_NO_REQUEST).1 = s := by
  unfold SYS_SetStateRequest SYS_CheckStateRequest
  refine ⟨?_, ?_, ?_, ?_, ?_, ?_, ?_, ?_⟩ <;> split_ifs <;> simp_all

end Requests

/-! ## The paths through the trigger function -/

section Trigger

open SYS_STATEMACH_e SYS_STATEMACH_SUB_e SYS_STATE_REQUEST_e SYS_RETURN_TYPE_e
open STD_RETURN_TYPE_e

/-- A call that finds the re-entrance flag raised only notifies the system
monitor. -/
theorem SYS_Trigger_of_reentry (cfg : SYS_CONFIG_s) (env : SYS_PROXY_s) (s : SYS_STATE_s)
    (h : s.triggerentry ≠ 0) :
    SYS_Trigger cfg env s
      = { st := s, calls := [SYS_CALL.DIAG_SysMonNotify], trapped := false } := by
  simp [SYS_Trigger, SYS_CheckReEntrance, h]

/-- A call with the flag clear and a timer above one only decrements the
timer. -/
theorem SYS_Trigger_of_gate (cfg : SYS_CONFIG_s) (env : SYS_PROXY_s) (s : SYS_STATE_s)
    (h : s.triggerentry = 0) (ht : 1 < s.timer) :
    SYS_Trigger cfg env s
      = { st := { s with timer := s.timer - 1 }, calls := [SYS_CALL.DIAG_SysMonNotify],
          trapped := false } := by
  have h1 : s.timer ≠ 0 := by omega
  have h2 : s.timer - 1 ≠ 0 := by omega
  cases s
  simp_all [SYS_Trigger, SYS_CheckReEntrance]

/-- A call with the flag clear and a timer of zero or one runs the switch with
the timer at zero. -/
theorem SYS_Trigger_of_elapsed (cfg : SYS_CONFIG_s) (env : SYS_PROXY_s) (s : SYS_STATE_s)
    (h : s.triggerentry = 0) (ht : s.timer ≤ 1) :
    SYS_Trigger cfg env s = SYS_Dispatch cfg env { s with timer := 0, triggerentry := 1 } := by
  cases s with
  | mk timer statereq state substate laststate lastsubstate triggerentry ec ic =>
    simp only at h ht
    subst h
    interval_cases timer <;> simp [SYS_Trigger, SYS_CheckReEntrance]

/-- The switch never touches the re-entrance flag, and after it the flag is
decremented unless the switch trapped. -/
theorem SYS_Dispatch_st (cfg : SYS_CONFIG_s) (env : SYS_PROXY_s) (s : SYS_STATE_s) :
    (SYS_Dispatch cfg env s).st
      = if (SYS_StateSwitch cfg env s).trapped then (SYS_StateSwitch cfg env s).st
        else { (SYS_StateSwitch cfg env s).st with
                triggerentry := (SYS_StateSwitch cfg env s).st.triggerentry - 1 } := by
  by_cases h : (SYS_StateSwitch cfg env s).trapped = true <;> simp [SYS_Dispatch, h]

/-- The switch changes the request counter in one place only: in the
uninitialized state, when the pending request is neither the init request nor
`SYS_STATE_NO_REQUEST`. -/
theorem SYS_StateSwitch_ErrRequestCounter (cfg : SYS_CONFIG_s) (env : SYS_PROXY_s)
    (s : SYS_STATE_s) :
    (SYS_StateSwitch cfg env s).st.ErrRequestCounter =
      if s.state = SYS_STATEMACH_UNINITIALIZED ∧ s.statereq ≠ SYS_STATE_INIT_REQUEST ∧
          s.statereq ≠ SYS_STATE_NO_REQUEST then
        (s.ErrRequestCounter + 1) % 2 ^ cfg.ErrRequestCounter_bits
      else s.ErrRequestCounter := by
  cases s with
  | mk timer statereq state substate laststate lastsubstate triggerentry ec ic =>
    cases state <;>
      simp [SYS_StateSwitch, SYS_Break, SYS_Trap, SYS_SAVELASTSTATES,
        SYS_TransferStateRequest] <;>
      split_ifs <;> simp_all

/-- The request counter after a call of `SYS_Trigger`. -/
theorem SYS_Trigger_ErrRequestCounter (cfg : SYS_CONFIG_s) (env : SYS_PROXY_s)
    (s : SYS_STATE_s) :
    (SYS_Trigger cfg env s).st.ErrRequestCounter =
      if s.triggerentry = 0 ∧ s.timer ≤ 1 ∧ s.state = SYS_STATEMACH_UNINITIALIZED ∧
          s.statereq ≠ SYS_STATE_INIT_REQUEST ∧ s.statereq ≠ SYS_STATE_NO_REQUEST then
        (s.ErrRequestCounter + 1) % 2 ^ cfg.ErrRequestCounter_bits
      else s.ErrRequestCounter := by
  by_cases h : s.triggerentry = 0
  · by_cases ht : s.timer ≤ 1
    · rw [SYS_Trigger_of_elapsed cfg env s h ht, SYS_Dispatch_st]
      have hc := SYS_StateSwitch_ErrRequestCounter cfg env
        { s with timer := 0, triggerentry := 1 }
      split_ifs at hc ⊢ <;> simp_all
    · rw [SYS_Trigger_of_gate cfg env s h (by omega)]
      simp [ht]
  · rw [SYS_Trigger_of_reentry cfg env s h]
    simp [h]

/-- C5, as the code has it: a request answered `SYS_ILLEGAL_REQUEST` is not
stored and is never counted: the state variable is as before the request,
and after the next call of `SYS_Trigger`, whatever path it takes, the request
counter still has the value it had before the request.  What the switch does
count, in the uninitialized state, is a pending request other than the init
request: an accepted error request makes the counter go up by one (modulo its
width) in the next call that runs the switch. -/
theorem SYS_illegal_request_not_counted (cfg : SYS_CONFIG_s) (env : SYS_PROXY_s)
    (s : SYS_STATE_s) (statereq : SYS_STATE_REQUEST_e)
    (h : (SYS_SetStateRequest s statereq).2 = SYS_ILLEGAL_REQUEST) :
    (SYS_SetStateRequest s statereq).1 = s ∧
      (SYS_Trigger cfg env (SYS_SetStateRequest s statereq).1).st.ErrRequestCounter
        = s.ErrRequestCounter ∧
      (s.state = SYS_STATEMACH_UNINITIALIZED → s.triggerentry = 0 → s.timer ≤ 1 →
        (SYS_Trigger cfg env
            (SYS_SetStateRequest s SYS_STATE_ERROR_REQUEST).1).st.ErrRequestCounter
          = (s.ErrRequestCounter + 1) % 2 ^ cfg.ErrRequestCounter_bits) := by
  have hs : (SYS_SetStateRequest s statereq).1 = s ∧ s.statereq = SYS_STATE_NO_REQUEST := by
    revert h
    unfold SYS_SetStateRequest SYS_CheckStateRequest
    split_ifs <;> simp_all
  refine ⟨hs.1, ?_, ?_⟩
  · rw [hs.1, SYS_Trigger_ErrRequestCounter]
    simp [hs.2]
  · intro hu h0 ht
    rw [SYS_Trigger_ErrRequestCounter]
    simp [SYS_SetStateRequest, SYS_CheckStateRequest, hu, h0, ht]

/-- C5, an instance of the amended statement: on the initial state
`SYS_STATE_NO_REQUEST` is an illegal request, and neither it nor the call of
`SYS_Trigger` after it moves the counter, while an error request followed by a
call moves it to one. -/
theorem SYS_illegal_request_not_counted_witness :
    (SYS_SetStateRequest sys_state SYS_STATE_NO_REQUEST).2 = SYS_ILLEGAL_REQUEST ∧
      ((SYS_SetStateRequest sys_state SYS_STATE_NO_REQUEST).1 = sys_state ∧
        (SYS_Trigger SYS_config_10ms SYS_proxy_ready
            (SYS_SetStateRequest sys_state SYS_STATE_NO_REQUEST).1).st.ErrRequestCounter
          = sys_state.ErrRequestCounter ∧
        (sys_state.state = SYS_STATEMACH_UNINITIALIZED → sys_state.triggerentry = 0 →
          sys_state.timer ≤ 1 →
          (SYS_Trigger SYS_config_10ms SYS_proxy_ready
              (SYS_SetStateRequest sys_state SYS_STATE_ERROR_REQUEST).1).st.ErrRequestCounter
            = (sys_state.ErrRequestCounter + 1)
                % 2 ^ SYS_config_10ms.ErrRequestCounter_bits)) :=
  ⟨by decide,
    SYS_illegal_request_not_counted SYS_config_10ms SYS_proxy_ready sys_state
      SYS_STATE_NO_REQUEST (by decide)⟩

/-- C5 as stated fails: on the initial state the requests
`SYS_STATE_NO_REQUEST` and `SYS_STATE_OTHER_REQUEST 7` are answered
`SYS_ILLEGAL_REQUEST`, the next call of `SYS_Trigger` runs the switch (flag
clear, timer zero), and the request counter is 0 as before, not 1. -/
theorem SYS_illegal_request_counter_unchanged :
    (SYS_SetStateRequest sys_state SYS_STATE_NO_REQUEST).2 = SYS_ILLEGAL_REQUEST ∧
      (SYS_SetStateRequest sys_state (SYS_STATE_OTHER_REQUEST 7)).2 = SYS_ILLEGAL_REQUEST ∧
      sys_state.ErrRequestCounter = 0 ∧
      SYS_Trigger SYS_config_10ms SYS_proxy_ready
          (SYS_SetStateRequest sys_state SYS_STATE_NO_REQUEST).1
        = SYS_Dispatch SYS_config_10ms SYS_proxy_ready
            { (SYS_SetStateRequest sys_state SYS_STATE_NO_REQUEST).1 with triggerentry := 1 } ∧
      (SYS_Trigger SYS_config_10ms SYS_proxy_ready
          (SYS_SetStateRequest sys_state SYS_STATE_NO_REQUEST).1).st.ErrRequestCounter = 0 ∧
      (SYS_Trigger SYS_config_10ms SYS_proxy_ready
          (SYS_SetStateRequest sys_state (SYS_STATE_OTHER_REQUEST 7)).1).st.ErrRequestCounter
        = 0 := by
  decide

/-- C6: a call of `SYS_Trigger` that finds the re-entrance flag raised leaves
the whole state variable as it is, the flag included, does not trap, and
calls nothing but the alive notification of the system monitor: no request
goes to any module. -/
theorem SYS_Trigger_reentrance (cfg : SYS_CONFIG_s) (env : SYS_PROXY_s) (s : SYS_STATE_s)
    (h : s.triggerentry ≠ 0) :
    (SYS_Trigger cfg env s).st = s ∧
      (SYS_Trigger cfg env s).calls = [SYS_CALL.DIAG_SysMonNotify] ∧
      (SYS_Trigger cfg env s).trapped = false := by
  simp [SYS_Trigger, SYS_CheckReEntrance, h]

/-- C6 at a concrete input: the state machine waiting for its BMS, flag
raised, modules ready. -/
theorem SYS_Trigger_reentrance_witness :
    ({ SYS_stateAt SYS_STATEMACH_INITIALIZE_BMS SYS_WAIT_INITIALIZATION_BMS with
          triggerentry := 1 } : SYS_STATE_s).triggerentry ≠ 0 ∧
      ((SYS_Trigger SYS_config_10ms SYS_proxy_ready
            { SYS_stateAt SYS_STATEMACH_INITIALIZE_BMS SYS_WAIT_INITIALIZATION_BMS with
              triggerentry := 1 }).st
          = { SYS_stateAt SYS_STATEMACH_INITIALIZE_BMS SYS_WAIT_INITIALIZATION_BMS with
              triggerentry := 1 } ∧
        (SYS_Trigger SYS_config_10ms SYS_proxy_ready
            { SYS_stateAt SYS_STATEMACH_INITIALIZE_BMS SYS_WAIT_INITIALIZATION_BMS with
              triggerentry := 1 }).calls = [SYS_CALL.DIAG_SysMonNotify] ∧
        (SYS_Trigger SYS_config_10ms SYS_proxy_ready
            { SYS_stateAt SYS_STATEMACH_INITIALIZE_BMS SYS_WAIT_INITIALIZATION_BMS with
              triggerentry := 1 }).trapped = false) :=
  ⟨by decide, SYS_Trigger_reentrance SYS_config_10ms SYS_proxy_ready _ (by decide)⟩

end Trigger

/-! ## The timer gate -/

section Gate

open SYS_STATEMACH_e SYS_STATEMACH_SUB_e SYS_STATE_REQUEST_e SYS_RETURN_TYPE_e
open STD_RETURN_TYPE_e

/-- C7, as the code has it: with the re-entrance flag clear, a timer above one
is decremented by one and nothing else happens: the switch is skipped, no
module is called, `state`, `substate` and all other fields stay as they are.
A timer of exactly one is decremented to zero and the switch runs in the same
call, on the state variable with the timer at zero. -/
theorem SYS_Trigger_countdown (cfg : SYS_CONFIG_s) (env : SYS_PROXY_s) (s : SYS_STATE_s)
    (h : s.triggerentry = 0) :
    (1 < s.timer →
        (SYS_Trigger cfg env s).st = { s with timer := s.timer - 1 } ∧
        (SYS_Trigger cfg env s).calls = [SYS_CALL.DIAG_SysMonNotify] ∧
        (SYS_Trigger cfg env s).trapped = false ∧
        (SYS_Trigger cfg env s).st.timer + 1 = s.timer ∧
        (SYS_Trigger cfg env s).st.state = s.state ∧
        (SYS_Trigger cfg env s).st.substate = s.substate) ∧
      (s.timer = 1 →
        SYS_Trigger cfg env s
          = SYS_Dispatch cfg env { s with timer := 0, triggerentry := 1 }) := by
  constructor
  · intro h1
    rw [SYS_Trigger_of_gate cfg env s h h1]
    refine ⟨rfl, rfl, rfl, ?_, rfl, rfl⟩
    show s.timer - 1 + 1 = s.timer
    omega
  · intro h1
    exact SYS_Trigger_of_elapsed cfg env s h (by omega)

/-- C7 at concrete inputs: the state machine in its initialization state with
the timer at 3 only counts down to 2; with the timer at 1 the call is the run
of the switch. -/
theorem SYS_Trigger_countdown_witness :
    ({ SYS_stateAt SYS_STATEMACH_INITIALIZATION SYS_ENTRY with timer := 3 }
          : SYS_STATE_s).triggerentry = 0 ∧
      1 < ({ SYS_stateAt SYS_STATEMACH_INITIALIZATION SYS_ENTRY with timer := 3 }
          : SYS_STATE_s).timer ∧
      (SYS_Trigger SYS_config_10ms SYS_proxy_ready
          { SYS_stateAt SYS_STATEMACH_INITIALIZATION SYS_ENTRY with timer := 3 }).st
        = { SYS_stateAt SYS_STATEMACH_INITIALIZATION SYS_ENTRY with timer := 2 } ∧
      (SYS_Trigger SYS_config_10ms SYS_proxy_ready
          { SYS_stateAt SYS_STATEMACH_INITIALIZATION SYS_ENTRY with timer := 3 }).calls
        = [SYS_CALL.DIAG_SysMonNotify] :=
  ⟨by decide, by decide,
    ((SYS_Trigger_countdown SYS_config_10ms SYS_proxy_ready
      { SYS_stateAt SYS_STATEMACH_INITIALIZATION SYS_ENTRY with timer := 3 }
      (by decide)).1 (by decide)).1,
    ((SYS_Trigger_countdown SYS_config_10ms SYS_proxy_ready
      { SYS_stateAt SYS_STATEMACH_INITIALIZATION SYS_ENTRY with timer := 3 }
      (by decide)).1 (by decide)).2.1⟩

/-- C7 as stated fails at a timer of one: after an accepted init request and
one call of `SYS_Trigger` the state machine is in its initialization state with
the flag clear and the timer at 1 > 0; the next call does not skip the switch:
it sends the boot message and moves on to the initialized state. -/
theorem SYS_Trigger_countdown_one_runs_switch :
    (SYS_Trigger SYS_config_10ms SYS_proxy_ready
        (SYS_SetStateRequest sys_state SYS_STATE_INIT_REQUEST).1).st
      = { SYS_stateAt SYS_STATEMACH_INITIALIZATION SYS_ENTRY with timer := 1 } ∧
      ({ SYS_stateAt SYS_STATEMACH_INITIALIZATION SYS_ENTRY with timer := 1 }
          : SYS_STATE_s).triggerentry = 0 ∧
      0 < ({ SYS_stateAt SYS_STATEMACH_INITIALIZATION SYS_ENTRY with timer := 1 }
          : SYS_STATE_s).timer ∧
      (SYS_Trigger SYS_config_10ms SYS_proxy_ready
          { SYS_stateAt SYS_STATEMACH_INITIALIZATION SYS_ENTRY with timer := 1 }).st.state
        = SYS_STATEMACH_INITIALIZED ∧
      (SYS_Trigger SYS_config_10ms SYS_proxy_ready
          { SYS_stateAt SYS_STATEMACH_INITIALIZATION SYS_ENTRY with timer := 1 }).st.state
        ≠ ({ SYS_stateAt SYS_STATEMACH_INITIALIZATION SYS_ENTRY with timer := 1 }
            : SYS_STATE_s).state ∧
      (SYS_Trigger SYS_config_10ms SYS_proxy_ready
          { SYS_stateAt SYS_STATEMACH_INITIALIZATION SYS_ENTRY with timer := 1 }).calls
        = [SYS_CALL.DIAG_SysMonNotify, SYS_CALL.SYS_SendBootMessage 1,
           SYS_CALL.DIAG_Handler DIAG_EVENT_e.DIAG_EVENT_OK] := by
  decide

end Gate

/-! ## Transitions between states -/

section Transitions

open SYS_STATEMACH_e SYS_STATEMACH_SUB_e SYS_STATE_REQUEST_e SYS_RETURN_TYPE_e
open STD_RETURN_TYPE_e

/-- A call of `SYS_Trigger` that changes `state` has run the switch. -/
theorem SYS_Trigger_ran_switch (cfg : SYS_CONFIG_s) (env : SYS_PROXY_s) (s : SYS_STATE_s)
    (hne : (SYS_Trigger cfg env s).st.state ≠ s.state) :
    s.triggerentry = 0 ∧ s.timer ≤ 1 := by
  by_cases h : s.triggerentry = 0
  · by_cases ht : s.timer ≤ 1
    · exact ⟨h, ht⟩
    · rw [SYS_Trigger_of_gate cfg env s h (by omega)] at hne
      exact absurd rfl hne
  · rw [SYS_Trigger_of_reentry cfg env s h] at hne
    exact absurd rfl hne

/-- The fields of the state machine proper after the switch and the decrement
of the flag are those the switch left. -/
theorem SYS_Dispatch_fields (cfg : SYS_CONFIG_s) (env : SYS_PROXY_s) (s : SYS_STATE_s) :
    (SYS_Dispatch cfg env s).st.state = (SYS_StateSwitch cfg env s).st.state ∧
      (SYS_Dispatch cfg env s).st.substate = (SYS_StateSwitch cfg env s).st.substate ∧
      (SYS_Dispatch cfg env s).st.laststate = (SYS_StateSwitch cfg env s).st.laststate ∧
      (SYS_Dispatch cfg env s).st.lastsubstate
        = (SYS_StateSwitch cfg env s).st.lastsubstate := by
  rw [SYS_Dispatch_st]
  split_ifs <;> simp

/-- Where the switch changes `state`: the new substate is `SYS_ENTRY` unless
the new state is the error state, and then it is the error substate of the
stage that gave up. -/
theorem SYS_StateSwitch_transition (cfg : SYS_CONFIG_s) (env : SYS_PROXY_s) (s : SYS_STATE_s)
    (hne : (SYS_StateSwitch cfg env s).st.state ≠ s.state) :
    ((SYS_StateSwitch cfg env s).st.state ≠ SYS_STATEMACH_ERROR →
        (SYS_StateSwitch cfg env s).st.substate = SYS_ENTRY) ∧
      ((SYS_StateSwitch cfg env s).st.state = SYS_STATEMACH_ERROR →
        SYS_ErrorSubstate s.state = some (SYS_StateSwitch cfg env s).st.substate) := by
  cases s with
  | mk timer statereq state substate laststate lastsubstate triggerentry ec ic =>
    revert hne
    cases state <;>
      simp only [SYS_StateSwitch, SYS_Break, SYS_Trap, SYS_SAVELASTSTATES,
        SYS_TransferStateRequest, SYS_ErrorSubstate] <;>
      (try split_ifs) <;> simp_all

/-- Where the switch changes `state` from any state but the isoguard stage, it
has saved the state and substate it started from. -/
theorem SYS_StateSwitch_snapshot (cfg : SYS_CONFIG_s) (env : SYS_PROXY_s) (s : SYS_STATE_s)
    (hne : (SYS_StateSwitch cfg env s).st.state ≠ s.state)
    (hiso : s.state ≠ SYS_STATEMACH_INITIALIZE_ISOGUARD) :
    (SYS_StateSwitch cfg env s).st.laststate = s.state ∧
      (SYS_StateSwitch cfg env s).st.lastsubstate = s.substate := by
  cases s with
  | mk timer statereq state substate laststate lastsubstate triggerentry ec ic =>
    revert hne hiso
    cases state <;>
      simp only [SYS_StateSwitch, SYS_Break, SYS_Trap, SYS_SAVELASTSTATES,
        SYS_TransferStateRequest] <;>
      (try split_ifs) <;> simp_all

/-- In the isoguard stage the switch moves on to the first measurement cycle
and leaves `laststate` and `lastsubstate` as they were. -/
theorem SYS_StateSwitch_isoguard (cfg : SYS_CONFIG_s) (env : SYS_PROXY_s) (s : SYS_STATE_s)
    (hiso : s.state = SYS_STATEMACH_INITIALIZE_ISOGUARD) :
    (SYS_StateSwitch cfg env s).st.state = SYS_STATEMACH_FIRST_MEASUREMENT_CYCLE ∧
      (SYS_StateSwitch cfg env s).st.laststate = s.laststate ∧
      (SYS_StateSwitch cfg env s).st.lastsubstate = s.lastsubstate := by
  cases s with
  | mk timer statereq state substate laststate lastsubstate triggerentry ec ic =>
    simp only at hiso
    subst hiso
    simp [SYS_StateSwitch, SYS_Break]

/-- A call of `SYS_Trigger` that changes `state` from any state but the
isoguard stage leaves the state and substate it started from in `laststate`
and `lastsubstate`. -/
theorem SYS_Trigger_snapshot (cfg : SYS_CONFIG_s) (env : SYS_PROXY_s) (s : SYS_STATE_s)
    (hne : (SYS_Trigger cfg env s).st.state ≠ s.state)
    (hiso : s.state ≠ SYS_STATEMACH_INITIALIZE_ISOGUARD) :
    (SYS_Trigger cfg env s).st.laststate = s.state ∧
      (SYS_Trigger cfg env s).st.lastsubstate = s.substate := by
  obtain ⟨h0, ht⟩ := SYS_Trigger_ran_switch cfg env s hne
  rw [SYS_Trigger_of_elapsed cfg env s h0 ht] at hne ⊢
  obtain ⟨e1, _, e3, e4⟩ := SYS_Dispatch_fields cfg env { s with timer := 0, triggerentry := 1 }
  rw [e1] at hne
  rw [e3, e4]
  exact SYS_StateSwitch_snapshot cfg env { s with timer := 0, triggerentry := 1 } hne hiso

/-- C9, as the code has it: when a call of `SYS_Trigger` changes `state` to a
state other than the error state, `substate` is `SYS_ENTRY` after the call;
when it changes `state` to the error state, `substate` is not `SYS_ENTRY` but
the error substate of the stage the call started in. -/
theorem SYS_Trigger_transition_substate (cfg : SYS_CONFIG_s) (env : SYS_PROXY_s)
    (s : SYS_STATE_s) (hne : (SYS_Trigger cfg env s).st.state ≠ s.state) :
    ((SYS_Trigger cfg env s).st.state ≠ SYS_STATEMACH_ERROR →
        (SYS_Trigger cfg env s).st.substate = SYS_ENTRY) ∧
      ((SYS_Trigger cfg env s).st.state = SYS_STATEMACH_ERROR →
        SYS_ErrorSubstate s.state = some (SYS_Trigger cfg env s).st.substate ∧
        (SYS_Trigger cfg env s).st.substate ≠ SYS_ENTRY) := by
  obtain ⟨h0, ht⟩ := SYS_Trigger_ran_switch cfg env s hne
  rw [SYS_Trigger_of_elapsed cfg env s h0 ht] at hne ⊢
  obtain ⟨e1, e2, _, _⟩ := SYS_Dispatch_fields cfg env { s with timer := 0, triggerentry := 1 }
  rw [e1] at hne
  rw [e1, e2]
  obtain ⟨t1, t2⟩ :=
    SYS_StateSwitch_transition cfg env { s with timer := 0, triggerentry := 1 } hne
  refine ⟨t1, fun he => ⟨t2 he, ?_⟩⟩
  have h2 := t2 he
  intro hentry
  rw [hentry] at h2
  revert h2
  cases hst : s.state <;> simp [SYS_ErrorSubstate, hst]

/-- C9 at concrete inputs: the BMS stage whose module is ready moves on to the
running state with substate `SYS_ENTRY`. -/
theorem SYS_Trigger_transition_substate_witness :
    (SYS_Trigger SYS_config_10ms SYS_proxy_ready
          (SYS_stateAt SYS_STATEMACH_INITIALIZE_BMS SYS_WAIT_INITIALIZATION_BMS)).st.state
        ≠ (SYS_stateAt SYS_STATEMACH_INITIALIZE_BMS SYS_WAIT_INITIALIZATION_BMS).state ∧
      (SYS_Trigger SYS_config_10ms SYS_proxy_ready
          (SYS_stateAt SYS_STATEMACH_INITIALIZE_BMS SYS_WAIT_INITIALIZATION_BMS)).st.state
        = SYS_STATEMACH_RUNNING ∧
      (SYS_Trigger SYS_config_10ms SYS_proxy_ready
          (SYS_stateAt SYS_STATEMACH_INITIALIZE_BMS SYS_WAIT_INITIALIZATION_BMS)).st.substate
        = SYS_ENTRY :=
  ⟨by decide, by decide,
    (SYS_Trigger_transition_substate SYS_config_10ms SYS_proxy_ready
      (SYS_stateAt SYS_STATEMACH_INITIALIZE_BMS SYS_WAIT_INITIALIZATION_BMS)
      (by decide)).1 (by decide)⟩

/-- C9 as stated fails on escalation: in the BMS stage, waiting, with the
retry counter at 11 above the budget of 10 and the BMS not ready, one call
of `SYS_Trigger` changes `state` to the error state and leaves `substate` at
`SYS_BMS_INIT_ERROR`, which is not `SYS_ENTRY`. -/
theorem SYS_Trigger_escalation_substate_not_entry :
    SYS_InitBudget SYS_config_10ms = 10 ∧
      (SYS_Trigger SYS_config_10ms SYS_proxy_not_ready
          { SYS_stateAt SYS_STATEMACH_INITIALIZE_BMS SYS_WAIT_INITIALIZATION_BMS with
            InitCounter := 11 }).st.state = SYS_STATEMACH_ERROR ∧
      (SYS_Trigger SYS_config_10ms SYS_proxy_not_ready
          { SYS_stateAt SYS_STATEMACH_INITIALIZE_BMS SYS_WAIT_INITIALIZATION_BMS with
            InitCounter := 11 }).st.state
        ≠ ({ SYS_stateAt SYS_STATEMACH_INITIALIZE_BMS SYS_WAIT_INITIALIZATION_BMS with
            InitCounter := 11 } : SYS_STATE_s).state ∧
      (SYS_Trigger SYS_config_10ms SYS_proxy_not_ready
          { SYS_stateAt SYS_STATEMACH_INITIALIZE_BMS SYS_WAIT_INITIALIZATION_BMS with
            InitCounter := 11 }).st.substate = SYS_BMS_INIT_ERROR ∧
      (SYS_Trigger SYS_config_10ms SYS_proxy_not_ready
          { SYS_stateAt SYS_STATEMACH_INITIALIZE_BMS SYS_WAIT_INITIALIZATION_BMS with
            InitCounter := 11 }).st.substate ≠ SYS_ENTRY := by
  decide

/-- C10 fails in the isoguard stage: started from the initial state with an
accepted init request and all modules ready, nine calls of `SYS_Trigger` bring
the state machine into the isoguard stage (substate `SYS_ENTRY`) with the
snapshot of the balancing stage; the tenth call changes `state` to the first
measurement cycle, and afterwards `laststate` and `lastsubstate` still hold
the balancing stage and its wait substate, not the isoguard stage the call
started in.  Every other case of the switch saves the state first. -/
theorem SYS_Trigger_isoguard_keeps_old_snapshot :
    (SYS_TriggerSeq SYS_config_10ms (List.replicate 9 SYS_proxy_ready)
        (SYS_SetStateRequest sys_state SYS_STATE_INIT_REQUEST).1).st
      = { timer := 1
          statereq := SYS_STATE_NO_REQUEST
          state := SYS_STATEMACH_INITIALIZE_ISOGUARD
          substate := SYS_ENTRY
          laststate := SYS_STATEMACH_INITIALIZE_BALANCING
          lastsubstate := SYS_WAIT_INITIALIZATION_BAL
          triggerentry := 0
          ErrRequestCounter := 0
          InitCounter := 0 } ∧
      SYS_Trigger SYS_config_10ms SYS_proxy_ready
          { timer := 1
            statereq := SYS_STATE_NO_REQUEST
            state := SYS_STATEMACH_INITIALIZE_ISOGUARD
            substate := SYS_ENTRY
            laststate := SYS_STATEMACH_INITIALIZE_BALANCING
            lastsubstate := SYS_WAIT_INITIALIZATION_BAL
            triggerentry := 0
            ErrRequestCounter := 0
            InitCounter := 0 }
        = { st :=
              { timer := 1
                statereq := SYS_STATE_NO_REQUEST
                state := SYS_STATEMACH_FIRST_MEASUREMENT_CYCLE
                substate := SYS_ENTRY
                laststate := SYS_STATEMACH_INITIALIZE_BALANCING
                lastsubstate := SYS_WAIT_INITIALIZATION_BAL
                triggerentry := 0
                ErrRequestCounter := 0
                InitCounter := 0 }
            calls := [SYS_CALL.DIAG_SysMonNotify, SYS_CALL.ISO_Init]
            trapped := false } := by
  decide

end Transitions

/-! ## The retry budget -/

section Retry

open SYS_STATEMACH_e SYS_STATEMACH_SUB_e SYS_STATE_REQUEST_e SYS_RETURN_TYPE_e
open STD_RETURN_TYPE_e ILCK_STATEMACH_e

/-- One failed poll: in the wait substate of a stage whose module is not
ready, the switch escalates when the retry counter is above the budget, and
otherwise stays and increments the counter. -/
theorem SYS_StateSwitch_failed_poll (cfg : SYS_CONFIG_s) (env : SYS_PROXY_s) (s : SYS_STATE_s)
    (stage : SYS_STATEMACH_e) (wait err : SYS_STATEMACH_SUB_e)
    (hc : SYS_Compiled cfg stage = true)
    (hw : SYS_WaitSubstate stage = some wait) (he : SYS_ErrorSubstate stage = some err)
    (hs : s.state = stage) (hsub : s.substate = wait)
    (hn : SYS_NotReady env stage = true) :
    (SYS_StateSwitch cfg env s).st.state
        = (if s.InitCounter > SYS_InitBudget cfg then SYS_STATEMACH_ERROR else stage) ∧
      (SYS_StateSwitch cfg env s).st.substate
        = (if s.InitCounter > SYS_InitBudget cfg then err else wait) ∧
      (SYS_StateSwitch cfg env s).st.InitCounter
        = (if s.InitCounter > SYS_InitBudget cfg then s.InitCounter
           else s.InitCounter + 1) := by
  cases s with
  | mk timer statereq state substate laststate lastsubstate triggerentry ec ic =>
    simp only at hs hsub
    subst hs hsub
    cases state <;>
      simp only [SYS_WaitSubstate, SYS_ErrorSubstate, SYS_Compiled, SYS_NotReady,
        Option.some.injEq, decide_eq_true_eq, reduceCtorEq] at hc hw he hn <;>
      subst hw he <;>
      simp only [SYS_StateSwitch, SYS_Break, SYS_Trap, SYS_SAVELASTSTATES] <;>
      split_ifs <;> simp_all

/-- Successive failed polls, started in the wait substate with a retry
counter of at most budget + 1: the stage is kept as long as the counter plus
the number of polls is at most budget + 1, and the poll after that
escalates. -/
theorem SYS_SwitchSeq_failed_polls (cfg : SYS_CONFIG_s) (stage : SYS_STATEMACH_e)
    (wait err : SYS_STATEMACH_SUB_e)
    (hc : SYS_Compiled cfg stage = true)
    (hw : SYS_WaitSubstate stage = some wait) (he : SYS_ErrorSubstate stage = some err)
    (envs : List SYS_PROXY_s) :
    ∀ s : SYS_STATE_s, s.state = stage → s.substate = wait →
      (∀ env ∈ envs, SYS_NotReady env stage = true) →
      s.InitCounter ≤ SYS_InitBudget cfg + 1 →
      s.InitCounter + envs.length ≤ SYS_InitBudget cfg + 2 →
      (SYS_SwitchSeq cfg envs s).state
          = (if s.InitCounter + envs.length ≤ SYS_InitBudget cfg + 1 then stage
             else SYS_STATEMACH_ERROR) ∧
        (SYS_SwitchSeq cfg envs s).substate
          = (if s.InitCounter + envs.length ≤ SYS_InitBudget cfg + 1 then wait else err) ∧
        (s.InitCounter + envs.length ≤ SYS_InitBudget cfg + 1 →
          (SYS_SwitchSeq cfg envs s).InitCounter = s.InitCounter + envs.length) := by
  induction envs with
  | nil =>
    intro s hs hsub _ hcount _
    simp [SYS_SwitchSeq, hs, hsub, hcount]
  | cons env envs ih =>
    intro s hs hsub hn hcount hlen
    have hstep := SYS_StateSwitch_failed_poll cfg env s stage wait err hc hw he hs hsub
      (hn env (List.mem_cons_self env envs))
    simp only [List.length_cons] at hlen ⊢
    simp only [SYS_SwitchSeq]
    by_cases hb : s.InitCounter > SYS_InitBudget cfg
    · have hnil : envs = [] := List.length_eq_zero.mp (by omega)
      subst hnil
      have hlast : ¬ (s.InitCounter + (0 + 1) ≤ SYS_InitBudget cfg + 1) := by omega
      simp only [SYS_SwitchSeq, List.length_nil, hlast, if_false]
      simp only [hb, if_true] at hstep
      refine ⟨hstep.1, hstep.2.1, ?_⟩
      intro h
      exact h.elim
    · simp only [hb, if_false] at hstep
      obtain ⟨h1, h2, h3⟩ := hstep
      have hrec := ih (SYS_StateSwitch cfg env s).st h1 h2
        (fun e hm => hn e (List.mem_cons_of_mem env hm)) (by rw [h3]; omega)
        (by rw [h3]; omega)
      rw [h3] at hrec
      have harith : s.InitCounter + 1 + envs.length = s.InitCounter + (envs.length + 1) := by
        omega
      rw [harith] at hrec
      exact hrec

/-- A call of `SYS_Trigger` that does not trap is followed by the remaining
calls of the sequence. -/
theorem SYS_TriggerSeq_cons (cfg : SYS_CONFIG_s) (env : SYS_PROXY_s) (envs : List SYS_PROXY_s)
    (s : SYS_STATE_s) (h : (SYS_Trigger cfg env s).trapped = false) :
    SYS_TriggerSeq cfg (env :: envs) s
      = { st := (SYS_TriggerSeq cfg envs (SYS_Trigger cfg env s).st).st
          calls := (SYS_Trigger cfg env s).calls
            ++ (SYS_TriggerSeq cfg envs (SYS_Trigger cfg env s).st).calls
          trapped := (SYS_TriggerSeq cfg envs (SYS_Trigger cfg env s).st).trapped } := by
  simp [SYS_TriggerSeq, h]

/-- One call of `SYS_Trigger` in the wait substate of a stage whose module is
not ready, flag clear: with the timer above one nothing is polled and the
stage is kept; otherwise the module is polled once and the switch escalates or
increments the retry counter. -/
theorem SYS_Trigger_failed_poll_tick (cfg : SYS_CONFIG_s) (env : SYS_PROXY_s) (s : SYS_STATE_s)
    (stage : SYS_STATEMACH_e) (wait err : SYS_STATEMACH_SUB_e) (poll : SYS_CALL)
    (hc : SYS_Compiled cfg stage = true)
    (hw : SYS_WaitSubstate stage = some wait) (he : SYS_ErrorSubstate stage = some err)
    (hp : SYS_PollCall stage = some poll)
    (hs : s.state = stage) (hsub : s.substate = wait) (h0 : s.triggerentry = 0)
    (hn : SYS_NotReady env stage = true) :
    (SYS_Trigger cfg env s).trapped = false ∧
      (SYS_Trigger cfg env s).st.triggerentry = 0 ∧
      (1 < s.timer →
        (SYS_Trigger cfg env s).calls.count poll = 0 ∧
        (SYS_Trigger cfg env s).st.state = stage ∧
        (SYS_Trigger cfg env s).st.substate = wait ∧
        (SYS_Trigger cfg env s).st.InitCounter = s.InitCounter) ∧
      (s.timer ≤ 1 →
        (SYS_Trigger cfg env s).calls.count poll = 1 ∧
        (SYS_Trigger cfg env s).st.state
          = (if s.InitCounter > SYS_InitBudget cfg then SYS_STATEMACH_ERROR else stage) ∧
        (SYS_Trigger cfg env s).st.substate
          = (if s.InitCounter > SYS_InitBudget cfg then err else wait) ∧
        (SYS_Trigger cfg env s).st.InitCounter
          = (if s.InitCounter > SYS_InitBudget cfg then s.InitCounter
             else s.InitCounter + 1)) := by
  by_cases ht : 1 < s.timer
  · rw [SYS_Trigger_of_gate cfg env s h0 ht]
    refine ⟨rfl, h0, fun _ => ⟨?_, hs, hsub, rfl⟩, fun h => absurd ht (by omega)⟩
    revert hp
    cases stage <;> simp only [SYS_PollCall, Option.some.injEq, reduceCtorEq, false_implies] <;>
      intro hp <;> subst hp <;> decide
  · have hle : s.timer ≤ 1 := by omega
    rw [SYS_Trigger_of_elapsed cfg env s h0 hle]
    cases s with
    | mk timer statereq state substate laststate lastsubstate triggerentry ec ic =>
      simp only at hs hsub h0
      subst hs hsub h0
      cases state <;>
        simp only [SYS_WaitSubstate, SYS_ErrorSubstate, SYS_Compiled, SYS_NotReady, SYS_PollCall,
          Option.some.injEq, decide_eq_true_eq, reduceCtorEq] at hc hw he hn hp <;>
        subst hw he hp <;>
        simp only [SYS_Dispatch, SYS_StateSwitch, SYS_Break, SYS_Trap, SYS_SAVELASTSTATES] <;>
        split_ifs <;> simp_all

/-- One call of `SYS_Trigger` in the error state, flag clear: the state and
substate are kept and no module is polled. -/
theorem SYS_Trigger_error_tick (cfg : SYS_CONFIG_s) (env : SYS_PROXY_s) (s : SYS_STATE_s)
    (stage : SYS_STATEMACH_e) (poll : SYS_CALL) (hp : SYS_PollCall stage = some poll)
    (hs : s.state = SYS_STATEMACH_ERROR) (h0 : s.triggerentry = 0) :
    (SYS_Trigger cfg env s).trapped = false ∧
      (SYS_Trigger cfg env s).st.triggerentry = 0 ∧
      (SYS_Trigger cfg env s).st.state = SYS_STATEMACH_ERROR ∧
      (SYS_Trigger cfg env s).st.substate = s.substate ∧
      (SYS_Trigger cfg env s).calls.count poll = 0 := by
  have hcount : ([SYS_CALL.DIAG_SysMonNotify]).count poll = 0 ∧
      ([SYS_CALL.DIAG_SysMonNotify, SYS_CALL.CANS_Enable_Periodic false]).count poll = 0 := by
    revert hp
    cases stage <;> simp only [SYS_PollCall, Option.some.injEq, reduceCtorEq, false_implies] <;>
      intro hp <;> subst hp <;> decide
  by_cases ht : 1 < s.timer
  · rw [SYS_Trigger_of_gate cfg env s h0 ht]
    exact ⟨rfl, h0, hs, rfl, hcount.1⟩
  · rw [SYS_Trigger_of_elapsed cfg env s h0 (by omega)]
    cases s with
    | mk timer statereq state substate laststate lastsubstate triggerentry ec ic =>
      simp only at hs h0
      subst hs h0
      simp only [SYS_Dispatch, SYS_StateSwitch, SYS_Break, SYS_SAVELASTSTATES]
      exact ⟨rfl, rfl, rfl, rfl, hcount.2⟩

/-- Calls of `SYS_Trigger` in the error state, flag clear, keep the state and
substate and poll no module. -/
theorem SYS_TriggerSeq_error (cfg : SYS_CONFIG_s) (stage : SYS_STATEMACH_e) (poll : SYS_CALL)
    (hp : SYS_PollCall stage = some poll) (envs : List SYS_PROXY_s) :
    ∀ s : SYS_STATE_s, s.state = SYS_STATEMACH_ERROR → s.triggerentry = 0 →
      (SYS_TriggerSeq cfg envs s).trapped = false ∧
        (SYS_TriggerSeq cfg envs s).st.triggerentry = 0 ∧
        (SYS_TriggerSeq cfg envs s).st.state = SYS_STATEMACH_ERROR ∧
        (SYS_TriggerSeq cfg envs s).st.substate = s.substate ∧
        (SYS_TriggerSeq cfg envs s).calls.count poll = 0 := by
  induction envs with
  | nil =>
    intro s hs h0
    simp [SYS_TriggerSeq, hs, h0]
  | cons env envs ih =>
    intro s hs h0
    obtain ⟨t1, t2, t3, t4, t5⟩ := SYS_Trigger_error_tick cfg env s stage poll hp hs h0
    obtain ⟨r1, r2, r3, r4, r5⟩ := ih (SYS_Trigger cfg env s).st t3 t2
    rw [SYS_TriggerSeq_cons cfg env envs s t1]
    refine ⟨r1, r2, r3, r4.trans t4, ?_⟩
    simp only [List.count_append, t5, r5]

/-- Calls of `SYS_Trigger` started in the wait substate of a stage whose
module is never ready, with a retry counter of at most budget + 1: as long
as the counter plus the number of polls made is at most budget + 1 the stage
is kept, and otherwise that sum is exactly budget + 2 and the state machine is
in the error state. -/
theorem SYS_TriggerSeq_failed_polls (cfg : SYS_CONFIG_s) (stage : SYS_STATEMACH_e)
    (wait err : SYS_STATEMACH_SUB_e) (poll : SYS_CALL)
    (hc : SYS_Compiled cfg stage = true)
    (hw : SYS_WaitSubstate stage = some wait) (he : SYS_ErrorSubstate stage = some err)
    (hp : SYS_PollCall stage = some poll) (envs : List SYS_PROXY_s) :
    ∀ s : SYS_STATE_s, s.state = stage → s.substate = wait → s.triggerentry = 0 →
      (∀ env ∈ envs, SYS_NotReady env stage = true) →
      s.InitCounter ≤ SYS_InitBudget cfg + 1 →
      (SYS_TriggerSeq cfg envs s).trapped = false ∧
        (SYS_TriggerSeq cfg envs s).st.triggerentry = 0 ∧
        (s.InitCounter + (SYS_TriggerSeq cfg envs s).calls.count poll ≤ SYS_InitBudget cfg + 1 →
          (SYS_TriggerSeq cfg envs s).st.state = stage ∧
          (SYS_TriggerSeq cfg envs s).st.substate = wait ∧
          (SYS_TriggerSeq cfg envs s).st.InitCounter
            = s.InitCounter + (SYS_TriggerSeq cfg envs s).calls.count poll) ∧
        (SYS_InitBudget cfg + 1 < s.InitCounter + (SYS_TriggerSeq cfg envs s).calls.count poll →
          s.InitCounter + (SYS_TriggerSeq cfg envs s).calls.count poll = SYS_InitBudget cfg + 2 ∧
          (SYS_TriggerSeq cfg envs s).st.state = SYS_STATEMACH_ERROR ∧
          (SYS_TriggerSeq cfg envs s).st.substate = err) := by
  induction envs with
  | nil =>
    intro s hs hsub h0 _ hcount
    refine ⟨rfl, h0, fun _ => ⟨hs, hsub, ?_⟩, fun h => ?_⟩
    · simp [SYS_TriggerSeq]
    · simp only [SYS_TriggerSeq, List.count_nil, Nat.add_zero] at h
      omega
  | cons env envs ih =>
    intro s hs hsub h0 hn hcount
    obtain ⟨t1, t2, tgate, tpoll⟩ := SYS_Trigger_failed_poll_tick cfg env s stage wait err poll
      hc hw he hp hs hsub h0 (hn env (List.mem_cons_self env envs))
    have hn2 : ∀ e ∈ envs, SYS_NotReady e stage = true :=
      fun e hm => hn e (List.mem_cons_of_mem env hm)
    rw [SYS_TriggerSeq_cons cfg env envs s t1]
    simp only [List.count_append]
    by_cases ht : 1 < s.timer
    · obtain ⟨g1, g2, g3, g4⟩ := tgate ht
      obtain ⟨r1, r2, r3, r4⟩ :=
        ih (SYS_Trigger cfg env s).st g2 g3 t2 hn2 (by rw [g4]; exact hcount)
      rw [g4] at r3 r4
      rw [g1, Nat.zero_add]
      exact ⟨r1, r2, r3, r4⟩
    · obtain ⟨p1, p2, p3, p4⟩ := tpoll (by omega)
      rw [p1]
      by_cases hb : s.InitCounter > SYS_InitBudget cfg
      · simp only [hb, if_true] at p2 p3 p4
        obtain ⟨r1, r2, r3, r4, r5⟩ :=
          SYS_TriggerSeq_error cfg stage poll hp envs (SYS_Trigger cfg env s).st p2 t2
        rw [r5]
        refine ⟨r1, r2, fun h => absurd h (by omega), fun _ => ⟨by omega, r3, r4.trans p3⟩⟩
      · simp only [hb, if_false] at p2 p3 p4
        obtain ⟨r1, r2, r3, r4⟩ :=
          ih (SYS_Trigger cfg env s).st p2 p3 t2 hn2 (by rw [p4]; omega)
        rw [p4] at r3 r4
        refine ⟨r1, r2, fun h => ?_, fun h => ?_⟩
        · obtain ⟨a, b, c⟩ := r3 (by omega)
          exact ⟨a, b, by rw [c]; omega⟩
        · obtain ⟨a, b, c⟩ := r4 (by omega)
          exact ⟨by omega, b, c⟩

/-- C8, as the code has it: for each of the six polling stages that the build
contains, started in its wait substate with the retry counter at 0 and the
re-entrance flag clear, while the polled module answers "not ready" every
time.  Counting polls as runs of the switch: after any number of polls up to
budget + 1 the state machine is still in the wait substate of the stage, with
the retry counter equal to the number of failed polls, and poll number
budget + 2 is the one that moves it to the error state with the error substate
of the stage.  Counting polls as calls of the stage's getter made by a
sequence of calls of `SYS_Trigger`, whatever the timer constants: no call
traps; while at most budget + 1 polls have been made the stage is kept and the
retry counter is the number of polls; and more polls than that are exactly
budget + 2 polls, with the state machine in the error state. -/
theorem SYS_escalation_poll (cfg : SYS_CONFIG_s) (stage : SYS_STATEMACH_e)
    (wait err : SYS_STATEMACH_SUB_e) (poll : SYS_CALL) (envs : List SYS_PROXY_s)
    (s : SYS_STATE_s)
    (hc : SYS_Compiled cfg stage = true)
    (hw : SYS_WaitSubstate stage = some wait) (he : SYS_ErrorSubstate stage = some err)
    (hp : SYS_PollCall stage = some poll)
    (hs : s.state = stage) (hsub : s.substate = wait) (hi : s.InitCounter = 0)
    (h0 : s.triggerentry = 0)
    (hn : ∀ env ∈ envs, SYS_NotReady env stage = true) :
    (envs.length ≤ SYS_InitBudget cfg + 1 →
        (SYS_SwitchSeq cfg envs s).state = stage ∧
        (SYS_SwitchSeq cfg envs s).substate = wait ∧
        (SYS_SwitchSeq cfg envs s).InitCounter = envs.length) ∧
      (envs.length = SYS_InitBudget cfg + 2 →
        (SYS_SwitchSeq cfg envs s).state = SYS_STATEMACH_ERROR ∧
        (SYS_SwitchSeq cfg envs s).substate = err) ∧
      (SYS_TriggerSeq cfg envs s).trapped = false ∧
      ((SYS_TriggerSeq cfg envs s).calls.count poll ≤ SYS_InitBudget cfg + 1 →
        (SYS_TriggerSeq cfg envs s).st.state = stage ∧
        (SYS_TriggerSeq cfg envs s).st.substate = wait ∧
        (SYS_TriggerSeq cfg envs s).st.InitCounter
          = (SYS_TriggerSeq cfg envs s).calls.count poll) ∧
      (SYS_InitBudget cfg + 1 < (SYS_TriggerSeq cfg envs s).calls.count poll →
        (SYS_TriggerSeq cfg envs s).calls.count poll = SYS_InitBudget cfg + 2 ∧
        (SYS_TriggerSeq cfg envs s).st.state = SYS_STATEMACH_ERROR ∧
        (SYS_TriggerSeq cfg envs s).st.substate = err) := by
  have ht := SYS_TriggerSeq_failed_polls cfg stage wait err poll hc hw he hp envs s hs hsub h0
    hn (by omega)
  rw [hi] at ht
  simp only [Nat.zero_add] at ht
  refine ⟨?_, ?_, ht.1, ht.2.2.1, ht.2.2.2⟩
  · intro hlen
    have h := SYS_SwitchSeq_failed_polls cfg stage wait err hc hw he envs s hs hsub hn
      (by omega) (by omega)
    have hle : s.InitCounter + envs.length ≤ SYS_InitBudget cfg + 1 := by omega
    simp only [hle, if_true] at h
    refine ⟨h.1, h.2.1, ?_⟩
    rw [h.2.2 trivial, hi, Nat.zero_add]
  · intro hlen
    have h := SYS_SwitchSeq_failed_polls cfg stage wait err hc hw he envs s hs hsub hn
      (by omega) (by omega)
    have hgt : ¬ (s.InitCounter + envs.length ≤ SYS_InitBudget cfg + 1) := by omega
    simp only [hgt, if_false] at h
    exact ⟨h.1, h.2.1⟩

/-- C8 at concrete inputs: task cycle 10 ms, budget 10, BMS stage, a BMS that
is never ready.  Twelve runs of the switch end in the error state with
`SYS_BMS_INIT_ERROR`; and with a short delay of 1, twelve calls of
`SYS_Trigger` make twelve polls, which is budget + 2, and end in the error
state. -/
theorem SYS_escalation_poll_witness :
    SYS_InitBudget SYS_config_10ms = 10 ∧
      SYS_Compiled SYS_config_10ms SYS_STATEMACH_INITIALIZE_BMS = true ∧
      (∀ env ∈ List.replicate 12 SYS_proxy_not_ready,
        SYS_NotReady env SYS_STATEMACH_INITIALIZE_BMS = true) ∧
      ((SYS_SwitchSeq SYS_config_10ms (List.replicate 12 SYS_proxy_not_ready)
            (SYS_stateAt SYS_STATEMACH_INITIALIZE_BMS SYS_WAIT_INITIALIZATION_BMS)).state
          = SYS_STATEMACH_ERROR ∧
        (SYS_SwitchSeq SYS_config_10ms (List.replicate 12 SYS_proxy_not_ready)
            (SYS_stateAt SYS_STATEMACH_INITIALIZE_BMS SYS_WAIT_INITIALIZATION_BMS)).substate
          = SYS_BMS_INIT_ERROR) ∧
      ((SYS_TriggerSeq SYS_config_10ms (List.replicate 12 SYS_proxy_not_ready)
            (SYS_stateAt SYS_STATEMACH_INITIALIZE_BMS
              SYS_WAIT_INITIALIZATION_BMS)).calls.count SYS_CALL.BMS_GetInitializationState
          = SYS_InitBudget SYS_config_10ms + 2 ∧
        (SYS_TriggerSeq SYS_config_10ms (List.replicate 12 SYS_proxy_not_ready)
            (SYS_stateAt SYS_STATEMACH_INITIALIZE_BMS SYS_WAIT_INITIALIZATION_BMS)).st.state
          = SYS_STATEMACH_ERROR ∧
        (SYS_TriggerSeq SYS_config_10ms (List.replicate 12 SYS_proxy_not_ready)
            (SYS_stateAt SYS_STATEMACH_INITIALIZE_BMS SYS_WAIT_INITIALIZATION_BMS)).st.substate
          = SYS_BMS_INIT_ERROR) :=
  ⟨by decide, by decide, by decide,
    (SYS_escalation_poll SYS_config_10ms SYS_STATEMACH_INITIALIZE_BMS
      SYS_WAIT_INITIALIZATION_BMS SYS_BMS_INIT_ERROR SYS_CALL.BMS_GetInitializationState
      (List.replicate 12 SYS_proxy_not_ready)
      (SYS_stateAt SYS_STATEMACH_INITIALIZE_BMS SYS_WAIT_INITIALIZATION_BMS)
      (by decide) (by decide) (by decide) (by decide) (by decide) (by decide) (by decide)
      (by decide) (by decide)).2.1 (by decide),
    (SYS_escalation_poll SYS_config_10ms SYS_STATEMACH_INITIALIZE_BMS
      SYS_WAIT_INITIALIZATION_BMS SYS_BMS_INIT_ERROR SYS_CALL.BMS_GetInitializationState
      (List.replicate 12 SYS_proxy_not_ready)
      (SYS_stateAt SYS_STATEMACH_INITIALIZE_BMS SYS_WAIT_INITIALIZATION_BMS)
      (by decide) (by decide) (by decide) (by decide) (by decide) (by decide) (by decide)
      (by decide) (by decide)).2.2.2.2 (by decide)⟩

/-- C8 as stated fails by one poll: with a task cycle of 10 ms the budget is
10, and started in the wait substate of the BMS stage with the retry counter
at 0 and a BMS that is never ready, the state machine is still in the BMS
stage after 11 failed polls, the retry counter at 11; with a short delay of 1
every call of `SYS_Trigger` polls, and after 11 calls (11 polls of the BMS)
the state is still the BMS stage, not the error state. -/
theorem SYS_escalation_not_after_budget_plus_one :
    SYS_InitBudget SYS_config_10ms = 10 ∧
      (SYS_SwitchSeq SYS_config_10ms (List.replicate 11 SYS_proxy_not_ready)
          (SYS_stateAt SYS_STATEMACH_INITIALIZE_BMS SYS_WAIT_INITIALIZATION_BMS)).state
        = SYS_STATEMACH_INITIALIZE_BMS ∧
      (SYS_SwitchSeq SYS_config_10ms (List.replicate 11 SYS_proxy_not_ready)
          (SYS_stateAt SYS_STATEMACH_INITIALIZE_BMS SYS_WAIT_INITIALIZATION_BMS)).InitCounter
        = 11 ∧
      (SYS_TriggerSeq SYS_config_10ms (List.replicate 11 SYS_proxy_not_ready)
          (SYS_stateAt SYS_STATEMACH_INITIALIZE_BMS SYS_WAIT_INITIALIZATION_BMS)).st.state
        = SYS_STATEMACH_INITIALIZE_BMS ∧
      (SYS_TriggerSeq SYS_config_10ms (List.replicate 11 SYS_proxy_not_ready)
          (SYS_stateAt SYS_STATEMACH_INITIALIZE_BMS SYS_WAIT_INITIALIZATION_BMS)).st.substate
        = SYS_WAIT_INITIALIZATION_BMS ∧
      (SYS_TriggerSeq SYS_config_10ms (List.replicate 11 SYS_proxy_not_ready)
          (SYS_stateAt SYS_STATEMACH_INITIALIZE_BMS
            SYS_WAIT_INITIALIZATION_BMS)).calls.count SYS_CALL.BMS_GetInitializationState
        = 11 := by
  decide

end Retry

/-! ## The error state, and the pending request -/

section ErrorState

open SYS_STATEMACH_e SYS_STATEMACH_SUB_e SYS_STATE_REQUEST_e SYS_RETURN_TYPE_e
open STD_RETURN_TYPE_e

/-- `SYS_SetStateRequest` writes no field but `statereq`. -/
theorem SYS_SetStateRequest_frame (s : SYS_STATE_s) (statereq : SYS_STATE_REQUEST_e) :
    (SYS_SetStateRequest s statereq).1.state = s.state ∧
      (SYS_SetStateRequest s statereq).1.substate = s.substate ∧
      (SYS_SetStateRequest s statereq).1.triggerentry = s.triggerentry ∧
      (SYS_SetStateRequest s statereq).1.timer = s.timer := by
  by_cases h : SYS_CheckStateRequest s statereq = SYS_OK <;> simp [SYS_SetStateRequest, h]

/-- In the error state the switch keeps state and substate and does not
trap. -/
theorem SYS_StateSwitch_error (cfg : SYS_CONFIG_s) (env : SYS_PROXY_s) (s : SYS_STATE_s)
    (h : s.state = SYS_STATEMACH_ERROR) :
    (SYS_StateSwitch cfg env s).st.state = SYS_STATEMACH_ERROR ∧
      (SYS_StateSwitch cfg env s).st.substate = s.substate ∧
      (SYS_StateSwitch cfg env s).trapped = false := by
  cases s with
  | mk timer statereq state substate laststate lastsubstate triggerentry ec ic =>
    simp only at h
    subst h
    simp [SYS_StateSwitch, SYS_Break, SYS_SAVELASTSTATES]

/-- In the error state a call of `SYS_Trigger` keeps state and substate and
does not trap, on each of its three paths. -/
theorem SYS_Trigger_error (cfg : SYS_CONFIG_s) (env : SYS_PROXY_s) (s : SYS_STATE_s)
    (h : s.state = SYS_STATEMACH_ERROR) :
    (SYS_Trigger cfg env s).st.state = SYS_STATEMACH_ERROR ∧
      (SYS_Trigger cfg env s).st.substate = s.substate ∧
      (SYS_Trigger cfg env s).trapped = false := by
  by_cases h0 : s.triggerentry = 0
  · by_cases ht : s.timer ≤ 1
    · rw [SYS_Trigger_of_elapsed cfg env s h0 ht]
      obtain ⟨e1, e2, e3⟩ :=
        SYS_StateSwitch_error cfg env { s with timer := 0, triggerentry := 1 } h
      obtain ⟨d1, d2, _, _⟩ := SYS_Dispatch_fields cfg env { s with timer := 0, triggerentry := 1 }
      refine ⟨d1.trans e1, d2.trans e2, ?_⟩
      simp [SYS_Dispatch, e3]
    · rw [SYS_Trigger_of_gate cfg env s h0 (by omega)]
      exact ⟨h, rfl, rfl⟩
  · rw [SYS_Trigger_of_reentry cfg env s h0]
    exact ⟨h, rfl, rfl⟩

/-- Started in the error state, no sequence of calls leaves it, changes the
substate, or traps. -/
theorem SYS_Run_error (cfg : SYS_CONFIG_s) (evs : List SYS_EVENT) :
    ∀ s : SYS_STATE_s, s.state = SYS_STATEMACH_ERROR →
      (SYS_Run cfg evs s).st.state = SYS_STATEMACH_ERROR ∧
        (SYS_Run cfg evs s).st.substate = s.substate ∧
        (SYS_Run cfg evs s).trapped = false := by
  induction evs with
  | nil =>
    intro s h
    exact ⟨h, rfl, rfl⟩
  | cons ev evs ih =>
    intro s h
    cases ev with
    | request statereq =>
      obtain ⟨f1, f2, _, _⟩ := SYS_SetStateRequest_frame s statereq
      obtain ⟨r1, r2, r3⟩ := ih (SYS_SetStateRequest s statereq).1 (f1.trans h)
      simp only [SYS_Run]
      exact ⟨r1, r2.trans f2, r3⟩
    | trigger env =>
      obtain ⟨t1, t2, t3⟩ := SYS_Trigger_error cfg env s h
      obtain ⟨r1, r2, r3⟩ := ih (SYS_Trigger cfg env s).st t1
      simp only [SYS_Run, t3, Bool.false_eq_true, if_false]
      exact ⟨r1, r2.trans t2, r3⟩

/-- C11: the error state is terminal.  From a state variable in the error
state, a call of `SYS_Trigger` (any answers of the modules, any timer, flag
raised or not) and a call of `SYS_SetStateRequest` (any request) leave `state`
at the error state and `substate` as it was, and so does every sequence of
such calls; none of them traps. -/
theorem SYS_error_terminal (cfg : SYS_CONFIG_s) (env : SYS_PROXY_s) (s : SYS_STATE_s)
    (statereq : SYS_STATE_REQUEST_e) (evs : List SYS_EVENT)
    (h : s.state = SYS_STATEMACH_ERROR) :
    ((SYS_Trigger cfg env s).st.state = SYS_STATEMACH_ERROR ∧
        (SYS_Trigger cfg env s).st.substate = s.substate ∧
        (SYS_Trigger cfg env s).trapped = false) ∧
      ((SYS_SetStateRequest s statereq).1.state = SYS_STATEMACH_ERROR ∧
        (SYS_SetStateRequest s statereq).1.substate = s.substate) ∧
      ((SYS_Run cfg evs s).st.state = SYS_STATEMACH_ERROR ∧
        (SYS_Run cfg evs s).st.substate = s.substate ∧
        (SYS_Run cfg evs s).trapped = false) := by
  obtain ⟨f1, f2, _, _⟩ := SYS_SetStateRequest_frame s statereq
  exact ⟨SYS_Trigger_error cfg env s h, ⟨f1.trans h, f2⟩, SYS_Run_error cfg evs s h⟩

/-- C11 at concrete inputs: the error state reached from the BMS stage, with
all modules ready, an init request, an error request and three calls of
`SYS_Trigger`. -/
theorem SYS_error_terminal_witness :
    (SYS_stateAt SYS_STATEMACH_ERROR SYS_BMS_INIT_ERROR).state = SYS_STATEMACH_ERROR ∧
      (SYS_Run SYS_config_10ms
          [SYS_EVENT.trigger SYS_proxy_ready, SYS_EVENT.request SYS_STATE_INIT_REQUEST,
           SYS_EVENT.trigger SYS_proxy_ready, SYS_EVENT.request SYS_STATE_ERROR_REQUEST,
           SYS_EVENT.trigger SYS_proxy_ready]
          (SYS_stateAt SYS_STATEMACH_ERROR SYS_BMS_INIT_ERROR)).st.state
        = SYS_STATEMACH_ERROR ∧
      (SYS_Run SYS_config_10ms
          [SYS_EVENT.trigger SYS_proxy_ready, SYS_EVENT.request SYS_STATE_INIT_REQUEST,
           SYS_EVENT.trigger SYS_proxy_ready, SYS_EVENT.request SYS_STATE_ERROR_REQUEST,
           SYS_EVENT.trigger SYS_proxy_ready]
          (SYS_stateAt SYS_STATEMACH_ERROR SYS_BMS_INIT_ERROR)).st.substate
        = SYS_BMS_INIT_ERROR :=
  ⟨by decide,
    (SYS_error_terminal SYS_config_10ms SYS_proxy_ready
      (SYS_stateAt SYS_STATEMACH_ERROR SYS_BMS_INIT_ERROR) SYS_STATE_INIT_REQUEST
      [SYS_EVENT.trigger SYS_proxy_ready, SYS_EVENT.request SYS_STATE_INIT_REQUEST,
       SYS_EVENT.trigger SYS_proxy_ready, SYS_EVENT.request SYS_STATE_ERROR_REQUEST,
       SYS_EVENT.trigger SYS_proxy_ready] (by decide)).2.2.1,
    (SYS_error_terminal SYS_config_10ms SYS_proxy_ready
      (SYS_stateAt SYS_STATEMACH_ERROR SYS_BMS_INIT_ERROR) SYS_STATE_INIT_REQUEST
      [SYS_EVENT.trigger SYS_proxy_ready, SYS_EVENT.request SYS_STATE_INIT_REQUEST,
       SYS_EVENT.trigger SYS_proxy_ready, SYS_EVENT.request SYS_STATE_ERROR_REQUEST,
       SYS_EVENT.trigger SYS_proxy_ready] (by decide)).2.2.2.1⟩

/-- Outside the uninitialized state the switch leaves the pending request
as it is. -/
theorem SYS_StateSwitch_statereq (cfg : SYS_CONFIG_s) (env : SYS_PROXY_s) (s : SYS_STATE_s)
    (h : s.state ≠ SYS_STATEMACH_UNINITIALIZED) :
    (SYS_StateSwitch cfg env s).st.statereq = s.statereq := by
  cases s with
  | mk timer statereq state substate laststate lastsubstate triggerentry ec ic =>
    revert h
    cases state <;>
      simp only [SYS_StateSwitch, SYS_Break, SYS_Trap, SYS_SAVELASTSTATES,
        SYS_TransferStateRequest] <;>
      (try split_ifs) <;> simp_all

/-- C17: the pending request is taken in the uninitialized state only.  Outside
the uninitialized state a call of `SYS_Trigger` leaves `statereq` as it is,
whatever the timer, the flag, the substate and the answers of the modules;
and in every state a call that does not reach the switch, because the
re-entrance flag is raised or the timer is above one, leaves `statereq` as it
is and calls nothing but the alive notification. -/
theorem SYS_Trigger_statereq_frame (cfg : SYS_CONFIG_s) (env : SYS_PROXY_s) (s : SYS_STATE_s) :
    (s.state ≠ SYS_STATEMACH_UNINITIALIZED →
        (SYS_Trigger cfg env s).st.statereq = s.statereq) ∧
      (s.triggerentry ≠ 0 ∨ 1 < s.timer →
        (SYS_Trigger cfg env s).st.statereq = s.statereq ∧
        (SYS_Trigger cfg env s).calls = [SYS_CALL.DIAG_SysMonNotify]) := by
  have hskip : s.triggerentry ≠ 0 ∨ 1 < s.timer →
      (SYS_Trigger cfg env s).st.statereq = s.statereq ∧
      (SYS_Trigger cfg env s).calls = [SYS_CALL.DIAG_SysMonNotify] := by
    intro h
    by_cases h0 : s.triggerentry = 0
    · have ht : 1 < s.timer := by
        rcases h with h | h
        · exact absurd h0 h
        · exact h
      rw [SYS_Trigger_of_gate cfg env s h0 ht]
      exact ⟨rfl, rfl⟩
    · rw [SYS_Trigger_of_reentry cfg env s h0]
      exact ⟨rfl, rfl⟩
  refine ⟨fun hu => ?_, hskip⟩
  by_cases h0 : s.triggerentry = 0
  · by_cases ht : s.timer ≤ 1
    · rw [SYS_Trigger_of_elapsed cfg env s h0 ht, SYS_Dispatch_st]
      have hsw := SYS_StateSwitch_statereq cfg env { s with timer := 0, triggerentry := 1 } hu
      split_ifs <;> simpa using hsw
    · exact (hskip (Or.inr (by omega))).1
  · exact (hskip (Or.inl h0)).1

/-- C17 at concrete inputs: an error request pending in the BMS stage is still
pending after a call that runs the switch, and an init request pending in the
uninitialized state is still pending after a call held back by a timer
of 3. -/
theorem SYS_Trigger_statereq_frame_witness :
    (SYS_Trigger SYS_config_10ms SYS_proxy_ready
        { SYS_stateAt SYS_STATEMACH_INITIALIZE_BMS SYS_WAIT_INITIALIZATION_BMS with
          statereq := SYS_STATE_ERROR_REQUEST }).st.statereq = SYS_STATE_ERROR_REQUEST ∧
      (SYS_Trigger SYS_config_10ms SYS_proxy_ready
        { sys_state with statereq := SYS_STATE_INIT_REQUEST, timer := 3 }).st.statereq
        = SYS_STATE_INIT_REQUEST :=
  ⟨(SYS_Trigger_statereq_frame SYS_config_10ms SYS_proxy_ready
      { SYS_stateAt SYS_STATEMACH_INITIALIZE_BMS SYS_WAIT_INITIALIZATION_BMS with
        statereq := SYS_STATE_ERROR_REQUEST }).1 (by decide),
    ((SYS_Trigger_statereq_frame SYS_config_10ms SYS_proxy_ready
      { sys_state with statereq := SYS_STATE_INIT_REQUEST, timer := 3 }).2
      (Or.inr (by decide))).1⟩

end ErrorState

section Uninitialized

open SYS_STATEMACH_e SYS_STATEMACH_SUB_e SYS_STATE_REQUEST_e SYS_RETURN_TYPE_e
open STD_RETURN_TYPE_e

/-- With the flag clear and the timer at zero or one, a call of `SYS_Trigger`
in the uninitialized state leaves what the switch leaves when run with the
timer at zero, calls nothing but the alive notification and does not trap. -/
theorem SYS_Trigger_uninitialized (cfg : SYS_CONFIG_s) (env : SYS_PROXY_s) (s : SYS_STATE_s)
    (h : s.state = SYS_STATEMACH_UNINITIALIZED) (h0 : s.triggerentry = 0) (ht : s.timer ≤ 1) :
    SYS_Trigger cfg env s
      = { st := (SYS_StateSwitch cfg env { s with timer := 0 }).st
          calls := [SYS_CALL.DIAG_SysMonNotify]
          trapped := false } := by
  rw [SYS_Trigger_of_elapsed cfg env s h0 ht]
  cases s with
  | mk timer statereq state substate laststate lastsubstate triggerentry ec ic =>
    simp only at h h0
    subst h h0
    simp only [SYS_Dispatch, SYS_StateSwitch, SYS_Break, SYS_SAVELASTSTATES,
      SYS_TransferStateRequest]
    split_ifs <;> simp_all

/-- C16, as the code has it: the switch in the uninitialized state.  With the
init request pending it saves state and substate, sets the timer to the short
delay and moves to the initialization state with substate entry; the request
counter is untouched.  With no request pending it changes nothing.  With any
other request pending it keeps state and substate and increments the request
counter modulo its width: by one below the maximum, to zero at the maximum.
In all three cases the pending slot is `SYS_STATE_NO_REQUEST` afterwards, no
module is called, and a call of `SYS_Trigger` with the flag clear and the
timer elapsed leaves exactly what the switch leaves. -/
theorem SYS_StateSwitch_uninitialized (cfg : SYS_CONFIG_s) (env : SYS_PROXY_s)
    (s : SYS_STATE_s) (h : s.state = SYS_STATEMACH_UNINITIALIZED) :
    (s.statereq = SYS_STATE_INIT_REQUEST →
        SYS_StateSwitch cfg env s
          = { st := { s with statereq := SYS_STATE_NO_REQUEST
                             laststate := s.state
                             lastsubstate := s.substate
                             timer := cfg.SYS_STATEMACH_SHORTTIME_MS
                             state := SYS_STATEMACH_INITIALIZATION
                             substate := SYS_ENTRY }
              calls := []
              trapped := false }) ∧
      (s.statereq = SYS_STATE_NO_REQUEST →
        SYS_StateSwitch cfg env s = { st := s, calls := [], trapped := false }) ∧
      (s.statereq ≠ SYS_STATE_INIT_REQUEST → s.statereq ≠ SYS_STATE_NO_REQUEST →
        SYS_StateSwitch cfg env s
          = { st := { s with statereq := SYS_STATE_NO_REQUEST
                             ErrRequestCounter :=
                               (s.ErrRequestCounter + 1) % 2 ^ cfg.ErrRequestCounter_bits }
              calls := []
              trapped := false } ∧
        (s.ErrRequestCounter + 1 < 2 ^ cfg.ErrRequestCounter_bits →
          (SYS_StateSwitch cfg env s).st.ErrRequestCounter = s.ErrRequestCounter + 1) ∧
        (s.ErrRequestCounter + 1 = 2 ^ cfg.ErrRequestCounter_bits →
          (SYS_StateSwitch cfg env s).st.ErrRequestCounter = 0)) ∧
      (SYS_StateSwitch cfg env s).st.statereq = SYS_STATE_NO_REQUEST ∧
      (s.triggerentry = 0 → s.timer ≤ 1 →
        (SYS_Trigger cfg env s).st = (SYS_StateSwitch cfg env { s with timer := 0 }).st) := by
  refine ⟨?_, ?_, ?_, ?_, ?_⟩
  · intro hr
    cases s with
    | mk timer statereq state substate laststate lastsubstate triggerentry ec ic =>
      simp only at h hr
      subst h hr
      simp [SYS_StateSwitch, SYS_Break, SYS_SAVELASTSTATES, SYS_TransferStateRequest]
  · intro hr
    cases s with
    | mk timer statereq state substate laststate lastsubstate triggerentry ec ic =>
      simp only at h hr
      subst h hr
      simp [SYS_StateSwitch, SYS_Break, SYS_SAVELASTSTATES, SYS_TransferStateRequest]
  · intro hi hn
    have heq : SYS_StateSwitch cfg env s
        = { st := { s with statereq := SYS_STATE_NO_REQUEST
                           ErrRequestCounter :=
                             (s.ErrRequestCounter + 1) % 2 ^ cfg.ErrRequestCounter_bits }
            calls := []
            trapped := false } := by
      cases s with
      | mk timer statereq state substate laststate lastsubstate triggerentry ec ic =>
        simp only at h hi hn
        subst h
        simp [SYS_StateSwitch, SYS_Break, SYS_SAVELASTSTATES, SYS_TransferStateRequest, hi, hn]
    refine ⟨heq, ?_, ?_⟩
    · intro hlt
      rw [heq]
      exact Nat.mod_eq_of_lt hlt
    · intro hmax
      rw [heq]
      show (s.ErrRequestCounter + 1) % 2 ^ cfg.ErrRequestCounter_bits = 0
      rw [hmax, Nat.mod_self]
  · cases s with
    | mk timer statereq state substate laststate lastsubstate triggerentry ec ic =>
      simp only at h
      subst h
      simp only [SYS_StateSwitch, SYS_Break, SYS_SAVELASTSTATES, SYS_TransferStateRequest]
      split_ifs <;> rfl
  · intro h0 ht
    rw [SYS_Trigger_uninitialized cfg env s h h0 ht]

/-- C16 at concrete inputs: the initial state with the init request stored. -/
theorem SYS_StateSwitch_uninitialized_witness :
    (SYS_SetStateRequest sys_state SYS_STATE_INIT_REQUEST).1.state
        = SYS_STATEMACH_UNINITIALIZED ∧
      SYS_StateSwitch SYS_config_10ms SYS_proxy_ready
          (SYS_SetStateRequest sys_state SYS_STATE_INIT_REQUEST).1
        = { st := { SYS_stateAt SYS_STATEMACH_INITIALIZATION SYS_ENTRY with timer := 1 }
            calls := []
            trapped := false } :=
  ⟨by decide,
    ((SYS_StateSwitch_uninitialized SYS_config_10ms SYS_proxy_ready
      (SYS_SetStateRequest sys_state SYS_STATE_INIT_REQUEST).1 (by decide)).1
      (by decide)).trans (by decide)⟩

/-- C16 as stated fails where the counter wraps: with a 32-bit request counter
at its maximum 4294967295 and an error request pending in the uninitialized
state, the switch, and the call of `SYS_Trigger` that runs it, leave the
counter at 0, not at 4294967296. -/
theorem SYS_ErrRequestCounter_wraps :
    SYS_config_10ms.ErrRequestCounter_bits = 32 ∧
      (SYS_StateSwitch SYS_config_10ms SYS_proxy_ready
          { sys_state with statereq := SYS_STATE_ERROR_REQUEST
                           ErrRequestCounter := 4294967295 }).st.ErrRequestCounter = 0 ∧
      (SYS_Trigger SYS_config_10ms SYS_proxy_ready
          { sys_state with statereq := SYS_STATE_ERROR_REQUEST
                           ErrRequestCounter := 4294967295 }).st.ErrRequestCounter = 0 ∧
      (SYS_Trigger SYS_config_10ms SYS_proxy_ready
          { sys_state with statereq := SYS_STATE_ERROR_REQUEST
                           ErrRequestCounter := 4294967295 }).st.ErrRequestCounter
        ≠ 4294967295 + 1 := by
  decide

end Uninitialized

section Escalation

open SYS_STATEMACH_e SYS_STATEMACH_SUB_e SYS_STATE_REQUEST_e SYS_RETURN_TYPE_e
open STD_RETURN_TYPE_e ILCK_STATEMACH_e

/-- The timer after the switch and the decrement of the flag is the one the
switch left. -/
theorem SYS_Dispatch_timer (cfg : SYS_CONFIG_s) (env : SYS_PROXY_s) (s : SYS_STATE_s) :
    (SYS_Dispatch cfg env s).st.timer = (SYS_StateSwitch cfg env s).st.timer := by
  rw [SYS_Dispatch_st]
  split_ifs <;> simp

/-- Where the switch moves into the error state, it was run in the wait
substate of a polling stage of the build whose module was not ready, with the
retry counter above the budget; it leaves the error substate of that stage and
the short delay in the timer. -/
theorem SYS_StateSwitch_escalation_only (cfg : SYS_CONFIG_s) (env : SYS_PROXY_s)
    (s : SYS_STATE_s)
    (he : (SYS_StateSwitch cfg env s).st.state = SYS_STATEMACH_ERROR)
    (hne : s.state ≠ SYS_STATEMACH_ERROR) :
    SYS_Compiled cfg s.state = true ∧
      SYS_WaitSubstate s.state = some s.substate ∧
      SYS_NotReady env s.state = true ∧
      SYS_InitBudget cfg < s.InitCounter ∧
      SYS_ErrorSubstate s.state = some (SYS_StateSwitch cfg env s).st.substate ∧
      (SYS_StateSwitch cfg env s).st.timer = cfg.SYS_STATEMACH_SHORTTIME_MS := by
  cases s with
  | mk timer statereq state substate laststate lastsubstate triggerentry ec ic =>
    revert he hne
    cases state <;>
      simp only [SYS_StateSwitch, SYS_Break, SYS_Trap, SYS_SAVELASTSTATES,
        SYS_TransferStateRequest, SYS_Compiled, SYS_WaitSubstate, SYS_NotReady,
        SYS_ErrorSubstate] <;>
      (try split_ifs) <;> simp_all

/-- In the wait substate of a polling stage of the build, a module that is not
ready and a retry counter above the budget make the switch move to the error
state, with the error substate of the stage and the short delay. -/
theorem SYS_StateSwitch_escalates (cfg : SYS_CONFIG_s) (env : SYS_PROXY_s) (s : SYS_STATE_s)
    (hc : SYS_Compiled cfg s.state = true)
    (hw : SYS_WaitSubstate s.state = some s.substate)
    (hn : SYS_NotReady env s.state = true)
    (hb : SYS_InitBudget cfg < s.InitCounter) :
    (SYS_StateSwitch cfg env s).st.state = SYS_STATEMACH_ERROR ∧
      SYS_ErrorSubstate s.state = some (SYS_StateSwitch cfg env s).st.substate ∧
      (SYS_StateSwitch cfg env s).st.timer = cfg.SYS_STATEMACH_SHORTTIME_MS := by
  cases s with
  | mk timer statereq state substate laststate lastsubstate triggerentry ec ic =>
    cases state <;>
      simp only [SYS_WaitSubstate, SYS_Compiled, SYS_NotReady, Option.some.injEq,
        decide_eq_true_eq, reduceCtorEq] at hc hw hn <;>
      subst hw <;>
      simp only [SYS_StateSwitch, SYS_Break, SYS_Trap, SYS_SAVELASTSTATES, SYS_ErrorSubstate] <;>
      split_ifs <;> simp_all

/-- C13: escalation is uniform and happens on an exhausted retry budget only.
Whenever a call of `SYS_Trigger` moves `state` into the error state, the call
ran the switch (flag clear, timer elapsed) in the wait substate of one of the
six polling stages, a stage of the build, the module of that stage failed the
poll of this call, and the retry counter was above
`100 / SYS_TASK_CYCLE_CONTEXT_MS`; afterwards `substate` is the error substate
of that stage and the timer holds the short delay.  Conversely a call that
runs the switch in such a wait substate with the module not ready and the
retry counter above the budget always moves to the error state, in the same
way. -/
theorem SYS_Trigger_escalation (cfg : SYS_CONFIG_s) (env : SYS_PROXY_s) (s : SYS_STATE_s) :
    ((SYS_Trigger cfg env s).st.state = SYS_STATEMACH_ERROR →
        s.state ≠ SYS_STATEMACH_ERROR →
        s.triggerentry = 0 ∧ s.timer ≤ 1 ∧
        SYS_Compiled cfg s.state = true ∧
        SYS_WaitSubstate s.state = some s.substate ∧
        SYS_NotReady env s.state = true ∧
        SYS_InitBudget cfg < s.InitCounter ∧
        SYS_ErrorSubstate s.state = some (SYS_Trigger cfg env s).st.substate ∧
        (SYS_Trigger cfg env s).st.timer = cfg.SYS_STATEMACH_SHORTTIME_MS) ∧
      (s.triggerentry = 0 → s.timer ≤ 1 →
        SYS_Compiled cfg s.state = true →
        SYS_WaitSubstate s.state = some s.substate →
        SYS_NotReady env s.state = true →
        SYS_InitBudget cfg < s.InitCounter →
        (SYS_Trigger cfg env s).st.state = SYS_STATEMACH_ERROR ∧
        SYS_ErrorSubstate s.state = some (SYS_Trigger cfg env s).st.substate ∧
        (SYS_Trigger cfg env s).st.timer = cfg.SYS_STATEMACH_SHORTTIME_MS) := by
  constructor
  · intro he hne
    have hchg : (SYS_Trigger cfg env s).st.state ≠ s.state := by
      rw [he]
      exact fun h => hne h.symm
    obtain ⟨h0, ht⟩ := SYS_Trigger_ran_switch cfg env s hchg
    rw [SYS_Trigger_of_elapsed cfg env s h0 ht] at he ⊢
    obtain ⟨e1, e2, _, _⟩ := SYS_Dispatch_fields cfg env { s with timer := 0, triggerentry := 1 }
    rw [e1] at he
    rw [e2, SYS_Dispatch_timer]
    obtain ⟨a, b, c, d, e, f⟩ :=
      SYS_StateSwitch_escalation_only cfg env { s with timer := 0, triggerentry := 1 } he hne
    exact ⟨h0, ht, a, b, c, d, e, f⟩
  · intro h0 ht hc hw hn hb
    rw [SYS_Trigger_of_elapsed cfg env s h0 ht]
    obtain ⟨e1, e2, _, _⟩ := SYS_Dispatch_fields cfg env { s with timer := 0, triggerentry := 1 }
    rw [e1, e2, SYS_Dispatch_timer]
    exact SYS_StateSwitch_escalates cfg env { s with timer := 0, triggerentry := 1 } hc hw hn hb

/-- C13 at concrete inputs: the BMS stage, waiting, retry counter 11 above the
budget 10, BMS not ready: the call escalates with `SYS_BMS_INIT_ERROR` and the
short delay 1. -/
theorem SYS_Trigger_escalation_witness :
    (SYS_Trigger SYS_config_10ms SYS_proxy_not_ready
        { SYS_stateAt SYS_STATEMACH_INITIALIZE_BMS SYS_WAIT_INITIALIZATION_BMS with
          InitCounter := 11 }).st.state = SYS_STATEMACH_ERROR ∧
      SYS_ErrorSubstate SYS_STATEMACH_INITIALIZE_BMS
        = some (SYS_Trigger SYS_config_10ms SYS_proxy_not_ready
            { SYS_stateAt SYS_STATEMACH_INITIALIZE_BMS SYS_WAIT_INITIALIZATION_BMS with
              InitCounter := 11 }).st.substate ∧
      (SYS_Trigger SYS_config_10ms SYS_proxy_not_ready
        { SYS_stateAt SYS_STATEMACH_INITIALIZE_BMS SYS_WAIT_INITIALIZATION_BMS with
          InitCounter := 11 }).st.timer = 1 :=
  (SYS_Trigger_escalation SYS_config_10ms SYS_proxy_not_ready
    { SYS_stateAt SYS_STATEMACH_INITIALIZE_BMS SYS_WAIT_INITIALIZATION_BMS with
      InitCounter := 11 }).2 (by decide) (by decide) (by decide) (by decide) (by decide)
    (by decide)

end Escalation

/-! ## The order of the stages -/

section Order

open SYS_STATEMACH_e SYS_STATEMACH_SUB_e SYS_STATE_REQUEST_e SYS_RETURN_TYPE_e
open STD_RETURN_TYPE_e ILCK_STATEMACH_e

/-- The switch keeps the state, or moves to the error state, or moves to the
immediately next configured stage. -/
theorem SYS_StateSwitch_order (cfg : SYS_CONFIG_s) (env : SYS_PROXY_s) (s : SYS_STATE_s) :
    (SYS_StateSwitch cfg env s).st.state = s.state ∨
      (SYS_StateSwitch cfg env s).st.state = SYS_STATEMACH_ERROR ∨
      SYS_NextStage cfg s.state = some (SYS_StateSwitch cfg env s).st.state := by
  cases s with
  | mk timer statereq state substate laststate lastsubstate triggerentry ec ic =>
    cases state <;>
      simp only [SYS_StateSwitch, SYS_Break, SYS_Trap, SYS_SAVELASTSTATES,
        SYS_TransferStateRequest] <;>
      (try split_ifs) <;>
      simp_all [SYS_NextStage, SYS_StagesAfter, SYS_StageOrder, List.dropWhile, List.find?,
        SYS_Configured]

/-- In the running state the switch stays there. -/
theorem SYS_StateSwitch_running (cfg : SYS_CONFIG_s) (env : SYS_PROXY_s) (s : SYS_STATE_s)
    (h : s.state = SYS_STATEMACH_RUNNING) :
    (SYS_StateSwitch cfg env s).st.state = SYS_STATEMACH_RUNNING := by
  cases s with
  | mk timer statereq state substate laststate lastsubstate triggerentry ec ic =>
    simp only at h
    subst h
    simp [SYS_StateSwitch, SYS_Break, SYS_SAVELASTSTATES]

/-- The state after a call of `SYS_Trigger` is the one before the call or the
one the switch leaves. -/
theorem SYS_Trigger_state (cfg : SYS_CONFIG_s) (env : SYS_PROXY_s) (s : SYS_STATE_s) :
    (SYS_Trigger cfg env s).st.state = s.state ∨
      (SYS_Trigger cfg env s).st.state
        = (SYS_StateSwitch cfg env { s with timer := 0, triggerentry := 1 }).st.state := by
  by_cases h0 : s.triggerentry = 0
  · by_cases ht : s.timer ≤ 1
    · right
      rw [SYS_Trigger_of_elapsed cfg env s h0 ht]
      exact (SYS_Dispatch_fields cfg env { s with timer := 0, triggerentry := 1 }).1
    · left
      rw [SYS_Trigger_of_gate cfg env s h0 (by omega)]
  · left
    rw [SYS_Trigger_of_reentry cfg env s h0]

/-- C12: the stages are traversed in the fixed order.  A call of `SYS_Trigger`
leaves `state` as it is, or moves it to the error state, or moves it to the
immediately next configured stage of the traversal order: a stage behind the
current one, configured, with no configured stage in between.  The running
state is never left and has no next stage, and the error state is no stage of
the order. -/
theorem SYS_Trigger_order (cfg : SYS_CONFIG_s) (env : SYS_PROXY_s) (s : SYS_STATE_s) :
    ((SYS_Trigger cfg env s).st.state = s.state ∨
        (SYS_Trigger cfg env s).st.state = SYS_STATEMACH_ERROR ∨
        (SYS_NextStage cfg s.state = some (SYS_Trigger cfg env s).st.state ∧
          (SYS_Trigger cfg env s).st.state ∈ SYS_StagesAfter s.state ∧
          SYS_Configured cfg (SYS_Trigger cfg env s).st.state = true)) ∧
      (s.state = SYS_STATEMACH_RUNNING →
        (SYS_Trigger cfg env s).st.state = SYS_STATEMACH_RUNNING) ∧
      SYS_NextStage cfg SYS_STATEMACH_RUNNING = none ∧
      SYS_STATEMACH_ERROR ∉ SYS_StageOrder := by
  refine ⟨?_, ?_, rfl, by decide⟩
  · rcases SYS_Trigger_state cfg env s with h | h
    · exact Or.inl h
    · rw [h]
      rcases SYS_StateSwitch_order cfg env { s with timer := 0, triggerentry := 1 }
        with h1 | h1 | h1
      · exact Or.inl h1
      · exact Or.inr (Or.inl h1)
      · refine Or.inr (Or.inr ⟨h1, ?_, ?_⟩)
        · exact List.mem_of_find?_eq_some h1
        · exact List.find?_some h1
  · intro hr
    rcases SYS_Trigger_state cfg env s with h | h
    · rw [h, hr]
    · rw [h]
      exact SYS_StateSwitch_running cfg env { s with timer := 0, triggerentry := 1 } hr

/-- C12 at concrete inputs: without interlock and contactors the initialized
state is followed by the balancing stage, which is its next configured
stage. -/
theorem SYS_Trigger_order_witness :
    (SYS_Trigger SYS_config_bare SYS_proxy_ready
        (SYS_stateAt SYS_STATEMACH_INITIALIZED SYS_ENTRY)).st.state
      = SYS_STATEMACH_INITIALIZE_BALANCING ∧
      SYS_NextStage SYS_config_bare (SYS_stateAt SYS_STATEMACH_INITIALIZED SYS_ENTRY).state
        = some SYS_STATEMACH_INITIALIZE_BALANCING :=
  ⟨by decide,
    (((SYS_Trigger_order SYS_config_bare SYS_proxy_ready
      (SYS_stateAt SYS_STATEMACH_INITIALIZED SYS_ENTRY)).1.resolve_left
      (by decide)).resolve_left (by decide)).1.trans (by decide)⟩

end Order

/-! ## What holds between calls -/

section Invariant

open SYS_STATEMACH_e SYS_STATEMACH_SUB_e SYS_STATE_REQUEST_e SYS_RETURN_TYPE_e
open STD_RETURN_TYPE_e ILCK_STATEMACH_e

/-- A configured state has a case in the switch. -/
theorem SYS_Compiled_of_Configured (cfg : SYS_CONFIG_s) (state : SYS_STATEMACH_e)
    (h : SYS_Configured cfg state = true) : SYS_Compiled cfg state = true := by
  revert h
  cases state <;> simp [SYS_Configured, SYS_Compiled]

/-- The switch traps exactly in a state without a case, and never touches the
re-entrance flag. -/
theorem SYS_StateSwitch_trapped (cfg : SYS_CONFIG_s) (env : SYS_PROXY_s) (s : SYS_STATE_s) :
    ((SYS_StateSwitch cfg env s).trapped = true ↔ SYS_Compiled cfg s.state = false) ∧
      (SYS_StateSwitch cfg env s).st.triggerentry = s.triggerentry := by
  cases s with
  | mk timer statereq state substate laststate lastsubstate triggerentry ec ic =>
    cases state <;>
      simp only [SYS_StateSwitch, SYS_Break, SYS_Trap, SYS_SAVELASTSTATES,
        SYS_TransferStateRequest, SYS_Compiled] <;>
      (try split_ifs) <;> simp_all

/-- The calls of the part behind the timer gate are the alive notification and
then the calls of the switch. -/
theorem SYS_Dispatch_calls (cfg : SYS_CONFIG_s) (env : SYS_PROXY_s) (s : SYS_STATE_s) :
    (SYS_Dispatch cfg env s).calls
        = SYS_CALL.DIAG_SysMonNotify :: (SYS_StateSwitch cfg env s).calls ∧
      (SYS_Dispatch cfg env s).trapped = (SYS_StateSwitch cfg env s).trapped := by
  by_cases h : (SYS_StateSwitch cfg env s).trapped = true <;> simp [SYS_Dispatch, h]

/-- From a configured state with paired substate the switch goes to a
configured state with paired substate. -/
theorem SYS_StateSwitch_invariant (cfg : SYS_CONFIG_s) (env : SYS_PROXY_s) (s : SYS_STATE_s)
    (hc : SYS_Configured cfg s.state = true) (hp : SYS_Paired s = true) :
    SYS_Configured cfg (SYS_StateSwitch cfg env s).st.state = true ∧
      SYS_Paired (SYS_StateSwitch cfg env s).st = true := by
  cases s with
  | mk timer statereq state substate laststate lastsubstate triggerentry ec ic =>
    cases state <;> cases substate <;>
      first
        | (simp [SYS_Paired, SYS_WaitSubstate] at hp; done)
        | (simp only [SYS_Configured] at hc
           simp only [SYS_StateSwitch, SYS_Break, SYS_Trap, SYS_SAVELASTSTATES,
             SYS_TransferStateRequest]
           (try split_ifs) <;> simp_all [SYS_Configured, SYS_Paired, SYS_WaitSubstate])

/-- The flag after a call of `SYS_Trigger` that found it clear, and the calls
that trap. -/
theorem SYS_Trigger_flag (cfg : SYS_CONFIG_s) (env : SYS_PROXY_s) (s : SYS_STATE_s)
    (h0 : s.triggerentry = 0) :
    ((SYS_Trigger cfg env s).trapped = false → (SYS_Trigger cfg env s).st.triggerentry = 0) ∧
      ((SYS_Trigger cfg env s).trapped = true ↔
        (s.timer ≤ 1 ∧ SYS_Compiled cfg s.state = false)) := by
  by_cases ht : s.timer ≤ 1
  · rw [SYS_Trigger_of_elapsed cfg env s h0 ht]
    obtain ⟨t1, t2⟩ := SYS_StateSwitch_trapped cfg env { s with timer := 0, triggerentry := 1 }
    obtain ⟨_, d2⟩ := SYS_Dispatch_calls cfg env { s with timer := 0, triggerentry := 1 }
    constructor
    · intro hnt
      rw [d2] at hnt
      rw [SYS_Dispatch_st]
      simp [hnt, t2]
    · rw [d2, t1]
      simp [ht]
  · rw [SYS_Trigger_of_gate cfg env s h0 (by omega)]
    simp [h0, ht]

/-- The initial value of the state variable satisfies the invariant. -/
theorem sys_state_invariant (cfg : SYS_CONFIG_s) : SYS_Invariant cfg sys_state :=
  ⟨rfl, rfl, rfl⟩

/-- `SYS_SetStateRequest` preserves the invariant. -/
theorem SYS_SetStateRequest_invariant (cfg : SYS_CONFIG_s) (s : SYS_STATE_s)
    (statereq : SYS_STATE_REQUEST_e) (hi : SYS_Invariant cfg s) :
    SYS_Invariant cfg (SYS_SetStateRequest s statereq).1 := by
  obtain ⟨h0, hc, hp⟩ := hi
  obtain ⟨f1, f2, f3, _⟩ := SYS_SetStateRequest_frame s statereq
  refine ⟨f3.trans h0, by rw [f1]; exact hc, ?_⟩
  simp only [SYS_Paired, f1, f2]
  simpa only [SYS_Paired] using hp

/-- `SYS_Trigger` preserves the invariant and does not trap under it. -/
theorem SYS_Trigger_invariant (cfg : SYS_CONFIG_s) (env : SYS_PROXY_s) (s : SYS_STATE_s)
    (hi : SYS_Invariant cfg s) :
    (SYS_Trigger cfg env s).trapped = false ∧ SYS_Invariant cfg (SYS_Trigger cfg env s).st := by
  obtain ⟨h0, hc, hp⟩ := hi
  obtain ⟨f1, f2⟩ := SYS_Trigger_flag cfg env s h0
  have hnt : (SYS_Trigger cfg env s).trapped = false := by
    cases htr : (SYS_Trigger cfg env s).trapped with
    | false => rfl
    | true =>
      have := (f2.mp htr).2
      rw [SYS_Compiled_of_Configured cfg s.state hc] at this
      exact absurd this (by decide)
  refine ⟨hnt, f1 hnt, ?_⟩
  by_cases ht : s.timer ≤ 1
  · rw [SYS_Trigger_of_elapsed cfg env s h0 ht]
    obtain ⟨e1, e2, _, _⟩ := SYS_Dispatch_fields cfg env { s with timer := 0, triggerentry := 1 }
    have hp2 : SYS_Paired { s with timer := 0, triggerentry := 1 } = true := by
      simpa only [SYS_Paired] using hp
    obtain ⟨i1, i2⟩ :=
      SYS_StateSwitch_invariant cfg env { s with timer := 0, triggerentry := 1 } hc hp2
    refine ⟨by rw [e1]; exact i1, ?_⟩
    simp only [SYS_Paired, e1, e2]
    simpa only [SYS_Paired] using i2
  · rw [SYS_Trigger_of_gate cfg env s h0 (by omega)]
    refine ⟨hc, ?_⟩
    simpa only [SYS_Paired] using hp

/-- Every sequence of calls preserves the invariant and does not trap under
it. -/
theorem SYS_Run_invariant (cfg : SYS_CONFIG_s) (evs : List SYS_EVENT) :
    ∀ s : SYS_STATE_s, SYS_Invariant cfg s →
      (SYS_Run cfg evs s).trapped = false ∧ SYS_Invariant cfg (SYS_Run cfg evs s).st := by
  induction evs with
  | nil =>
    intro s hi
    exact ⟨rfl, hi⟩
  | cons ev evs ih =>
    intro s hi
    cases ev with
    | request statereq =>
      simp only [SYS_Run]
      exact ih _ (SYS_SetStateRequest_invariant cfg s statereq hi)
    | trigger env =>
      obtain ⟨t1, t2⟩ := SYS_Trigger_invariant cfg env s hi
      simp only [SYS_Run, t1, Bool.false_eq_true, if_false]
      exact ih _ t2

/-- C18: the re-entrance flag is released on every path that is not denied.
A call of `SYS_Trigger` that finds the flag clear and returns leaves the flag
clear; the only calls that do not return are those that run the switch in a
state the build has no case for and end in the trap.  Started from the
initial value, no sequence of calls of `SYS_SetStateRequest` and
`SYS_Trigger` traps, and after each of them the flag is clear. -/
theorem SYS_Trigger_releases_flag (cfg : SYS_CONFIG_s) (env : SYS_PROXY_s) (s : SYS_STATE_s)
    (evs : List SYS_EVENT) (h0 : s.triggerentry = 0) :
    ((SYS_Trigger cfg env s).trapped = false → (SYS_Trigger cfg env s).st.triggerentry = 0) ∧
      ((SYS_Trigger cfg env s).trapped = true ↔
        (s.timer ≤ 1 ∧ SYS_Compiled cfg s.state = false)) ∧
      (SYS_Run cfg evs sys_state).trapped = false ∧
      (SYS_Run cfg evs sys_state).st.triggerentry = 0 := by
  obtain ⟨f1, f2⟩ := SYS_Trigger_flag cfg env s h0
  obtain ⟨r1, r2, _, _⟩ := SYS_Run_invariant cfg evs sys_state (sys_state_invariant cfg)
  exact ⟨f1, f2, r1, r2⟩

/-- C18 at concrete inputs: the BMS stage with the flag clear, on the path
through the switch and, with a timer of 3, on the early return. -/
theorem SYS_Trigger_releases_flag_witness :
    (SYS_stateAt SYS_STATEMACH_INITIALIZE_BMS SYS_WAIT_INITIALIZATION_BMS).triggerentry = 0 ∧
      (SYS_Trigger SYS_config_10ms SYS_proxy_ready
        (SYS_stateAt SYS_STATEMACH_INITIALIZE_BMS SYS_WAIT_INITIALIZATION_BMS)).trapped
        = false ∧
      (SYS_Trigger SYS_config_10ms SYS_proxy_ready
        (SYS_stateAt SYS_STATEMACH_INITIALIZE_BMS
          SYS_WAIT_INITIALIZATION_BMS)).st.triggerentry = 0 ∧
      (SYS_Trigger SYS_config_10ms SYS_proxy_ready
        { SYS_stateAt SYS_STATEMACH_INITIALIZE_BMS SYS_WAIT_INITIALIZATION_BMS with
          timer := 3 }).st.triggerentry = 0 :=
  ⟨by decide, by decide,
    (SYS_Trigger_releases_flag SYS_config_10ms SYS_proxy_ready
      (SYS_stateAt SYS_STATEMACH_INITIALIZE_BMS SYS_WAIT_INITIALIZATION_BMS) []
      (by decide)).1 (by decide),
    (SYS_Trigger_releases_flag SYS_config_10ms SYS_proxy_ready
      { SYS_stateAt SYS_STATEMACH_INITIALIZE_BMS SYS_WAIT_INITIALIZATION_BMS with
        timer := 3 } [] (by decide)).1 (by decide)⟩

/-- C19: the trap is unreachable.  For every build configuration and every
sequence of calls of `SYS_SetStateRequest` and `SYS_Trigger` started from the
initial value, with any answers of the modules, no call runs into the default
case of the switch, and the state reached has a case in the switch of this
build: the interlock stage is reached only in a build with the interlock, the
contactor stage only in a build with contactors. -/
theorem SYS_trap_unreachable (cfg : SYS_CONFIG_s) (evs : List SYS_EVENT) :
    (SYS_Run cfg evs sys_state).trapped = false ∧
      SYS_Compiled cfg (SYS_Run cfg evs sys_state).st.state = true ∧
      ((SYS_Run cfg evs sys_state).st.state = SYS_STATEMACH_INITIALIZE_INTERLOCK →
        cfg.BUILD_MODULE_ENABLE_ILCK = true) ∧
      ((SYS_Run cfg evs sys_state).st.state = SYS_STATEMACH_INITIALIZE_CONTACTORS →
        cfg.BUILD_MODULE_ENABLE_CONTACTOR = true) := by
  obtain ⟨r1, _, r3, _⟩ := SYS_Run_invariant cfg evs sys_state (sys_state_invariant cfg)
  refine ⟨r1, SYS_Compiled_of_Configured cfg _ r3, ?_, ?_⟩
  · intro h
    rw [h] at r3
    exact r3
  · intro h
    rw [h] at r3
    exact r3

/-- C20: state and substate are paired in every state reached from the initial
value by calls of `SYS_SetStateRequest` and `SYS_Trigger`: entry or the own
wait substate in the six polling stages, one of the six error substates in the
error state, entry in every other state.  So in a polling stage the substate
is always one of the two that the if / else-if chain of the stage acts on. -/
theorem SYS_pairing_invariant (cfg : SYS_CONFIG_s) (evs : List SYS_EVENT) :
    SYS_Paired (SYS_Run cfg evs sys_state).st = true ∧
      (∀ wait : SYS_STATEMACH_SUB_e,
        SYS_WaitSubstate (SYS_Run cfg evs sys_state).st.state = some wait →
        (SYS_Run cfg evs sys_state).st.substate = SYS_ENTRY ∨
          (SYS_Run cfg evs sys_state).st.substate = wait) ∧
      ((SYS_Run cfg evs sys_state).st.state = SYS_STATEMACH_ERROR →
        (SYS_Run cfg evs sys_state).st.substate ∈
          [SYS_ILCK_INIT_ERROR, SYS_CONT_INIT_ERROR, SYS_BAL_INIT_ERROR, SYS_MEAS_INIT_ERROR,
           SYS_CURRENT_SENSOR_PRESENCE_ERROR, SYS_BMS_INIT_ERROR]) ∧
      ((SYS_Run cfg evs sys_state).st.state ≠ SYS_STATEMACH_ERROR →
        SYS_WaitSubstate (SYS_Run cfg evs sys_state).st.state = none →
        (SYS_Run cfg evs sys_state).st.substate = SYS_ENTRY) := by
  obtain ⟨_, _, _, r4⟩ := SYS_Run_invariant cfg evs sys_state (sys_state_invariant cfg)
  refine ⟨r4, ?_, ?_, ?_⟩
  · intro wait hw
    have hne : (SYS_Run cfg evs sys_state).st.state ≠ SYS_STATEMACH_ERROR := by
      intro he
      rw [he] at hw
      simp [SYS_WaitSubstate] at hw
    simpa [SYS_Paired, hne, hw] using r4
  · intro he
    simpa [SYS_Paired, he] using r4
  · intro hne hw
    simpa [SYS_Paired, hne, hw] using r4

end Invariant

/-! ## A build without current sensor -/

section NoCurrentSensor

open SYS_STATEMACH_e SYS_STATEMACH_SUB_e SYS_STATE_REQUEST_e SYS_RETURN_TYPE_e
open STD_RETURN_TYPE_e ILCK_STATEMACH_e

/-- Without a current sensor the switch does not move into the current sensor
stage. -/
theorem SYS_StateSwitch_no_current_sensor (cfg : SYS_CONFIG_s) (env : SYS_PROXY_s)
    (s : SYS_STATE_s) (hcs : cfg.CURRENT_SENSOR_PRESENT = false)
    (hne : s.state ≠ SYS_STATEMACH_CHECK_CURRENT_SENSOR_PRESENCE) :
    (SYS_StateSwitch cfg env s).st.state ≠ SYS_STATEMACH_CHECK_CURRENT_SENSOR_PRESENCE := by
  cases s with
  | mk timer statereq state substate laststate lastsubstate triggerentry ec ic =>
    revert hne
    cases state <;>
      simp only [SYS_StateSwitch, SYS_Break, SYS_Trap, SYS_SAVELASTSTATES,
        SYS_TransferStateRequest] <;>
      (try split_ifs) <;> simp_all

/-- C14: a build without current sensor.  When the first measurement cycle is
finished, the switch, run in the wait substate of the first measurement stage,
requests the open-wire check and moves to the misc stage with substate entry;
run in the misc stage it disables the periodic transmission, initialises the
state of charge without current sensor (`SOC_Init(FALSE)`) and moves to the
BMS stage with substate entry; a call of `SYS_Trigger` with the flag clear and
the timer elapsed does the same.  No call of `SYS_Trigger` moves into the
current sensor stage from another state, and no sequence of calls started
from the initial value reaches it. -/
theorem SYS_no_current_sensor (cfg : SYS_CONFIG_s) (env : SYS_PROXY_s) (s : SYS_STATE_s)
    (evs : List SYS_EVENT) (hcs : cfg.CURRENT_SENSOR_PRESENT = false) :
    (s.state = SYS_STATEMACH_FIRST_MEASUREMENT_CYCLE →
        s.substate = SYS_WAIT_FIRST_MEASUREMENT_CYCLE →
        env.MEAS_IsFirstMeasurementCycleFinished = true →
        ((SYS_StateSwitch cfg env s).st.state = SYS_STATEMACH_INITIALIZE_MISC ∧
          (SYS_StateSwitch cfg env s).st.substate = SYS_ENTRY ∧
          (SYS_StateSwitch cfg env s).calls
            = [SYS_CALL.MEAS_IsFirstMeasurementCycleFinished,
               SYS_CALL.MEAS_Request_OpenWireCheck]) ∧
        (s.triggerentry = 0 → s.timer ≤ 1 →
          (SYS_Trigger cfg env s).st.state = SYS_STATEMACH_INITIALIZE_MISC ∧
          (SYS_Trigger cfg env s).st.substate = SYS_ENTRY)) ∧
      (s.state = SYS_STATEMACH_INITIALIZE_MISC →
        ((SYS_StateSwitch cfg env s).st.state = SYS_STATEMACH_INITIALIZE_BMS ∧
          (SYS_StateSwitch cfg env s).st.substate = SYS_ENTRY ∧
          (SYS_StateSwitch cfg env s).calls
            = [SYS_CALL.CANS_Enable_Periodic false, SYS_CALL.SOC_Init false]) ∧
        (s.triggerentry = 0 → s.timer ≤ 1 →
          (SYS_Trigger cfg env s).st.state = SYS_STATEMACH_INITIALIZE_BMS ∧
          (SYS_Trigger cfg env s).st.substate = SYS_ENTRY ∧
          (SYS_Trigger cfg env s).calls
            = [SYS_CALL.DIAG_SysMonNotify, SYS_CALL.CANS_Enable_Periodic false,
               SYS_CALL.SOC_Init false])) ∧
      (s.state ≠ SYS_STATEMACH_CHECK_CURRENT_SENSOR_PRESENCE →
        (SYS_Trigger cfg env s).st.state ≠ SYS_STATEMACH_CHECK_CURRENT_SENSOR_PRESENCE) ∧
      (SYS_Run cfg evs sys_state).st.state ≠ SYS_STATEMACH_CHECK_CURRENT_SENSOR_PRESENCE := by
  refine ⟨?_, ?_, ?_, ?_⟩
  · intro hs hsub hm
    have hsw : (SYS_StateSwitch cfg env s).st.state = SYS_STATEMACH_INITIALIZE_MISC ∧
        (SYS_StateSwitch cfg env s).st.substate = SYS_ENTRY ∧
        (SYS_StateSwitch cfg env s).calls
          = [SYS_CALL.MEAS_IsFirstMeasurementCycleFinished,
             SYS_CALL.MEAS_Request_OpenWireCheck] := by
      cases s with
      | mk timer statereq state substate laststate lastsubstate triggerentry ec ic =>
        simp only at hs hsub
        subst hs hsub
        simp [SYS_StateSwitch, SYS_Break, SYS_SAVELASTSTATES, hm, hcs]
    refine ⟨hsw, fun h0 ht => ?_⟩
    rw [SYS_Trigger_of_elapsed cfg env s h0 ht]
    obtain ⟨e1, e2, _, _⟩ := SYS_Dispatch_fields cfg env { s with timer := 0, triggerentry := 1 }
    rw [e1, e2]
    cases s with
    | mk timer statereq state substate laststate lastsubstate triggerentry ec ic =>
      simp only at hs hsub
      subst hs hsub
      simp [SYS_StateSwitch, SYS_Break, SYS_SAVELASTSTATES, hm, hcs]
  · intro hs
    have hsw : ∀ t : SYS_STATE_s, t.state = SYS_STATEMACH_INITIALIZE_MISC →
        (SYS_StateSwitch cfg env t).st.state = SYS_STATEMACH_INITIALIZE_BMS ∧
        (SYS_StateSwitch cfg env t).st.substate = SYS_ENTRY ∧
        (SYS_StateSwitch cfg env t).calls
          = [SYS_CALL.CANS_Enable_Periodic false, SYS_CALL.SOC_Init false] := by
      intro t ht
      cases t with
      | mk timer statereq state substate laststate lastsubstate triggerentry ec ic =>
        simp only at ht
        subst ht
        simp [SYS_StateSwitch, SYS_Break, SYS_SAVELASTSTATES, hcs]
    refine ⟨hsw s hs, fun h0 ht => ?_⟩
    rw [SYS_Trigger_of_elapsed cfg env s h0 ht]
    obtain ⟨e1, e2, _, _⟩ := SYS_Dispatch_fields cfg env { s with timer := 0, triggerentry := 1 }
    obtain ⟨c1, _⟩ := SYS_Dispatch_calls cfg env { s with timer := 0, triggerentry := 1 }
    obtain ⟨a, b, c⟩ := hsw { s with timer := 0, triggerentry := 1 } hs
    rw [e1, e2, c1, c]
    exact ⟨a, b, rfl⟩
  · intro hne
    rcases SYS_Trigger_state cfg env s with h | h
    · rw [h]
      exact hne
    · rw [h]
      exact SYS_StateSwitch_no_current_sensor cfg env { s with timer := 0, triggerentry := 1 }
        hcs hne
  · obtain ⟨_, _, r3, _⟩ := SYS_Run_invariant cfg evs sys_state (sys_state_invariant cfg)
    intro h
    rw [h] at r3
    simp only [SYS_Configured] at r3
    rw [hcs] at r3
    exact absurd r3 (by decide)

/-- C14 at concrete inputs: the build without current sensor, from the wait
substate of the first measurement stage with the measurement finished: one
call moves to the misc stage, the next one to the BMS stage. -/
theorem SYS_no_current_sensor_witness :
    SYS_config_bare.CURRENT_SENSOR_PRESENT = false ∧
      (SYS_Trigger SYS_config_bare SYS_proxy_ready
        (SYS_stateAt SYS_STATEMACH_FIRST_MEASUREMENT_CYCLE
          SYS_WAIT_FIRST_MEASUREMENT_CYCLE)).st.state = SYS_STATEMACH_INITIALIZE_MISC ∧
      (SYS_Trigger SYS_config_bare SYS_proxy_ready
        (SYS_stateAt SYS_STATEMACH_INITIALIZE_MISC SYS_ENTRY)).calls
        = [SYS_CALL.DIAG_SysMonNotify, SYS_CALL.CANS_Enable_Periodic false,
           SYS_CALL.SOC_Init false] :=
  ⟨by decide,
    (((SYS_no_current_sensor SYS_config_bare SYS_proxy_ready
      (SYS_stateAt SYS_STATEMACH_FIRST_MEASUREMENT_CYCLE SYS_WAIT_FIRST_MEASUREMENT_CYCLE) []
      (by decide)).1 (by decide) (by decide) (by decide)).2 (by decide) (by decide)).1,
    (((SYS_no_current_sensor SYS_config_bare SYS_proxy_ready
      (SYS_stateAt SYS_STATEMACH_INITIALIZE_MISC SYS_ENTRY) []
      (by decide)).2.1 (by decide)).2 (by decide) (by decide)).2.2⟩

end NoCurrentSensor

/-! ## The bring-up with every module ready -/

section BringUp

open SYS_STATEMACH_e SYS_STATEMACH_SUB_e SYS_STATE_REQUEST_e SYS_RETURN_TYPE_e
open STD_RETURN_TYPE_e ILCK_STATEMACH_e

/-- A module that is ready does not fail the poll of its stage. -/
theorem SYS_NotReady_of_AllReady (env : SYS_PROXY_s) (state : SYS_STATEMACH_e)
    (hr : SYS_AllReady env = true) : SYS_NotReady env state = false := by
  simp only [SYS_AllReady, decide_eq_true_eq] at hr
  obtain ⟨h1, h2, h3, h4, h5, h6⟩ := hr
  cases state <;> simp [SYS_NotReady, h1, h2, h3, h4, h5, h6]

/-- The configured stages behind a stage start with its next stage and go on
with the configured stages behind that one. -/
theorem SYS_StagesAfter_next (cfg : SYS_CONFIG_s) (state next : SYS_STATEMACH_e)
    (h : SYS_NextStage cfg state = some next) :
    (SYS_StagesAfter state).filter (SYS_Configured cfg)
      = next :: (SYS_StagesAfter next).filter (SYS_Configured cfg) := by
  cases hi : cfg.BUILD_MODULE_ENABLE_ILCK <;> cases hc : cfg.BUILD_MODULE_ENABLE_CONTACTOR <;>
    cases hs : cfg.CURRENT_SENSOR_PRESENT <;> cases state <;>
    simp [SYS_NextStage, SYS_StagesAfter, SYS_StageOrder, List.dropWhile, List.find?,
      SYS_Configured, hi, hc, hs] at h <;>
    subst h <;>
    simp [SYS_StagesAfter, SYS_StageOrder, List.dropWhile, List.filter, SYS_Configured,
      hi, hc, hs]

/-- Outside the error state a paired substate is entry or the wait substate
of the stage. -/
theorem SYS_Paired_cases (s : SYS_STATE_s) (hp : SYS_Paired s = true)
    (hne : s.state ≠ SYS_STATEMACH_ERROR) :
    s.substate = SYS_ENTRY ∨ SYS_WaitSubstate s.state = some s.substate := by
  cases s with
  | mk timer statereq state substate laststate lastsubstate triggerentry ec ic =>
    revert hp hne
    cases state <;> simp [SYS_Paired, SYS_WaitSubstate] <;>
      intro h <;> rcases h with h | h <;> simp [h]

set_option maxHeartbeats 1000000 in
/-- With every module ready, a run of the switch with the timer at zero leaves
a potential of at most the delays of the steps behind the one it ran. -/
theorem SYS_StateSwitch_progress (cfg : SYS_CONFIG_s) (env : SYS_PROXY_s) (s : SYS_STATE_s)
    (hr : SYS_AllReady env = true)
    (hc : SYS_Configured cfg s.state = true) (hp : SYS_Paired s = true)
    (hne : s.state ≠ SYS_STATEMACH_ERROR) (hrun : s.state ≠ SYS_STATEMACH_RUNNING)
    (hu : s.state = SYS_STATEMACH_UNINITIALIZED → s.statereq = SYS_STATE_INIT_REQUEST)
    (ht : s.timer = 0) :
    SYS_Potential cfg (SYS_StateSwitch cfg env s).st
        ≤ (16 - SYS_Progress s.state s.substate) * SYS_MaxDelay cfg ∧
      (SYS_StateSwitch cfg env s).st.state ≠ SYS_STATEMACH_UNINITIALIZED := by
  simp only [SYS_AllReady, decide_eq_true_eq] at hr
  obtain ⟨h1, h2, h3, h4, h5, h6⟩ := hr
  have hpc := SYS_Paired_cases s hp hne
  cases s with
  | mk timer statereq state substate laststate lastsubstate triggerentry ec ic =>
    simp only at ht hpc hu hne hrun hc
    subst ht
    clear hp
    cases state <;>
      simp only [SYS_WaitSubstate, reduceCtorEq, or_false, Option.some.injEq] at hpc <;>
      first
        | (exact absurd rfl hne)
        | (exact absurd rfl hrun)
        | (rcases hpc with hpc | hpc <;> subst hpc <;>
             simp only [SYS_Configured] at hc <;>
             simp only [SYS_StateSwitch, SYS_Break, SYS_Trap, SYS_SAVELASTSTATES, h1, h2, h3,
               h4, h5, h6, hc, if_true, if_false, reduceCtorEq] <;>
             (try split_ifs) <;>
             simp [SYS_Potential, SYS_Progress, SYS_MaxDelay] <;>
             omega)
        | (subst hpc
           simp only [forall_const] at hu
           subst hu
           simp only [SYS_StateSwitch, SYS_Break, SYS_Trap, SYS_SAVELASTSTATES,
             SYS_TransferStateRequest, if_true, if_false, reduceCtorEq]
           simp [SYS_Potential, SYS_Progress, SYS_MaxDelay]
           omega)
        | (subst hpc
           simp only [SYS_StateSwitch, SYS_Break, SYS_Trap, SYS_SAVELASTSTATES,
             SYS_TransferStateRequest, if_true, if_false, reduceCtorEq]
           (try split_ifs) <;>
           simp [SYS_Potential, SYS_Progress, SYS_MaxDelay] <;>
           omega)

/-- The potential depends on state, substate and timer only. -/
theorem SYS_Potential_congr (cfg : SYS_CONFIG_s) (a b : SYS_STATE_s)
    (h1 : a.state = b.state) (h2 : a.substate = b.substate) (h3 : a.timer = b.timer) :
    SYS_Potential cfg a = SYS_Potential cfg b := by
  simp only [SYS_Potential, h1, h2, h3]

/-- The pairing depends on state and substate only. -/
theorem SYS_Paired_congr (a b : SYS_STATE_s)
    (h1 : a.state = b.state) (h2 : a.substate = b.substate) :
    SYS_Paired a = SYS_Paired b := by
  simp only [SYS_Paired, h1, h2]

/-- One call of `SYS_Trigger` during the bring-up with every module ready: the
invariant is kept, the error state is not entered, the state stays or moves
to the next configured stage, and the potential goes down. -/
theorem SYS_Trigger_ready_tick (cfg : SYS_CONFIG_s) (env : SYS_PROXY_s) (s : SYS_STATE_s)
    (hr : SYS_AllReady env = true) (hi : SYS_Invariant cfg s)
    (hne : s.state ≠ SYS_STATEMACH_ERROR)
    (hu : s.state = SYS_STATEMACH_UNINITIALIZED → s.statereq = SYS_STATE_INIT_REQUEST) :
    (SYS_Trigger cfg env s).trapped = false ∧
      SYS_Invariant cfg (SYS_Trigger cfg env s).st ∧
      (SYS_Trigger cfg env s).st.state ≠ SYS_STATEMACH_ERROR ∧
      ((SYS_Trigger cfg env s).st.state = SYS_STATEMACH_UNINITIALIZED →
        (SYS_Trigger cfg env s).st.statereq = SYS_STATE_INIT_REQUEST) ∧
      ((SYS_Trigger cfg env s).st.state = s.state ∨
        SYS_NextStage cfg s.state = some (SYS_Trigger cfg env s).st.state) ∧
      (s.state ≠ SYS_STATEMACH_RUNNING →
        SYS_Potential cfg (SYS_Trigger cfg env s).st + 1 ≤ SYS_Potential cfg s) ∧
      (s.state = SYS_STATEMACH_RUNNING →
        (SYS_Trigger cfg env s).st.state = SYS_STATEMACH_RUNNING) := by
  obtain ⟨i1, i2⟩ := SYS_Trigger_invariant cfg env s hi
  obtain ⟨h0, hc, hp⟩ := hi
  have hnerr : (SYS_Trigger cfg env s).st.state ≠ SYS_STATEMACH_ERROR := by
    rcases SYS_Trigger_state cfg env s with h | h
    · rw [h]
      exact hne
    · rw [h]
      intro he
      have hnr := (SYS_StateSwitch_escalation_only cfg env
        { s with timer := 0, triggerentry := 1 } he hne).2.2.1
      have hrd := SYS_NotReady_of_AllReady env s.state hr
      change SYS_NotReady env s.state = true at hnr
      rw [hrd] at hnr
      exact absurd hnr (by decide)
  have hord : (SYS_Trigger cfg env s).st.state = s.state ∨
      SYS_NextStage cfg s.state = some (SYS_Trigger cfg env s).st.state := by
    rcases SYS_Trigger_state cfg env s with h | h
    · exact Or.inl h
    · rcases SYS_StateSwitch_order cfg env { s with timer := 0, triggerentry := 1 }
        with h1 | h1 | h1
      · exact Or.inl (h.trans h1)
      · exact absurd (h.trans h1) hnerr
      · right
        rw [h]
        exact h1
  have hrunning : s.state = SYS_STATEMACH_RUNNING →
      (SYS_Trigger cfg env s).st.state = SYS_STATEMACH_RUNNING := by
    intro hrn
    rcases SYS_Trigger_state cfg env s with h | h
    · rw [h, hrn]
    · rw [h]
      exact SYS_StateSwitch_running cfg env { s with timer := 0, triggerentry := 1 } hrn
  refine ⟨i1, i2, hnerr, ?_, hord, ?_, hrunning⟩
  · by_cases ht : s.timer ≤ 1
    · by_cases hrn : s.state = SYS_STATEMACH_RUNNING
      · intro hun
        rw [hrunning hrn] at hun
        exact absurd hun (by decide)
      · rw [SYS_Trigger_of_elapsed cfg env s h0 ht]
        obtain ⟨e1, _, _, _⟩ :=
          SYS_Dispatch_fields cfg env { s with timer := 0, triggerentry := 1 }
        have hp2 : SYS_Paired { s with timer := 0, triggerentry := 1 } = true :=
          (SYS_Paired_congr _ s rfl rfl).trans hp
        have hpr := (SYS_StateSwitch_progress cfg env { s with timer := 0, triggerentry := 1 }
          hr hc hp2 hne hrn hu rfl).2
        intro hun
        rw [e1] at hun
        exact absurd hun hpr
    · rw [SYS_Trigger_of_gate cfg env s h0 (by omega)]
      exact hu
  · intro hrn
    by_cases ht : s.timer ≤ 1
    · rw [SYS_Trigger_of_elapsed cfg env s h0 ht]
      obtain ⟨e1, e2, _, _⟩ :=
        SYS_Dispatch_fields cfg env { s with timer := 0, triggerentry := 1 }
      have e3 := SYS_Dispatch_timer cfg env { s with timer := 0, triggerentry := 1 }
      have hp2 : SYS_Paired { s with timer := 0, triggerentry := 1 } = true :=
        (SYS_Paired_congr _ s rfl rfl).trans hp
      have hpr := (SYS_StateSwitch_progress cfg env { s with timer := 0, triggerentry := 1 }
        hr hc hp2 hne hrn hu rfl).1
      rw [SYS_Potential_congr cfg _ _ e1 e2 e3]
      change SYS_Potential cfg
          (SYS_StateSwitch cfg env { s with timer := 0, triggerentry := 1 }).st
        ≤ (16 - SYS_Progress s.state s.substate) * SYS_MaxDelay cfg at hpr
      have hpot : SYS_Potential cfg s
          = max s.timer 1 + (16 - SYS_Progress s.state s.substate) * SYS_MaxDelay cfg := by
        simp [SYS_Potential, hrn]
      rw [hpot]
      omega
    · rw [SYS_Trigger_of_gate cfg env s h0 (by omega)]
      have hpot : SYS_Potential cfg s
          = max s.timer 1 + (16 - SYS_Progress s.state s.substate) * SYS_MaxDelay cfg := by
        simp [SYS_Potential, hrn]
      have hpot2 : SYS_Potential cfg { s with timer := s.timer - 1 }
          = max (s.timer - 1) 1 + (16 - SYS_Progress s.state s.substate) * SYS_MaxDelay cfg := by
        simp [SYS_Potential, hrn]
      rw [hpot, hpot2]
      omega

/-- Calls of `SYS_Trigger` with every module ready, as many as the potential
or more: they do not trap, end in the running state, and go through the
configured stages behind the starting state, in order. -/
theorem SYS_TriggerSeq_bring_up (cfg : SYS_CONFIG_s) (envs : List SYS_PROXY_s) :
    ∀ s : SYS_STATE_s, SYS_Invariant cfg s → s.state ≠ SYS_STATEMACH_ERROR →
      (s.state = SYS_STATEMACH_UNINITIALIZED → s.statereq = SYS_STATE_INIT_REQUEST) →
      (∀ env ∈ envs, SYS_AllReady env = true) →
      SYS_Potential cfg s ≤ envs.length →
      (SYS_TriggerSeq cfg envs s).trapped = false ∧
        (SYS_TriggerSeq cfg envs s).st.state = SYS_STATEMACH_RUNNING ∧
        SYS_Visited cfg envs s
          = s.state :: (SYS_StagesAfter s.state).filter (SYS_Configured cfg) := by
  induction envs with
  | nil =>
    intro s _ _ _ _ hpot
    have hrn : s.state = SYS_STATEMACH_RUNNING := by
      by_contra hrn
      simp only [SYS_Potential, hrn, if_false, List.length_nil] at hpot
      omega
    refine ⟨rfl, hrn, ?_⟩
    simp only [SYS_Visited, hrn]
    rfl
  | cons env envs ih =>
    intro s hi hne hu hr hpot
    obtain ⟨t1, t2, t3, t4, t5, t6, t7⟩ := SYS_Trigger_ready_tick cfg env s
      (hr env (List.mem_cons_self env envs)) hi hne hu
    have hpot2 : SYS_Potential cfg (SYS_Trigger cfg env s).st ≤ envs.length := by
      by_cases hrn : s.state = SYS_STATEMACH_RUNNING
      · simp [SYS_Potential, t7 hrn]
      · have := t6 hrn
        simp only [List.length_cons] at hpot
        omega
    obtain ⟨r1, r2, r3⟩ := ih (SYS_Trigger cfg env s).st t2 t3 t4
      (fun e hm => hr e (List.mem_cons_of_mem env hm)) hpot2
    rw [SYS_TriggerSeq_cons cfg env envs s t1]
    refine ⟨r1, r2, ?_⟩
    simp only [SYS_Visited, t1, Bool.false_eq_true, if_false]
    rcases t5 with h | h
    · simp only [h, if_true]
      rw [r3, h]
    · by_cases hsame : (SYS_Trigger cfg env s).st.state = s.state
      · simp only [hsame, if_true]
        rw [r3, hsame]
      · simp only [hsame, if_false]
        rw [r3, SYS_StagesAfter_next cfg s.state _ h]

/-- C15: the bring-up reaches the steady state.  For every build, after
`SYS_SetStateRequest(SYS_STATE_INIT_REQUEST)` on the initial value, which
returns `SYS_OK`, and with every module ready whenever it is polled, any
sequence of at least `1 + 16 * SYS_MaxDelay` calls of `SYS_Trigger` ends in the
running state without a trap; the states it goes through, in the order in
which they are entered, are exactly the configured stages in their traversal
order, from the uninitialized to the running state; and the error state is
not among them. -/
theorem SYS_bring_up (cfg : SYS_CONFIG_s) (envs : List SYS_PROXY_s)
    (hr : ∀ env ∈ envs, SYS_AllReady env = true)
    (hlen : SYS_BringUpTicks cfg ≤ envs.length) :
    (SYS_SetStateRequest sys_state SYS_STATE_INIT_REQUEST).2 = SYS_OK ∧
      (SYS_TriggerSeq cfg envs
        (SYS_SetStateRequest sys_state SYS_STATE_INIT_REQUEST).1).trapped = false ∧
      (SYS_TriggerSeq cfg envs
        (SYS_SetStateRequest sys_state SYS_STATE_INIT_REQUEST).1).st.state
        = SYS_STATEMACH_RUNNING ∧
      SYS_Visited cfg envs (SYS_SetStateRequest sys_state SYS_STATE_INIT_REQUEST).1
        = SYS_TraversalOrder cfg ∧
      SYS_STATEMACH_ERROR ∉
        SYS_Visited cfg envs (SYS_SetStateRequest sys_state SYS_STATE_INIT_REQUEST).1 := by
  have hinv : SYS_Invariant cfg (SYS_SetStateRequest sys_state SYS_STATE_INIT_REQUEST).1 :=
    SYS_SetStateRequest_invariant cfg sys_state SYS_STATE_INIT_REQUEST (sys_state_invariant cfg)
  have hpot : SYS_Potential cfg (SYS_SetStateRequest sys_state SYS_STATE_INIT_REQUEST).1
      ≤ envs.length := by
    have : SYS_Potential cfg (SYS_SetStateRequest sys_state SYS_STATE_INIT_REQUEST).1
        = SYS_BringUpTicks cfg := by
      simp [SYS_Potential, SYS_BringUpTicks, SYS_SetStateRequest, SYS_CheckStateRequest,
        sys_state, SYS_Progress]
    omega
  obtain ⟨r1, r2, r3⟩ := SYS_TriggerSeq_bring_up cfg envs
    (SYS_SetStateRequest sys_state SYS_STATE_INIT_REQUEST).1 hinv (by decide)
    (fun _ => by decide) hr hpot
  have hvis : SYS_Visited cfg envs (SYS_SetStateRequest sys_state SYS_STATE_INIT_REQUEST).1
      = SYS_TraversalOrder cfg := by
    rw [r3]
    rfl
  refine ⟨by decide, r1, r2, hvis, ?_⟩
  rw [hvis]
  intro hmem
  have := (List.mem_filter.mp hmem).1
  exact absurd this (by decide)

/-- C15 at concrete inputs: the build with every module, timer constants 1, 5
and 10, and 161 calls of `SYS_Trigger` with every module ready; and the same
build evaluated on 21 calls, which are enough there. -/
theorem SYS_bring_up_witness :
    SYS_BringUpTicks SYS_config_10ms ≤ (List.replicate 161 SYS_proxy_ready).length ∧
      (SYS_TriggerSeq SYS_config_10ms (List.replicate 161 SYS_proxy_ready)
        (SYS_SetStateRequest sys_state SYS_STATE_INIT_REQUEST).1).st.state
        = SYS_STATEMACH_RUNNING ∧
      SYS_Visited SYS_config_10ms (List.replicate 161 SYS_proxy_ready)
          (SYS_SetStateRequest sys_state SYS_STATE_INIT_REQUEST).1
        = [SYS_STATEMACH_UNINITIALIZED, SYS_STATEMACH_INITIALIZATION,
           SYS_STATEMACH_INITIALIZED, SYS_STATEMACH_INITIALIZE_INTERLOCK,
           SYS_STATEMACH_INITIALIZE_CONTACTORS, SYS_STATEMACH_INITIALIZE_BALANCING,
           SYS_STATEMACH_INITIALIZE_ISOGUARD, SYS_STATEMACH_FIRST_MEASUREMENT_CYCLE,
           SYS_STATEMACH_CHECK_CURRENT_SENSOR_PRESENCE, SYS_STATEMACH_INITIALIZE_MISC,
           SYS_STATEMACH_INITIALIZE_BMS, SYS_STATEMACH_RUNNING] ∧
      (SYS_TriggerSeq SYS_config_10ms (List.replicate 21 SYS_proxy_ready)
        (SYS_SetStateRequest sys_state SYS_STATE_INIT_REQUEST).1).st.state
        = SYS_STATEMACH_RUNNING ∧
      (SYS_TriggerSeq SYS_config_10ms (List.replicate 20 SYS_proxy_ready)
        (SYS_SetStateRequest sys_state SYS_STATE_INIT_REQUEST).1).st.state
        = SYS_STATEMACH_INITIALIZE_BMS :=
  ⟨by rw [List.length_replicate]; decide,
    (SYS_bring_up SYS_config_10ms (List.replicate 161 SYS_proxy_ready)
      (fun env h => by rw [List.eq_of_mem_replicate h]; rfl)
      (by rw [List.length_replicate]; decide)).2.2.1,
    (SYS_bring_up SYS_config_10ms (List.replicate 161 SYS_proxy_ready)
      (fun env h => by rw [List.eq_of_mem_replicate h]; rfl)
      (by rw [List.length_replicate]; decide)).2.2.2.1.trans (by decide),
    by decide, by decide⟩

end BringUp

/-! ## A pending error request, and the exact delay of the timer -/

section ErrorRequest

open SYS_STATEMACH_e SYS_STATEMACH_SUB_e SYS_STATE_REQUEST_e SYS_RETURN_TYPE_e
open STD_RETURN_TYPE_e

/-- The switch does the same with an error request pending as with no request
pending, in every field but the pending slot and the request counter, and
makes the same calls. -/
theorem SYS_StateSwitch_error_request (cfg : SYS_CONFIG_s) (env : SYS_PROXY_s)
    (s : SYS_STATE_s) :
    (SYS_StateSwitch cfg env { s with statereq := SYS_STATE_ERROR_REQUEST }).st.state
        = (SYS_StateSwitch cfg env { s with statereq := SYS_STATE_NO_REQUEST }).st.state ∧
      (SYS_StateSwitch cfg env { s with statereq := SYS_STATE_ERROR_REQUEST }).st.substate
        = (SYS_StateSwitch cfg env { s with statereq := SYS_STATE_NO_REQUEST }).st.substate ∧
      (SYS_StateSwitch cfg env { s with statereq := SYS_STATE_ERROR_REQUEST }).st.timer
        = (SYS_StateSwitch cfg env { s with statereq := SYS_STATE_NO_REQUEST }).st.timer ∧
      (SYS_StateSwitch cfg env { s with statereq := SYS_STATE_ERROR_REQUEST }).calls
        = (SYS_StateSwitch cfg env { s with statereq := SYS_STATE_NO_REQUEST }).calls ∧
      (SYS_StateSwitch cfg env { s with statereq := SYS_STATE_ERROR_REQUEST }).trapped
        = (SYS_StateSwitch cfg env { s with statereq := SYS_STATE_NO_REQUEST }).trapped := by
  cases s with
  | mk timer statereq state substate laststate lastsubstate triggerentry ec ic =>
    cases state <;>
      simp only [SYS_StateSwitch, SYS_Break, SYS_Trap, SYS_SAVELASTSTATES,
        SYS_TransferStateRequest] <;>
      (try split_ifs) <;> simp_all

/-- A call of `SYS_Trigger` does the same with an error request pending as with
no request pending, in state, substate and timer, in the calls it makes and in
whether it traps. -/
theorem SYS_Trigger_error_request (cfg : SYS_CONFIG_s) (env : SYS_PROXY_s) (s : SYS_STATE_s) :
    (SYS_Trigger cfg env { s with statereq := SYS_STATE_ERROR_REQUEST }).st.state
        = (SYS_Trigger cfg env { s with statereq := SYS_STATE_NO_REQUEST }).st.state ∧
      (SYS_Trigger cfg env { s with statereq := SYS_STATE_ERROR_REQUEST }).st.substate
        = (SYS_Trigger cfg env { s with statereq := SYS_STATE_NO_REQUEST }).st.substate ∧
      (SYS_Trigger cfg env { s with statereq := SYS_STATE_ERROR_REQUEST }).st.timer
        = (SYS_Trigger cfg env { s with statereq := SYS_STATE_NO_REQUEST }).st.timer ∧
      (SYS_Trigger cfg env { s with statereq := SYS_STATE_ERROR_REQUEST }).calls
        = (SYS_Trigger cfg env { s with statereq := SYS_STATE_NO_REQUEST }).calls ∧
      (SYS_Trigger cfg env { s with statereq := SYS_STATE_ERROR_REQUEST }).trapped
        = (SYS_Trigger cfg env { s with statereq := SYS_STATE_NO_REQUEST }).trapped := by
  by_cases h0 : s.triggerentry = 0
  · by_cases ht : s.timer ≤ 1
    · rw [SYS_Trigger_of_elapsed cfg env { s with statereq := SYS_STATE_ERROR_REQUEST } h0 ht,
        SYS_Trigger_of_elapsed cfg env { s with statereq := SYS_STATE_NO_REQUEST } h0 ht]
      obtain ⟨a1, a2, _, _⟩ := SYS_Dispatch_fields cfg env
        { s with statereq := SYS_STATE_ERROR_REQUEST, timer := 0, triggerentry := 1 }
      obtain ⟨b1, b2, _, _⟩ := SYS_Dispatch_fields cfg env
        { s with statereq := SYS_STATE_NO_REQUEST, timer := 0, triggerentry := 1 }
      have a3 := SYS_Dispatch_timer cfg env
        { s with statereq := SYS_STATE_ERROR_REQUEST, timer := 0, triggerentry := 1 }
      have b3 := SYS_Dispatch_timer cfg env
        { s with statereq := SYS_STATE_NO_REQUEST, timer := 0, triggerentry := 1 }
      obtain ⟨a4, a5⟩ := SYS_Dispatch_calls cfg env
        { s with statereq := SYS_STATE_ERROR_REQUEST, timer := 0, triggerentry := 1 }
      obtain ⟨b4, b5⟩ := SYS_Dispatch_calls cfg env
        { s with statereq := SYS_STATE_NO_REQUEST, timer := 0, triggerentry := 1 }
      obtain ⟨e1, e2, e3, e4, e5⟩ :=
        SYS_StateSwitch_error_request cfg env { s with timer := 0, triggerentry := 1 }
      exact ⟨a1.trans (e1.trans b1.symm), a2.trans (e2.trans b2.symm),
        a3.trans (e3.trans b3.symm), a4.trans ((congrArg _ e4).trans b4.symm),
        a5.trans (e5.trans b5.symm)⟩
    · rw [SYS_Trigger_of_gate cfg env { s with statereq := SYS_STATE_ERROR_REQUEST } h0
          (by simp only; omega),
        SYS_Trigger_of_gate cfg env { s with statereq := SYS_STATE_NO_REQUEST } h0
          (by simp only; omega)]
      exact ⟨rfl, rfl, rfl, rfl, rfl⟩
  · rw [SYS_Trigger_of_reentry cfg env { s with statereq := SYS_STATE_ERROR_REQUEST } h0,
      SYS_Trigger_of_reentry cfg env { s with statereq := SYS_STATE_NO_REQUEST } h0]
    exact ⟨rfl, rfl, rfl, rfl, rfl⟩

/-- No run of the switch moves into the uninitialized state. -/
theorem SYS_StateSwitch_not_uninitialized (cfg : SYS_CONFIG_s) (env : SYS_PROXY_s)
    (s : SYS_STATE_s) (h : s.state ≠ SYS_STATEMACH_UNINITIALIZED) :
    (SYS_StateSwitch cfg env s).st.state ≠ SYS_STATEMACH_UNINITIALIZED := by
  cases s with
  | mk timer statereq state substate laststate lastsubstate triggerentry ec ic =>
    revert h
    cases state <;>
      simp only [SYS_StateSwitch, SYS_Break, SYS_Trap, SYS_SAVELASTSTATES,
        SYS_TransferStateRequest] <;>
      (try split_ifs) <;> simp_all

/-- Outside the uninitialized state a call of `SYS_Trigger` stays outside it
and leaves the pending request as it is. -/
theorem SYS_Trigger_keeps_request (cfg : SYS_CONFIG_s) (env : SYS_PROXY_s) (s : SYS_STATE_s)
    (h : s.state ≠ SYS_STATEMACH_UNINITIALIZED) :
    (SYS_Trigger cfg env s).st.state ≠ SYS_STATEMACH_UNINITIALIZED ∧
      (SYS_Trigger cfg env s).st.statereq = s.statereq := by
  by_cases h0 : s.triggerentry = 0
  · by_cases ht : s.timer ≤ 1
    · rw [SYS_Trigger_of_elapsed cfg env s h0 ht]
      obtain ⟨e1, _, _, _⟩ := SYS_Dispatch_fields cfg env { s with timer := 0, triggerentry := 1 }
      refine ⟨?_, ?_⟩
      · rw [e1]
        exact SYS_StateSwitch_not_uninitialized cfg env { s with timer := 0, triggerentry := 1 } h
      · rw [SYS_Dispatch_st]
        have hsw := SYS_StateSwitch_statereq cfg env { s with timer := 0, triggerentry := 1 } h
        split_ifs <;> simpa using hsw
    · rw [SYS_Trigger_of_gate cfg env s h0 (by omega)]
      exact ⟨h, rfl⟩
  · rw [SYS_Trigger_of_reentry cfg env s h0]
    exact ⟨h, rfl⟩

/-- With an error request pending, `SYS_SetStateRequest` leaves an error
request pending, whatever is requested. -/
theorem SYS_SetStateRequest_keeps_error (s : SYS_STATE_s) (statereq : SYS_STATE_REQUEST_e)
    (h : s.statereq = SYS_STATE_ERROR_REQUEST) :
    (SYS_SetStateRequest s statereq).1.statereq = SYS_STATE_ERROR_REQUEST := by
  by_cases hr : statereq = SYS_STATE_ERROR_REQUEST
  · simp [SYS_SetStateRequest, SYS_CheckStateRequest, hr]
  · simp [SYS_SetStateRequest, SYS_CheckStateRequest, hr, h]

/-- Outside the uninitialized state an error request stays pending through
every sequence of calls. -/
theorem SYS_Run_keeps_error_request (cfg : SYS_CONFIG_s) (evs : List SYS_EVENT) :
    ∀ s : SYS_STATE_s, s.state ≠ SYS_STATEMACH_UNINITIALIZED →
      s.statereq = SYS_STATE_ERROR_REQUEST →
      (SYS_Run cfg evs s).st.state ≠ SYS_STATEMACH_UNINITIALIZED ∧
        (SYS_Run cfg evs s).st.statereq = SYS_STATE_ERROR_REQUEST := by
  induction evs with
  | nil =>
    intro s hs hr
    exact ⟨hs, hr⟩
  | cons ev evs ih =>
    intro s hs hr
    cases ev with
    | request statereq =>
      simp only [SYS_Run]
      refine ih _ ?_ (SYS_SetStateRequest_keeps_error s statereq hr)
      rw [(SYS_SetStateRequest_frame s statereq).1]
      exact hs
    | trigger env =>
      obtain ⟨t1, t2⟩ := SYS_Trigger_keeps_request cfg env s hs
      simp only [SYS_Run]
      by_cases htr : (SYS_Trigger cfg env s).trapped = true
      · simp only [htr, if_true]
        exact ⟨t1, t2.trans hr⟩
      · simp only [htr, Bool.false_eq_true, if_false]
        exact ih _ t1 (t2.trans hr)

/-- C21: an accepted error request has no effect on the course of the state
machine.  A call of `SYS_Trigger` on a state variable with an error request
pending leaves the same `state`, `substate` and timer, makes the same calls
and traps or not, as on the same state variable with no request pending; so it
moves to the error state with the error request pending exactly when it does
so without.  Outside the uninitialized state the error request stays pending
through every sequence of calls of `SYS_SetStateRequest` and `SYS_Trigger`,
and every request other than the error request made after such a sequence is
answered `SYS_REQUEST_PENDING`. -/
theorem SYS_error_request_no_effect (cfg : SYS_CONFIG_s) (env : SYS_PROXY_s) (s : SYS_STATE_s)
    (evs : List SYS_EVENT) (statereq : SYS_STATE_REQUEST_e) :
    ((SYS_Trigger cfg env { s with statereq := SYS_STATE_ERROR_REQUEST }).st.state
          = (SYS_Trigger cfg env { s with statereq := SYS_STATE_NO_REQUEST }).st.state ∧
        (SYS_Trigger cfg env { s with statereq := SYS_STATE_ERROR_REQUEST }).st.substate
          = (SYS_Trigger cfg env { s with statereq := SYS_STATE_NO_REQUEST }).st.substate ∧
        (SYS_Trigger cfg env { s with statereq := SYS_STATE_ERROR_REQUEST }).st.timer
          = (SYS_Trigger cfg env { s with statereq := SYS_STATE_NO_REQUEST }).st.timer ∧
        (SYS_Trigger cfg env { s with statereq := SYS_STATE_ERROR_REQUEST }).calls
          = (SYS_Trigger cfg env { s with statereq := SYS_STATE_NO_REQUEST }).calls ∧
        (SYS_Trigger cfg env { s with statereq := SYS_STATE_ERROR_REQUEST }).trapped
          = (SYS_Trigger cfg env { s with statereq := SYS_STATE_NO_REQUEST }).trapped) ∧
      ((SYS_Trigger cfg env { s with statereq := SYS_STATE_ERROR_REQUEST }).st.state
          = SYS_STATEMACH_ERROR ↔
        (SYS_Trigger cfg env { s with statereq := SYS_STATE_NO_REQUEST }).st.state
          = SYS_STATEMACH_ERROR) ∧
      (s.state ≠ SYS_STATEMACH_UNINITIALIZED → s.statereq = SYS_STATE_ERROR_REQUEST →
        (SYS_Run cfg evs s).st.statereq = SYS_STATE_ERROR_REQUEST ∧
        (statereq ≠ SYS_STATE_ERROR_REQUEST →
          (SYS_SetStateRequest (SYS_Run cfg evs s).st statereq).2 = SYS_REQUEST_PENDING)) := by
  have h1 := SYS_Trigger_error_request cfg env s
  refine ⟨h1, by rw [h1.1], ?_⟩
  intro hs hr
  obtain ⟨_, r2⟩ := SYS_Run_keeps_error_request cfg evs s hs hr
  refine ⟨r2, fun hreq => ?_⟩
  simp [SYS_SetStateRequest, SYS_CheckStateRequest, hreq, r2]

/-- C21 at concrete inputs: an error request accepted in the BMS stage is
still pending after three calls of `SYS_Trigger` that take the state machine
to the running state, and an init request made then is answered
`SYS_REQUEST_PENDING`; in the uninitialized state a call with the error
request pending leaves the state where a call with no request leaves it. -/
theorem SYS_error_request_no_effect_witness :
    (SYS_Run SYS_config_10ms
        [SYS_EVENT.trigger SYS_proxy_ready, SYS_EVENT.trigger SYS_proxy_ready,
         SYS_EVENT.trigger SYS_proxy_ready]
        (SYS_SetStateRequest (SYS_stateAt SYS_STATEMACH_INITIALIZE_BMS SYS_ENTRY)
          SYS_STATE_ERROR_REQUEST).1).st.state = SYS_STATEMACH_RUNNING ∧
      (SYS_Run SYS_config_10ms
        [SYS_EVENT.trigger SYS_proxy_ready, SYS_EVENT.trigger SYS_proxy_ready,
         SYS_EVENT.trigger SYS_proxy_ready]
        (SYS_SetStateRequest (SYS_stateAt SYS_STATEMACH_INITIALIZE_BMS SYS_ENTRY)
          SYS_STATE_ERROR_REQUEST).1).st.statereq = SYS_STATE_ERROR_REQUEST ∧
      (SYS_SetStateRequest
        (SYS_Run SYS_config_10ms
          [SYS_EVENT.trigger SYS_proxy_ready, SYS_EVENT.trigger SYS_proxy_ready,
           SYS_EVENT.trigger SYS_proxy_ready]
          (SYS_SetStateRequest (SYS_stateAt SYS_STATEMACH_INITIALIZE_BMS SYS_ENTRY)
            SYS_STATE_ERROR_REQUEST).1).st SYS_STATE_INIT_REQUEST).2 = SYS_REQUEST_PENDING ∧
      (SYS_Trigger SYS_config_10ms SYS_proxy_ready
        { sys_state with statereq := SYS_STATE_ERROR_REQUEST }).st.state
        = SYS_STATEMACH_UNINITIALIZED :=
  ⟨by decide,
    ((SYS_error_request_no_effect SYS_config_10ms SYS_proxy_ready
      (SYS_SetStateRequest (SYS_stateAt SYS_STATEMACH_INITIALIZE_BMS SYS_ENTRY)
        SYS_STATE_ERROR_REQUEST).1
      [SYS_EVENT.trigger SYS_proxy_ready, SYS_EVENT.trigger SYS_proxy_ready,
       SYS_EVENT.trigger SYS_proxy_ready] SYS_STATE_INIT_REQUEST).2.2
      (by decide) (by decide)).1,
    ((SYS_error_request_no_effect SYS_config_10ms SYS_proxy_ready
      (SYS_SetStateRequest (SYS_stateAt SYS_STATEMACH_INITIALIZE_BMS SYS_ENTRY)
        SYS_STATE_ERROR_REQUEST).1
      [SYS_EVENT.trigger SYS_proxy_ready, SYS_EVENT.trigger SYS_proxy_ready,
       SYS_EVENT.trigger SYS_proxy_ready] SYS_STATE_INIT_REQUEST).2.2
      (by decide) (by decide)).2 (by decide),
    ((SYS_error_request_no_effect SYS_config_10ms SYS_proxy_ready sys_state []
      SYS_STATE_INIT_REQUEST).1.1).trans (by decide)⟩

end ErrorRequest

section Countdown

open SYS_STATEMACH_e SYS_STATEMACH_SUB_e SYS_STATE_REQUEST_e SYS_RETURN_TYPE_e
open STD_RETURN_TYPE_e

/-- Calls of `SYS_Trigger` with the flag clear, fewer than the timer holds:
each of them only decrements the timer and notifies the system monitor. -/
theorem SYS_TriggerSeq_countdown (cfg : SYS_CONFIG_s) (envs : List SYS_PROXY_s) :
    ∀ s : SYS_STATE_s, s.triggerentry = 0 → envs.length + 1 ≤ s.timer →
      SYS_TriggerSeq cfg envs s
        = { st := { s with timer := s.timer - envs.length }
            calls := List.replicate envs.length SYS_CALL.DIAG_SysMonNotify
            trapped := false } := by
  induction envs with
  | nil =>
    intro s _ _
    simp [SYS_TriggerSeq]
  | cons env envs ih =>
    intro s h0 hlen
    simp only [List.length_cons] at hlen
    have hg := SYS_Trigger_of_gate cfg env s h0 (by omega)
    have ht : (SYS_Trigger cfg env s).trapped = false := by rw [hg]
    rw [SYS_TriggerSeq_cons cfg env envs s ht, hg]
    rw [ih { s with timer := s.timer - 1 } h0 (by simp only; omega)]
    simp only [List.length_cons, List.replicate_succ, List.singleton_append,
      SYS_TRIGGER_s.mk.injEq, SYS_STATE_s.mk.injEq, and_true, true_and]
    omega

/-- C22: the exact delay of the timer gate.  With the re-entrance flag clear
and the timer at n ≥ 1, any number k ≤ n - 1 of calls of `SYS_Trigger` changes
nothing but the timer, which goes down by one per call to n - k, and calls
nothing but the alive notification; the call after n - 1 such calls, the n-th,
takes the timer to zero and runs the switch in that same call, on the state
and substate the state variable had all along.  A timer of zero and a timer of
one make the same call: the switch runs in the very next call. -/
theorem SYS_countdown_exact (cfg : SYS_CONFIG_s) (envs : List SYS_PROXY_s) (env : SYS_PROXY_s)
    (s : SYS_STATE_s) (h0 : s.triggerentry = 0) (hlen : envs.length + 1 ≤ s.timer) :
    SYS_TriggerSeq cfg envs s
        = { st := { s with timer := s.timer - envs.length }
            calls := List.replicate envs.length SYS_CALL.DIAG_SysMonNotify
            trapped := false } ∧
      (envs.length + 1 = s.timer →
        SYS_Trigger cfg env (SYS_TriggerSeq cfg envs s).st
          = SYS_Dispatch cfg env { s with timer := 0, triggerentry := 1 }) ∧
      SYS_Trigger cfg env { s with timer := 0 } = SYS_Trigger cfg env { s with timer := 1 } := by
  have hseq := SYS_TriggerSeq_countdown cfg envs s h0 hlen
  refine ⟨hseq, ?_, ?_⟩
  · intro hn
    rw [hseq]
    have h1 : s.timer - envs.length = 1 := by omega
    simp only [h1]
    exact SYS_Trigger_of_elapsed cfg env { s with timer := 1 } h0 (Nat.le_refl 1)
  · rw [SYS_Trigger_of_elapsed cfg env { s with timer := 0 } h0 (Nat.zero_le 1),
      SYS_Trigger_of_elapsed cfg env { s with timer := 1 } h0 (Nat.le_refl 1)]

/-- C22 at concrete inputs: the initialization state with the timer at 3.  Two
calls leave the timer at 1 and everything else as it was; the third call
sends the boot message and moves to the initialized state. -/
theorem SYS_countdown_exact_witness :
    ({ SYS_stateAt SYS_STATEMACH_INITIALIZATION SYS_ENTRY with timer := 3 }
        : SYS_STATE_s).triggerentry = 0 ∧
      SYS_TriggerSeq SYS_config_10ms [SYS_proxy_ready, SYS_proxy_ready]
          { SYS_stateAt SYS_STATEMACH_INITIALIZATION SYS_ENTRY with timer := 3 }
        = { st := { SYS_stateAt SYS_STATEMACH_INITIALIZATION SYS_ENTRY with timer := 1 }
            calls := [SYS_CALL.DIAG_SysMonNotify, SYS_CALL.DIAG_SysMonNotify]
            trapped := false } ∧
      (SYS_Trigger SYS_config_10ms SYS_proxy_ready
        (SYS_TriggerSeq SYS_config_10ms [SYS_proxy_ready, SYS_proxy_ready]
          { SYS_stateAt SYS_STATEMACH_INITIALIZATION SYS_ENTRY with timer := 3 }).st).st.state
        = SYS_STATEMACH_INITIALIZED :=
  ⟨by decide,
    (SYS_countdown_exact SYS_config_10ms [SYS_proxy_ready, SYS_proxy_ready] SYS_proxy_ready
      { SYS_stateAt SYS_STATEMACH_INITIALIZATION SYS_ENTRY with timer := 3 }
      (by decide) (by decide)).1.trans (by decide),
    (congrArg (fun r => r.st.state)
      ((SYS_countdown_exact SYS_config_10ms [SYS_proxy_ready, SYS_proxy_ready] SYS_proxy_ready
        { SYS_stateAt SYS_STATEMACH_INITIALIZATION SYS_ENTRY with timer := 3 }
        (by decide) (by decide)).2.1 (by decide))).trans (by decide)⟩

end Countdown

end FoxBMS
